import Mathlib

/-!
Verification development for the payment-instruction service
(src/services/onboarding/payment-instructions.js).

JavaScript strings are modelled as lists of characters (`JStr`).
JavaScript numbers are modelled as exact integers, except where the
64-bit floating-point representation is observable (the `parseInt` /
`String` round-trip used by the amount rule), where rounding to 53
significant bits is modelled exactly on natural numbers.
-/

set_option maxRecDepth 10000

abbrev JStr := List Char

/-- Character list of a Lean string literal. -/
def str (s : String) : JStr := s.data

/-- Whitespace characters recognised by the model of `String.prototype.trim`. -/
def isJsSpace (c : Char) : Bool :=
  c = ' ' || c = '\t' || c = '\n' || c = '\r' || c = '\x0b' || c = '\x0c'

/-- ASCII upper-casing of one character, the model of `toUpperCase`. -/
def upChar (c : Char) : Char :=
  if 'a' ≤ c && c ≤ 'z' then Char.ofNat (c.toNat - 32) else c

/-- Model of `String.prototype.toUpperCase`. -/
def upStr (s : JStr) : JStr := s.map upChar

/-- Drop trailing JS whitespace. -/
def dropTrailingSpace (s : JStr) : JStr := (s.reverse.dropWhile isJsSpace).reverse

/-- Model of `String.prototype.trim`. -/
def jsTrim (s : JStr) : JStr := dropTrailingSpace (s.dropWhile isJsSpace)

/-- Model of `String.prototype.split(' ')`. -/
def splitSpace : JStr → List JStr
  | [] => [[]]
  | c :: rest =>
    match splitSpace rest with
    | [] => [[c]]
    | w :: ws => if c = ' ' then [] :: w :: ws else (c :: w) :: ws

/-- Model of `Array.prototype.join(' ')`. -/
def joinSpace : List JStr → JStr
  | [] => []
  | [w] => w
  | w :: ws => w ++ ' ' :: joinSpace ws

/-- Index of the first occurrence of `pat` in `s`, if any. -/
def findIdx0 (pat : JStr) : JStr → Option Nat
  | [] => if pat.isEmpty then some 0 else none
  | c :: rest =>
    if pat.isPrefixOf (c :: rest) then some 0 else (findIdx0 pat rest).map (· + 1)

/-- Index of the first occurrence of `pat` in `s` at or after `start`. -/
def findFrom (pat s : JStr) (start : Nat) : Option Nat :=
  (findIdx0 pat (s.drop start)).map (· + start)

/-- Model of `String.prototype.indexOf(pat, start)` with the JS `-1` sentinel
and clamping of negative start positions. -/
def jsIndexOf (s pat : JStr) (start : Int) : Int :=
  match findFrom pat s start.toNat with
  | some n => (n : Int)
  | none => -1

/-- Model of `String.prototype.substring(a, b)`: clamps both indices to the
string bounds and swaps them when given out of order. -/
def jsSubstring (s : JStr) (a b : Int) : JStr :=
  let len := s.length
  let x := min a.toNat len
  let y := min b.toNat len
  (s.take (max x y)).drop (min x y)

/-- Model of the one-argument `String.prototype.substring(a)`. -/
def jsSubstringFrom (s : JStr) (a : Int) : JStr := jsSubstring s a (s.length : Int)

def isDigitCh (c : Char) : Bool := '0' ≤ c && c ≤ '9'

/-- Numeric value of a list of decimal digit characters. -/
def digitsToNat (s : JStr) : Nat := s.foldl (fun a c => a * 10 + (c.toNat - 48)) 0

def digitChar (n : Nat) : Char := Char.ofNat (48 + n)

/-- Fuel-driven decimal digit expansion, so that it reduces by `decide`. -/
def natDigitsAux : Nat → Nat → JStr
  | 0, _ => []
  | fuel + 1, n => if n = 0 then [] else natDigitsAux fuel (n / 10) ++ [digitChar (n % 10)]

/-- Canonical decimal digit string of a natural number. -/
def natToDigits (n : Nat) : JStr := if n = 0 then ['0'] else natDigitsAux n n

/-- Fuel-driven bit length. -/
def bitLenAux : Nat → Nat → Nat
  | 0, _ => 0
  | fuel + 1, n => if n = 0 then 0 else bitLenAux fuel (n / 2) + 1

/-- Number of bits of a natural number (`0` for `0`). -/
def bitLen (n : Nat) : Nat := bitLenAux n n

/-- Round a natural number to the nearest IEEE-754 binary64 value
(53 significant bits, ties to even), computed exactly on naturals. -/
def roundDouble (n : Nat) : Nat :=
  if n < 2 ^ 53 then n
  else
    let e := bitLen n - 53
    let q := n / 2 ^ e
    let r := n % 2 ^ e
    let half := 2 ^ (e - 1)
    if r < half then q * 2 ^ e
    else if half < r then (q + 1) * 2 ^ e
    else if q % 2 = 0 then q * 2 ^ e
    else (q + 1) * 2 ^ e

/-- JS `+` / `+=` on integral doubles: the exact integer sum, rounded to the
nearest representable double (sign-symmetrically, as IEEE-754 demands). -/
def jsAddDouble (a b : Int) : Int :=
  if a + b < 0 then -((roundDouble (-(a + b)).toNat : Nat) : Int)
  else ((roundDouble (a + b).toNat : Nat) : Int)

/-- Model of `parseInt(s, 10)`: skip whitespace, optional sign, longest digit
prefix; `none` models `NaN`.  The resulting mathematical value is rounded to
the nearest double, as JS number semantics demand. -/
def jsParseInt (s : JStr) : Option Int :=
  let t := s.dropWhile isJsSpace
  let sign : Int := if t.head? = some '-' then -1 else 1
  let t2 := if t.head? = some '-' || t.head? = some '+' then t.tail else t
  let digs := t2.takeWhile isDigitCh
  if digs.isEmpty then none
  else some (sign * (roundDouble (digitsToNat digs) : Int))

def digitCount (n : Nat) : Nat := (natToDigits n).length

/-- Search for the shortest decimal mantissa that rounds back to `n`:
for each candidate digit count `k`, the nearest `k`-digit approximation is
tested for round-trip through double rounding. -/
def expSearch (n nd : Nat) : List Nat → Option (Nat × Nat)
  | [] => none
  | k :: ks =>
    let p := 10 ^ (nd - k)
    let c := (2 * n + p) / (2 * p)
    if roundDouble (c * p) = n then some (c, k) else expSearch n nd ks

/-- Exponential form used by JS `String` for integral doubles at or above
`10^21`: shortest round-tripping mantissa, then `e+<exponent>`. -/
def expForm (n : Nat) : JStr :=
  let nd := digitCount n
  match expSearch n nd (List.range' 1 nd) with
  | some (c, k) =>
    if c = 10 ^ k then '1' :: 'e' :: '+' :: natToDigits nd
    else
      match natToDigits c with
      | [] => natToDigits n
      | [d] => d :: 'e' :: '+' :: natToDigits (nd - 1)
      | d :: ds => d :: '.' :: ds ++ 'e' :: '+' :: natToDigits (nd - 1)
  | none => natToDigits n

/-- Model of `String(n)` for a non-negative integral double. -/
def jsNatToString (n : Nat) : JStr := if n < 10 ^ 21 then natToDigits n else expForm n

/-- Model of `String(v)` for an integral double. -/
def jsNumToString (v : Int) : JStr :=
  if v < 0 then '-' :: jsNatToString (-v).toNat else jsNatToString v.toNat

/-- Model of `parseInt(s, 10) || null` used by the response assembler:
`NaN` and `0` (and `-0`) collapse to `null`. -/
def jsParseIntOrNull (s : JStr) : Option Int :=
  match jsParseInt s with
  | none => none
  | some v => if v = 0 then none else some v

/-! ## Data model of the service -/

structure Account where
  id : JStr
  balance : Int
  currency : JStr
  deriving DecidableEq, Repr

/-- Draft transfer produced by the parser (`type`, raw amount and currency
tokens, the two account identifiers, optional raw date string). -/
structure Draft where
  ptype : JStr
  amount : JStr
  currency : JStr
  debitAccount : JStr
  creditAccount : JStr
  executeBy : Option JStr
  deriving DecidableEq, Repr

/-- Error object carrying a status code and a human-readable reason. -/
structure ErrObj where
  statusCode : JStr
  statusReason : JStr
  deriving DecidableEq, Repr

structure Snapshot where
  id : JStr
  balance : Int
  balance_before : Int
  currency : JStr
  deriving DecidableEq, Repr

/-- Response payload (field `rtype` models `type`, `raccounts` models
`accounts`; `Option` models JS `null`). -/
structure RData where
  rtype : Option JStr
  amount : Option Int
  currency : Option JStr
  debit_account : Option JStr
  credit_account : Option JStr
  execute_by : Option JStr
  status : JStr
  status_reason : JStr
  status_code : JStr
  raccounts : List Snapshot
  deriving DecidableEq, Repr

structure Response where
  httpStatus : Nat
  data : RData
  deriving DecidableEq, Repr

structure ServiceData where
  accounts : List Account
  instruction : JStr
  deriving DecidableEq, Repr

/-- UTC calendar date at day granularity. -/
structure Date3 where
  year : Nat
  month : Nat
  day : Nat
  deriving DecidableEq, Repr

/-- Day-granularity comparison of two calendar dates (lexicographic), the
model of comparing the two UTC-midnight `Date` values. -/
def dateLe (a b : Date3) : Bool :=
  a.year < b.year ||
    (a.year = b.year &&
      (a.month < b.month || (a.month = b.month && a.day ≤ b.day)))

/-! ## Parser -/

/-- Collapse runs of whitespace: `trim`, split on single spaces, drop empty
words, re-join with single spaces (from `parseInstruction`). -/
def normalizeInstr (s : JStr) : JStr :=
  joinSpace ((splitSpace (jsTrim s)).filter (fun w => w.length > 0))

/-- Translation of `parseDebitInstruction`: scan for the keyword positions,
check presence then order, then extract the value substrings.  Thrown JS
errors are modelled as `Except.error` carrying the message. -/
def parseDebitInstruction (instruction : JStr) : Except JStr Draft :=
  let upper := upStr instruction
  let debitPos := jsIndexOf upper (str "DEBIT") 0
  let fromPos := jsIndexOf upper (str "FROM") 0
  let accountPos1 := jsIndexOf upper (str "ACCOUNT") fromPos
  let forPos := jsIndexOf upper (str "FOR") 0
  let creditPos := jsIndexOf upper (str "CREDIT") forPos
  let toPos := jsIndexOf upper (str "TO") creditPos
  let accountPos2 := jsIndexOf upper (str "ACCOUNT") toPos
  let onPos := jsIndexOf upper (str "ON") accountPos2
  if debitPos = -1 then .error (str "Missing required keyword: DEBIT")
  else if fromPos = -1 then .error (str "Missing required keyword: FROM")
  else if accountPos1 = -1 then .error (str "Missing required keyword: ACCOUNT after FROM")
  else if forPos = -1 then .error (str "Missing required keyword: FOR")
  else if creditPos = -1 then .error (str "Missing required keyword: CREDIT")
  else if toPos = -1 then .error (str "Missing required keyword: TO")
  else if accountPos2 = -1 then .error (str "Missing required keyword: ACCOUNT after TO")
  else if ¬(debitPos < fromPos ∧ fromPos < accountPos1 ∧ accountPos1 < forPos ∧
      forPos < creditPos ∧ creditPos < toPos ∧ toPos < accountPos2) then
    .error (str "Invalid keyword order")
  else
    let amountCurrencyPart := jsTrim (jsSubstring instruction (debitPos + 5) fromPos)
    let amountCurrencyTokens := (splitSpace amountCurrencyPart).filter (fun t => t.length > 0)
    match amountCurrencyTokens with
    | [amount, currency] =>
      let debitAccount := jsTrim (jsSubstring instruction (accountPos1 + 7) forPos)
      let creditAccount :=
        if onPos > accountPos2 then jsTrim (jsSubstring instruction (accountPos2 + 7) onPos)
        else jsTrim (jsSubstringFrom instruction (accountPos2 + 7))
      let executeBy :=
        if onPos > accountPos2 then some (jsTrim (jsSubstringFrom instruction (onPos + 2)))
        else none
      .ok ⟨str "DEBIT", amount, upStr currency, debitAccount, creditAccount, executeBy⟩
    | _ => .error (str "Invalid format: expected amount and currency after DEBIT")

/-- Translation of `parseCreditInstruction`. -/
def parseCreditInstruction (instruction : JStr) : Except JStr Draft :=
  let upper := upStr instruction
  let creditPos := jsIndexOf upper (str "CREDIT") 0
  let toPos := jsIndexOf upper (str "TO") 0
  let accountPos1 := jsIndexOf upper (str "ACCOUNT") toPos
  let forPos := jsIndexOf upper (str "FOR") 0
  let debitPos := jsIndexOf upper (str "DEBIT") forPos
  let fromPos := jsIndexOf upper (str "FROM") debitPos
  let accountPos2 := jsIndexOf upper (str "ACCOUNT") fromPos
  let onPos := jsIndexOf upper (str "ON") accountPos2
  if creditPos = -1 then .error (str "Missing required keyword: CREDIT")
  else if toPos = -1 then .error (str "Missing required keyword: TO")
  else if accountPos1 = -1 then .error (str "Missing required keyword: ACCOUNT after TO")
  else if forPos = -1 then .error (str "Missing required keyword: FOR")
  else if debitPos = -1 then .error (str "Missing required keyword: DEBIT")
  else if fromPos = -1 then .error (str "Missing required keyword: FROM")
  else if accountPos2 = -1 then .error (str "Missing required keyword: ACCOUNT after FROM")
  else if ¬(creditPos < toPos ∧ toPos < accountPos1 ∧ accountPos1 < forPos ∧
      forPos < debitPos ∧ debitPos < fromPos ∧ fromPos < accountPos2) then
    .error (str "Invalid keyword order")
  else
    let amountCurrencyPart := jsTrim (jsSubstring instruction (creditPos + 6) toPos)
    let amountCurrencyTokens := (splitSpace amountCurrencyPart).filter (fun t => t.length > 0)
    match amountCurrencyTokens with
    | [amount, currency] =>
      let creditAccount := jsTrim (jsSubstring instruction (accountPos1 + 7) forPos)
      let debitAccount :=
        if onPos > accountPos2 then jsTrim (jsSubstring instruction (accountPos2 + 7) onPos)
        else jsTrim (jsSubstringFrom instruction (accountPos2 + 7))
      let executeBy :=
        if onPos > accountPos2 then some (jsTrim (jsSubstringFrom instruction (onPos + 2)))
        else none
      .ok ⟨str "CREDIT", amount, upStr currency, debitAccount, creditAccount, executeBy⟩
    | _ => .error (str "Invalid format: expected amount and currency after CREDIT")

/-- Translation of `parseInstruction`: falsy input is `SY03`; the leading
keyword selects the form (`SY01` when neither leads); thrown errors from the
form-specific routines are caught and reported as `SY03` with the thrown
message as the reason. -/
def parseInstruction (instruction : JStr) : Except ErrObj Draft :=
  if instruction = [] then
    .error ⟨str "SY03", str "Malformed instruction: unable to parse keywords"⟩
  else
    let normalized := normalizeInstr instruction
    let upper := upStr normalized
    if jsIndexOf upper (str "DEBIT") 0 = 0 then
      match parseDebitInstruction normalized with
      | .ok d => .ok d
      | .error m => .error ⟨str "SY03", m⟩
    else if jsIndexOf upper (str "CREDIT") 0 = 0 then
      match parseCreditInstruction normalized with
      | .ok d => .ok d
      | .error m => .error ⟨str "SY03", m⟩
    else .error ⟨str "SY01", str "Missing required keyword: DEBIT or CREDIT"⟩

/-! ## Validator chain -/

def SUPPORTED_CURRENCIES : List JStr := [str "NGN", str "USD", str "GBP", str "GHS"]

/-- Per-character account identifier check (letters, digits, `-`, `.`, `@`). -/
def isValidAccountId (id : JStr) : Bool :=
  id ≠ [] && id.all (fun c =>
    ('a' ≤ c && c ≤ 'z') || ('A' ≤ c && c ≤ 'Z') || ('0' ≤ c && c ≤ '9') ||
    c = '-' || c = '.' || c = '@')

def isLeapYear (y : Nat) : Bool := (y % 4 = 0 && y % 100 ≠ 0) || y % 400 = 0

def daysInMonth (y m : Nat) : Nat :=
  if m = 2 then (if isLeapYear y then 29 else 28)
  else if m = 4 || m = 6 || m = 9 || m = 11 then 30
  else 31

/-- Translation of `validateDate`: exactly ten characters, dashes at
positions 4 and 7, all-digit segments, and a real calendar date (the model
of `new Date` returning a valid time value for the ISO string). -/
def validateDate (dateStr : JStr) : Except ErrObj Date3 :=
  if dateStr = [] || dateStr.length ≠ 10 then
    .error ⟨str "DT01", str "Invalid date format. Expected YYYY-MM-DD"⟩
  else if dateStr.getD 4 ' ' ≠ '-' || dateStr.getD 7 ' ' ≠ '-' then
    .error ⟨str "DT01", str "Invalid date format. Expected YYYY-MM-DD"⟩
  else
    let year := jsSubstring dateStr 0 4
    let month := jsSubstring dateStr 5 7
    let day := jsSubstring dateStr 8 10
    if ¬(year.all isDigitCh) then
      .error ⟨str "DT01", str "Invalid date format. Expected YYYY-MM-DD"⟩
    else if ¬(month.all isDigitCh) then
      .error ⟨str "DT01", str "Invalid date format. Expected YYYY-MM-DD"⟩
    else if ¬(day.all isDigitCh) then
      .error ⟨str "DT01", str "Invalid date format. Expected YYYY-MM-DD"⟩
    else
      let y := digitsToNat year
      let m := digitsToNat month
      let d := digitsToNat day
      if 1 ≤ m && m ≤ 12 && 1 ≤ d && d ≤ daysInMonth y m then .ok ⟨y, m, d⟩
      else .error ⟨str "DT01", str "Invalid date"⟩

/-- Translation of `validateInstruction`: the ordered validator chain.
Returns `none` on success or the first failing rule's error object. -/
def validateInstruction (parsed : Draft) (accounts : List Account) : Option ErrObj :=
  if parsed.amount = [] || parsed.amount.contains '.' || parsed.amount.contains '-' then
    some ⟨str "AM01", str "Amount must be a positive integer"⟩
  else
    match jsParseInt parsed.amount with
    | none => some ⟨str "AM01", str "Amount must be a positive integer"⟩
    | some amountNum =>
      if amountNum ≤ 0 || parsed.amount ≠ jsNumToString amountNum then
        some ⟨str "AM01", str "Amount must be a positive integer"⟩
      else if ¬(SUPPORTED_CURRENCIES.contains parsed.currency) then
        some ⟨str "CU02", str "Unsupported currency. Only NGN, USD, GBP, and GHS are supported"⟩
      else if ¬(isValidAccountId parsed.debitAccount) then
        some ⟨str "AC04", str "Invalid account ID format for debit account"⟩
      else if ¬(isValidAccountId parsed.creditAccount) then
        some ⟨str "AC04", str "Invalid account ID format for credit account"⟩
      else if parsed.debitAccount = parsed.creditAccount then
        some ⟨str "AC02", str "Debit and credit accounts cannot be the same"⟩
      else
        match accounts.find? (fun a => a.id == parsed.debitAccount),
            accounts.find? (fun a => a.id == parsed.creditAccount) with
        | none, _ => some ⟨str "AC03", str "Account not found: " ++ parsed.debitAccount⟩
        | some _, none => some ⟨str "AC03", str "Account not found: " ++ parsed.creditAccount⟩
        | some debitAcc, some creditAcc =>
          if upStr debitAcc.currency ≠ parsed.currency then
            some ⟨str "CU01", str "Account currency mismatch"⟩
          else if upStr creditAcc.currency ≠ parsed.currency then
            some ⟨str "CU01", str "Account currency mismatch"⟩
          else if debitAcc.balance < amountNum then
            some ⟨str "AC01",
              str "Insufficient funds in account " ++ parsed.debitAccount ++ str ": has " ++
                jsNumToString debitAcc.balance ++ str " " ++ parsed.currency ++ str ", needs " ++
                jsNumToString amountNum ++ str " " ++ parsed.currency⟩
          else
            match parsed.executeBy with
            | none => none
            | some e =>
              if e = [] then none
              else
                match validateDate e with
                | .error dv => some dv
                | .ok _ => none

/-! ## Scheduler and executor -/

/-- Translation of `shouldExecuteImmediately`, parameterised by the current
UTC day `now`. -/
def shouldExecuteImmediately (executeBy : Option JStr) (now : Date3) : Bool :=
  match executeBy with
  | none => true
  | some e =>
    if e = [] then true
    else
      match validateDate e with
      | .error _ => false
      | .ok target => dateLe target now

/-- In-place balance mutation is modelled by rebuilding the list with the
first account of the given id updated by `delta` through float64 addition
(`balance += delta` in JS is double arithmetic). -/
def updateFirst : List Account → JStr → Int → List Account
  | [], _, _ => []
  | a :: rest, id, delta =>
    if a.id == id then { a with balance := jsAddDouble a.balance delta } :: rest
    else a :: updateFirst rest id delta

/-- Translation of `executeTransaction`: returns the two response snapshots
(with pre-transfer balances) and the mutated account list.  The JS code only
runs this after validation, so both accounts are present; the `getD`
defaults are unreachable there. -/
def executeTransaction (parsed : Draft) (accounts : List Account) :
    Snapshot × Snapshot × List Account :=
  let amountNum := (jsParseInt parsed.amount).getD 0
  let debitAcc := (accounts.find? (fun a => a.id == parsed.debitAccount)).getD ⟨[], 0, []⟩
  let creditAcc := (accounts.find? (fun a => a.id == parsed.creditAccount)).getD ⟨[], 0, []⟩
  let accounts1 := updateFirst accounts parsed.debitAccount (-amountNum)
  let accounts2 := updateFirst accounts1 parsed.creditAccount amountNum
  (⟨debitAcc.id, jsAddDouble debitAcc.balance (-amountNum), debitAcc.balance,
     upStr debitAcc.currency⟩,
   ⟨creditAcc.id, jsAddDouble creditAcc.balance amountNum, creditAcc.balance,
     upStr creditAcc.currency⟩,
   accounts2)

/-! ## Main service -/

/-- Translation of `paymentInstructionsService`.  The in-place account
mutation is made explicit: the function returns the response together with
the account list as it stands after the call. -/
def paymentInstructionsService (now : Date3) (serviceData : ServiceData) :
    Response × List Account :=
  let accounts := serviceData.accounts
  match parseInstruction serviceData.instruction with
  | .error pe =>
    (⟨400, ⟨none, none, none, none, none, none, str "failed",
      pe.statusReason, pe.statusCode, []⟩⟩, accounts)
  | .ok parsed =>
    match validateInstruction parsed accounts with
    | some ve =>
      let responseAccounts := accounts.filterMap (fun acc =>
        if acc.id == parsed.debitAccount || acc.id == parsed.creditAccount then
          some ⟨acc.id, acc.balance, acc.balance, upStr acc.currency⟩
        else none)
      (⟨400, ⟨some parsed.ptype, jsParseIntOrNull parsed.amount, some parsed.currency,
        some parsed.debitAccount, some parsed.creditAccount, parsed.executeBy,
        str "failed", ve.statusReason, ve.statusCode, responseAccounts⟩⟩, accounts)
    | none =>
      if shouldExecuteImmediately parsed.executeBy now then
        let result := executeTransaction parsed accounts
        let responseAccounts := accounts.filterMap (fun acc =>
          if acc.id == parsed.debitAccount || acc.id == parsed.creditAccount then
            some (if acc.id == parsed.debitAccount then result.1 else result.2.1)
          else none)
        (⟨200, ⟨some parsed.ptype, jsParseInt parsed.amount, some parsed.currency,
          some parsed.debitAccount, some parsed.creditAccount, parsed.executeBy,
          str "successful", str "Transaction executed successfully", str "AP00",
          responseAccounts⟩⟩, result.2.2)
      else
        let responseAccounts := accounts.filterMap (fun acc =>
          if acc.id == parsed.debitAccount || acc.id == parsed.creditAccount then
            some ⟨acc.id, acc.balance, acc.balance, upStr acc.currency⟩
          else none)
        (⟨200, ⟨some parsed.ptype, jsParseInt parsed.amount, some parsed.currency,
          some parsed.debitAccount, some parsed.creditAccount, parsed.executeBy,
          str "pending", str "Transaction scheduled for future execution", str "AP02",
          responseAccounts⟩⟩, accounts)

/-! ## Specification-side definitions for refinement claims -/

/-- First failing rule of an ordered list of (failed?, error) pairs;
written from the spec's description of the short-circuiting chain. -/
def firstFailing : List (Bool × ErrObj) → Option ErrObj
  | [] => none
  | (failed, e) :: rest => if failed then some e else firstFailing rest

/-- Amount well-formedness rule, written from the spec's words: no dot, no
minus, parses as an integer, strictly positive, and re-stringifying the
parsed integer equals the raw string. -/
def ruleAmountOk (s : JStr) : Bool :=
  !(s.contains '.') && !(s.contains '-') &&
    match jsParseInt s with
    | none => false
    | some v => 0 < v && s = jsNumToString v

/-- Numeric value of the amount once rule 1 has passed. -/
def specAmountValue (s : JStr) : Int := (jsParseInt s).getD 0

/-- Date rule outcome, written from the spec's words: fires only if a date
was supplied, with the date validator's error. -/
def specDateRule (p : Draft) : Option ErrObj :=
  match p.executeBy with
  | none => none
  | some e =>
    if e = [] then none
    else
      match validateDate e with
      | .error dv => some dv
      | .ok _ => none

/-- Validator chain written from the spec's contract: the first failing
rule's error, evaluated strictly in the order AM01, CU02, AC04 (debit then
credit), AC02, AC03 (debit then credit), CU01 (debit then credit), AC01,
DT01 (only if a date was supplied). -/
def chainSpec (p : Draft) (accounts : List Account) : Option ErrObj :=
  let debitAcc := accounts.find? (fun a => a.id == p.debitAccount)
  let creditAcc := accounts.find? (fun a => a.id == p.creditAccount)
  let dAcc := debitAcc.getD ⟨[], 0, []⟩
  let cAcc := creditAcc.getD ⟨[], 0, []⟩
  let amt := specAmountValue p.amount
  (firstFailing [
    (!(ruleAmountOk p.amount), ⟨str "AM01", str "Amount must be a positive integer"⟩),
    (!(SUPPORTED_CURRENCIES.contains p.currency),
      ⟨str "CU02", str "Unsupported currency. Only NGN, USD, GBP, and GHS are supported"⟩),
    (!(isValidAccountId p.debitAccount),
      ⟨str "AC04", str "Invalid account ID format for debit account"⟩),
    (!(isValidAccountId p.creditAccount),
      ⟨str "AC04", str "Invalid account ID format for credit account"⟩),
    (p.debitAccount == p.creditAccount,
      ⟨str "AC02", str "Debit and credit accounts cannot be the same"⟩),
    (debitAcc.isNone, ⟨str "AC03", str "Account not found: " ++ p.debitAccount⟩),
    (creditAcc.isNone, ⟨str "AC03", str "Account not found: " ++ p.creditAccount⟩),
    (upStr dAcc.currency ≠ p.currency, ⟨str "CU01", str "Account currency mismatch"⟩),
    (upStr cAcc.currency ≠ p.currency, ⟨str "CU01", str "Account currency mismatch"⟩),
    (dAcc.balance < amt,
      ⟨str "AC01",
        str "Insufficient funds in account " ++ p.debitAccount ++ str ": has " ++
          jsNumToString dAcc.balance ++ str " " ++ p.currency ++ str ", needs " ++
          jsNumToString amt ++ str " " ++ p.currency⟩)]).orElse
    (fun _ => specDateRule p)

/-! ## Helper lemmas -/

lemma natDigitsAux_ne_nil (f n : Nat) (hn : n ≠ 0) (hf : f ≠ 0) : natDigitsAux f n ≠ [] := by
  cases f with
  | zero => exact absurd rfl hf
  | succ f => simp [natDigitsAux, hn]

lemma natToDigits_ne_nil (n : Nat) : natToDigits n ≠ [] := by
  unfold natToDigits
  split
  · simp
  · exact natDigitsAux_ne_nil n n (by omega) (by omega)

lemma expForm_ne_nil (n : Nat) : expForm n ≠ [] := by
  unfold expForm
  dsimp only
  split
  · split
    · simp
    · split
      · exact natToDigits_ne_nil n
      · simp
      · simp
  · exact natToDigits_ne_nil n

lemma jsNatToString_ne_nil (n : Nat) : jsNatToString n ≠ [] := by
  unfold jsNatToString
  split
  · exact natToDigits_ne_nil n
  · exact expForm_ne_nil n

lemma jsNumToString_ne_nil (v : Int) : jsNumToString v ≠ [] := by
  unfold jsNumToString
  split
  · simp
  · exact jsNatToString_ne_nil v.toNat

set_option maxHeartbeats 1600000 in
theorem validate_chain_core (am cur da ca : JStr) (o : Option Int) (fd fc : Option Account)
    (amErr cu02 d04 c04 a02 a03d a03c cu1d cu1c : ErrObj) (ac01msg : Int → Account → ErrObj)
    (dt : Option ErrObj) :
    (if am = [] || am.contains '.' || am.contains '-' then some amErr
    else
      match o with
      | none => some amErr
      | some amountNum =>
        if amountNum ≤ 0 || am ≠ jsNumToString amountNum then some amErr
        else if ¬(SUPPORTED_CURRENCIES.contains cur) then some cu02
        else if ¬(isValidAccountId da) then some d04
        else if ¬(isValidAccountId ca) then some c04
        else if da = ca then some a02
        else
          match fd, fc with
          | none, _ => some a03d
          | some _, none => some a03c
          | some debitAcc, some creditAcc =>
            if upStr debitAcc.currency ≠ cur then some cu1d
            else if upStr creditAcc.currency ≠ cur then some cu1c
            else if debitAcc.balance < amountNum then some (ac01msg amountNum debitAcc)
            else dt) =
    ((firstFailing [
      (!(!(am.contains '.') && !(am.contains '-') &&
          match o with
          | none => false
          | some v => 0 < v && am = jsNumToString v), amErr),
      (!(SUPPORTED_CURRENCIES.contains cur), cu02),
      (!(isValidAccountId da), d04),
      (!(isValidAccountId ca), c04),
      (da == ca, a02),
      (fd.isNone, a03d),
      (fc.isNone, a03c),
      (upStr (fd.getD ⟨[], 0, []⟩).currency ≠ cur, cu1d),
      (upStr (fc.getD ⟨[], 0, []⟩).currency ≠ cur, cu1c),
      ((fd.getD ⟨[], 0, []⟩).balance < o.getD 0,
        ac01msg (o.getD 0) (fd.getD ⟨[], 0, []⟩))]).orElse
    (fun _ => dt)) := by
  simp only [firstFailing, Option.orElse]
  rcases o with _ | v
  · simp [ite_self]
  · by_cases hv : v ≤ 0
    · have h0 : ¬(0 : Int) < v := by omega
      simp [hv, h0]
    · have h0 : (0 : Int) < v := by omega
      by_cases hs : am = jsNumToString v
      · have hne2 : jsNumToString v ≠ [] := jsNumToString_ne_nil v
        cases hc2 : List.contains am '.' <;> cases hc3 : List.contains am '-' <;>
          rcases fd with _ | dacc <;> rcases fc with _ | cacc <;>
          simp [hv, h0, hs, hne2, hc2, hc3, ite_self] <;>
          split_ifs <;> simp_all
      · simp [hs, h0, hv, ite_self]

instance {e a : Type} [DecidableEq e] [DecidableEq a] : DecidableEq (Except e a) := fun x y =>
  match x, y with
  | .ok u, .ok v => if h : u = v then .isTrue (by rw [h]) else .isFalse (by simp [h])
  | .error u, .error v => if h : u = v then .isTrue (by rw [h]) else .isFalse (by simp [h])
  | .ok _, .error _ => .isFalse (by simp)
  | .error _, .ok _ => .isFalse (by simp)

/-- Shared helper: the code's validator equals the spec's rule chain. -/
theorem validate_eq_chain (p : Draft) (accounts : List Account) :
    validateInstruction p accounts = chainSpec p accounts := by
  have h := validate_chain_core p.amount p.currency p.debitAccount p.creditAccount
    (jsParseInt p.amount)
    (accounts.find? (fun a => a.id == p.debitAccount))
    (accounts.find? (fun a => a.id == p.creditAccount))
    ⟨str "AM01", str "Amount must be a positive integer"⟩
    ⟨str "CU02", str "Unsupported currency. Only NGN, USD, GBP, and GHS are supported"⟩
    ⟨str "AC04", str "Invalid account ID format for debit account"⟩
    ⟨str "AC04", str "Invalid account ID format for credit account"⟩
    ⟨str "AC02", str "Debit and credit accounts cannot be the same"⟩
    ⟨str "AC03", str "Account not found: " ++ p.debitAccount⟩
    ⟨str "AC03", str "Account not found: " ++ p.creditAccount⟩
    ⟨str "CU01", str "Account currency mismatch"⟩
    ⟨str "CU01", str "Account currency mismatch"⟩
    (fun n acc => ⟨str "AC01",
      str "Insufficient funds in account " ++ p.debitAccount ++ str ": has " ++
        jsNumToString acc.balance ++ str " " ++ p.currency ++ str ", needs " ++
        jsNumToString n ++ str " " ++ p.currency⟩)
    (match p.executeBy with
     | none => none
     | some e =>
       if e = [] then none
       else
         match validateDate e with
         | .error dv => some dv
         | .ok _ => none)
  exact h

lemma orElse_none {A : Type} (a : Option A) (f : Unit → Option A)
    (h : a.orElse f = none) : f () = none := by
  cases a with
  | none => simpa [Option.orElse] using h
  | some x => simp [Option.orElse] at h

lemma validate_ok_date (p : Draft) (accounts : List Account) (e : JStr)
    (hv : validateInstruction p accounts = none) (he : p.executeBy = some e) (hne : e ≠ []) :
    ∃ t, validateDate e = .ok t := by
  rw [validate_eq_chain] at hv
  unfold chainSpec at hv
  have hd := orElse_none _ _ hv
  unfold specDateRule at hd
  rw [he] at hd
  dsimp only at hd
  rw [if_neg hne] at hd
  cases hvd : validateDate e with
  | error dv => rw [hvd] at hd; simp at hd
  | ok t => exact ⟨t, rfl⟩

lemma validate_empty_date (d : Draft) (accounts : List Account) (he : d.executeBy = some []) :
    validateInstruction d accounts = validateInstruction { d with executeBy := none } accounts := by
  obtain ⟨t, am, cur, da, ca, eb⟩ := d
  dsimp only at he
  subst he
  rfl

/-- Sum of all balances in an account list. -/
def sumBal (l : List Account) : Int := (l.map (fun a => a.balance)).sum

/-- Balance of the first account with the given id (0 when absent). -/
def balOf (l : List Account) (id : JStr) : Int :=
  ((l.find? (fun a => a.id == id)).getD ⟨[], 0, []⟩).balance

lemma jsAddDouble_exact (a b : Int) (h1 : -(2 ^ 53) < a + b) (h2 : a + b < 2 ^ 53) :
    jsAddDouble a b = a + b := by
  unfold jsAddDouble
  split_ifs with hs
  · have hr : roundDouble (-(a + b)).toNat = (-(a + b)).toNat := by
      unfold roundDouble
      rw [if_pos (by omega)]
    rw [hr]
    omega
  · have hr : roundDouble (a + b).toNat = (a + b).toNat := by
      unfold roundDouble
      rw [if_pos (by omega)]
    rw [hr]
    omega

lemma balOf_cons (a : Account) (rest : List Account) (id : JStr) :
    balOf (a :: rest) id = if (a.id == id) = true then a.balance else balOf rest id := by
  unfold balOf
  rw [List.find?]
  cases h : a.id == id <;> simp [h]

lemma sumBal_updateFirst (l : List Account) (id : JStr) (d : Int)
    (h : (l.find? (fun a => a.id == id)).isSome)
    (hex : jsAddDouble (balOf l id) d = balOf l id + d) :
    sumBal (updateFirst l id d) = sumBal l + d := by
  induction l with
  | nil => simp [List.find?] at h
  | cons a rest ih =>
    by_cases ha : a.id == id
    · rw [balOf_cons, if_pos ha] at hex
      simp [updateFirst, ha, sumBal, hex]
      ring
    · rw [List.find?] at h
      simp only [ha] at h
      rw [balOf_cons] at hex
      simp only [ha, Bool.false_eq_true, if_false] at hex
      simp only [updateFirst, ha, Bool.false_eq_true, if_false, sumBal, List.map_cons,
        List.sum_cons]
      have := ih h hex
      simp only [sumBal] at this
      rw [this]
      ring

lemma find?_updateFirst_ne (l : List Account) (id id2 : JStr) (d : Int) (h : id2 ≠ id) :
    (updateFirst l id d).find? (fun a => a.id == id2) = l.find? (fun a => a.id == id2) := by
  induction l with
  | nil => rfl
  | cons a rest ih =>
    by_cases ha : a.id == id
    · have haid : a.id = id := by simpa using ha
      have hid2 : (id == id2) = false := by
        simp only [beq_eq_false_iff_ne, ne_eq]
        exact fun hc => absurd hc.symm h
      have haid2 : (a.id == id2) = false := by rw [haid]; exact hid2
      simp [updateFirst, ha, List.find?, hid2, haid2, haid]
    · simp only [updateFirst, ha, Bool.false_eq_true, if_false]
      rw [List.find?, List.find?]
      cases hc : a.id == id2
      · simpa using ih
      · rfl

lemma find?_updateFirst_self (l : List Account) (id : JStr) (d : Int) :
    (updateFirst l id d).find? (fun a => a.id == id) =
      (l.find? (fun a => a.id == id)).map
        (fun a => { a with balance := jsAddDouble a.balance d }) := by
  induction l with
  | nil => rfl
  | cons a rest ih =>
    by_cases ha : a.id == id
    · simp [updateFirst, ha, List.find?]
    · simp only [updateFirst, ha, Bool.false_eq_true, if_false]
      rw [List.find?, List.find?]
      simp only [ha]
      exact ih

lemma orElse_none_left {A : Type} (a : Option A) (f : Unit → Option A)
    (h : a.orElse f = none) : a = none := by
  cases a with
  | none => rfl
  | some x => simp [Option.orElse] at h

lemma ite_none_step {b : Bool} {e : ErrObj} {X : Option ErrObj}
    (h : (if b = true then some e else X) = none) : b = false ∧ X = none := by
  cases b with
  | false => exact ⟨rfl, by simpa using h⟩
  | true => simp at h

lemma validate_ok_facts (p : Draft) (accounts : List Account)
    (hv : validateInstruction p accounts = none) :
    p.debitAccount ≠ p.creditAccount ∧
    (accounts.find? (fun a => a.id == p.debitAccount)).isSome ∧
    (accounts.find? (fun a => a.id == p.creditAccount)).isSome ∧
    ∃ v, jsParseInt p.amount = some v := by
  rw [validate_eq_chain] at hv
  unfold chainSpec at hv
  have hff := orElse_none_left _ _ hv
  simp only [firstFailing] at hff
  obtain ⟨h1, hff⟩ := ite_none_step hff
  obtain ⟨h2, hff⟩ := ite_none_step hff
  obtain ⟨h3, hff⟩ := ite_none_step hff
  obtain ⟨h4, hff⟩ := ite_none_step hff
  obtain ⟨h5, hff⟩ := ite_none_step hff
  obtain ⟨h6, hff⟩ := ite_none_step hff
  obtain ⟨h7, hff⟩ := ite_none_step hff
  refine ⟨by simpa using h5, ?_, ?_, ?_⟩
  · cases hfd : List.find? (fun a => a.id == p.debitAccount) accounts
    · rw [hfd] at h6; simp at h6
    · rfl
  · cases hfc : List.find? (fun a => a.id == p.creditAccount) accounts
    · rw [hfc] at h7; simp at h7
    · rfl
  · rw [Bool.not_eq_false'] at h1
    have h1c := (Bool.and_eq_true _ _).mp h1
    cases hjp : jsParseInt p.amount
    · rw [hjp] at h1c
      simp at h1c
    · exact ⟨_, rfl⟩

/-- Exact integer prefix parse, written from the claim's words ("the integer
prefix-parse of the raw amount string"): like `parseInt` but without the
rounding to a 64-bit float. -/
def specPrefixParse (s : JStr) : Option Int :=
  let t := s.dropWhile isJsSpace
  let sign : Int := if t.head? = some '-' then -1 else 1
  let t2 := if t.head? = some '-' || t.head? = some '+' then t.tail else t
  let digs := t2.takeWhile isDigitCh
  if digs.isEmpty then none
  else some (sign * (digitsToNat digs : Int))

lemma roundDouble_eq_self (n : Nat) (h : n < 2 ^ 53) : roundDouble n = n := by
  unfold roundDouble
  rw [if_pos h]

lemma jsParseInt_eq_spec (s : JStr) (v : Int) (h : specPrefixParse s = some v)
    (hlb : -(2 ^ 53) < v) (hub : v < 2 ^ 53) : jsParseInt s = some v := by
  unfold specPrefixParse at h
  unfold jsParseInt
  dsimp only at h ⊢
  by_cases hm : (s.dropWhile isJsSpace).head? = some '-'
  · have hor : (decide ((s.dropWhile isJsSpace).head? = some '-') ||
        decide ((s.dropWhile isJsSpace).head? = some '+')) = true := by simp [hm]
    rw [if_pos hm, if_pos hor] at h ⊢
    by_cases he : (List.takeWhile isDigitCh (s.dropWhile isJsSpace).tail).isEmpty = true
    · rw [if_pos he] at h
      exact absurd h (by simp)
    · rw [if_neg he] at h ⊢
      injection h with h
      have hv : v = -(digitsToNat (List.takeWhile isDigitCh (s.dropWhile isJsSpace).tail) : Int) := by
        rw [← h]; ring
      have hn : digitsToNat (List.takeWhile isDigitCh (s.dropWhile isJsSpace).tail) < 2 ^ 53 := by
        omega
      rw [roundDouble_eq_self _ hn, h]
  · rw [if_neg hm] at h ⊢
    by_cases hp : (s.dropWhile isJsSpace).head? = some '+'
    · have hor : (decide ((s.dropWhile isJsSpace).head? = some '-') ||
          decide ((s.dropWhile isJsSpace).head? = some '+')) = true := by simp [hp]
      rw [if_pos hor] at h ⊢
      by_cases he : (List.takeWhile isDigitCh (s.dropWhile isJsSpace).tail).isEmpty = true
      · rw [if_pos he] at h
        exact absurd h (by simp)
      · rw [if_neg he] at h ⊢
        injection h with h
        have hv : v = (digitsToNat (List.takeWhile isDigitCh (s.dropWhile isJsSpace).tail) : Int) := by
          rw [← h]; ring
        have hn : digitsToNat (List.takeWhile isDigitCh (s.dropWhile isJsSpace).tail) < 2 ^ 53 := by
          omega
        rw [roundDouble_eq_self _ hn, h]
    · have hor : (decide ((s.dropWhile isJsSpace).head? = some '-') ||
          decide ((s.dropWhile isJsSpace).head? = some '+')) = false := by simp [hm, hp]
      simp only [hor, Bool.false_eq_true, if_false] at h ⊢
      by_cases he : (List.takeWhile isDigitCh (s.dropWhile isJsSpace)).isEmpty = true
      · rw [if_pos he] at h
        exact absurd h (by simp)
      · rw [if_neg he] at h ⊢
        injection h with h
        have hv : v = (digitsToNat (List.takeWhile isDigitCh (s.dropWhile isJsSpace)) : Int) := by
          rw [← h]; ring
        have hn : digitsToNat (List.takeWhile isDigitCh (s.dropWhile isJsSpace)) < 2 ^ 53 := by
          omega
        rw [roundDouble_eq_self _ hn, h]

lemma jsParseInt_none_iff (s : JStr) : jsParseInt s = none ↔ specPrefixParse s = none := by
  unfold jsParseInt specPrefixParse
  dsimp only
  split_ifs <;> simp

lemma digitsToNat_append_one (l : JStr) (c : Char) :
    digitsToNat (l ++ [c]) = 10 * digitsToNat l + (c.toNat - 48) := by
  unfold digitsToNat
  rw [List.foldl_append]
  simp [Nat.mul_comm]

lemma digitChar_isDigit (r : Nat) (h : r < 10) : isDigitCh (digitChar r) = true := by
  interval_cases r <;> decide

lemma digitChar_ne_zero (r : Nat) (h : r < 10) (h0 : r ≠ 0) : digitChar r ≠ '0' := by
  interval_cases r <;> simp_all <;> decide

lemma digitChar_toNat (r : Nat) (h : r < 10) : (digitChar r).toNat - 48 = r := by
  interval_cases r <;> decide

lemma natDigitsAux_spec (n : Nat) : ∀ fuel, n ≤ fuel → 0 < n →
    digitsToNat (natDigitsAux fuel n) = n ∧
    (∀ c ∈ natDigitsAux fuel n, isDigitCh c = true) ∧
    natDigitsAux fuel n ≠ [] ∧
    (∀ c, (natDigitsAux fuel n).head? = some c → c ≠ '0') := by
  induction n using Nat.strong_induction_on with
  | _ n ih =>
    intro fuel hf h0
    match fuel with
    | 0 => omega
    | f + 1 =>
      rw [natDigitsAux]
      rw [if_neg (by omega)]
      by_cases hq : n / 10 = 0
      · have hn10 : n < 10 := by omega
        rw [hq]
        have haux0 : natDigitsAux f 0 = [] := by
          cases f with
          | zero => rfl
          | succ f2 => rw [natDigitsAux]; rw [if_pos rfl]
        rw [haux0]
        simp only [List.nil_append]
        refine ⟨?_, ?_, by simp, ?_⟩
        · rw [show ([digitChar (n % 10)] : JStr) = [] ++ [digitChar (n % 10)] from rfl,
            digitsToNat_append_one]
          have : digitsToNat [] = 0 := rfl
          rw [this, digitChar_toNat _ (by omega)]
          omega
        · intro c hc
          simp at hc
          rw [hc]
          exact digitChar_isDigit _ (by omega)
        · intro c hc
          simp at hc
          rw [← hc]
          exact digitChar_ne_zero _ (by omega) (by omega)
      · have hlt : n / 10 < n := Nat.div_lt_self h0 (by omega)
        have hle : n / 10 ≤ f := by omega
        obtain ⟨ihv, ihd, ihne, ihh⟩ := ih (n / 10) hlt f hle (by omega)
        refine ⟨?_, ?_, ?_, ?_⟩
        · rw [digitsToNat_append_one, ihv, digitChar_toNat _ (by omega)]
          omega
        · intro c hc
          rw [List.mem_append] at hc
          rcases hc with hc | hc
          · exact ihd c hc
          · simp at hc
            rw [hc]
            exact digitChar_isDigit _ (by omega)
        · simp [ihne]
        · intro c hc
          rcases hx : natDigitsAux f (n / 10) with _ | ⟨a, rest⟩
          · exact absurd hx ihne
          · rw [hx] at hc
            simp at hc
            apply ihh
            rw [hx]
            simp
            exact hc.symm ▸ rfl

lemma natToDigits_all_digits (n : Nat) : ∀ c ∈ natToDigits n, isDigitCh c = true := by
  unfold natToDigits
  split
  · intro c hc
    simp at hc
    rw [hc]
    decide
  · exact (natDigitsAux_spec n n (le_refl n) (by omega)).2.1

lemma digitsToNat_natToDigits (n : Nat) : digitsToNat (natToDigits n) = n := by
  unfold natToDigits
  split
  · rename_i h
    rw [h]
    rfl
  · exact (natDigitsAux_spec n n (le_refl n) (by omega)).1

lemma natToDigits_head_ne_zero (n : Nat) (h : 0 < n) :
    ∀ c, (natToDigits n).head? = some c → c ≠ '0' := by
  unfold natToDigits
  rw [if_neg (by omega)]
  exact (natDigitsAux_spec n n (le_refl n) h).2.2.2

lemma not_mem_of_all_digits {l : JStr} (h : ∀ c ∈ l, isDigitCh c = true) (c : Char)
    (hc : isDigitCh c = false) : c ∉ l := by
  intro hmem
  rw [h c hmem] at hc
  exact absurd hc (by simp)

lemma takeWhile_all (l : JStr) (p : Char → Bool) (h : ∀ c ∈ l, p c = true) :
    l.takeWhile p = l := by
  induction l with
  | nil => rfl
  | cons a rest ih =>
    rw [List.takeWhile_cons, h a (by simp)]
    rw [ih (fun c hc => h c (by simp [hc]))]
    rfl

lemma dropWhile_head_false (l : JStr) (p : Char → Bool)
    (h : ∀ c, l.head? = some c → p c = false) : l.dropWhile p = l := by
  cases l with
  | nil => rfl
  | cons a rest =>
    rw [List.dropWhile_cons, h a rfl]
    simp

lemma jsParseInt_natToDigits (n : Nat) (h : n < 2 ^ 53) :
    jsParseInt (natToDigits n) = some ((n : Int)) := by
  have hdig := natToDigits_all_digits n
  have hne : natToDigits n ≠ [] := natToDigits_ne_nil n
  have hdrop : (natToDigits n).dropWhile isJsSpace = natToDigits n := by
    apply dropWhile_head_false
    intro c hc
    have hd : isDigitCh c = true := by
      rcases hl : natToDigits n with _ | ⟨a, r⟩
      · rw [hl] at hc; simp at hc
      · rw [hl] at hc
        simp at hc
        exact hdig c (by rw [hl, hc]; simp)
    have : 48 ≤ c.toNat ∧ c.toNat ≤ 57 := by
      unfold isDigitCh at hd
      simp only [Bool.and_eq_true, decide_eq_true_eq] at hd
      constructor
      · exact hd.1
      · exact hd.2
    unfold isJsSpace
    simp only [Bool.or_eq_false_iff, decide_eq_false_iff_not]
    refine ⟨⟨⟨⟨⟨?_, ?_⟩, ?_⟩, ?_⟩, ?_⟩, ?_⟩ <;>
      (intro he; rw [he] at this; simp at this) <;> omega
  unfold jsParseInt
  dsimp only
  rw [hdrop]
  have hhead : ∀ c, (natToDigits n).head? = some c → isDigitCh c = true := by
    intro c hc
    rcases hl : natToDigits n with _ | ⟨a, r⟩
    · rw [hl] at hc; simp at hc
    · rw [hl] at hc
      simp at hc
      exact hdig c (by rw [hl, hc]; simp)
  have hm : ¬((natToDigits n).head? = some '-') := by
    intro hc
    have := hhead '-' hc
    simp [isDigitCh] at this
  have hp : ¬((natToDigits n).head? = some '+') := by
    intro hc
    have := hhead '+' hc
    simp [isDigitCh] at this
  rw [if_neg hm]
  have hor : (decide ((natToDigits n).head? = some '-') ||
      decide ((natToDigits n).head? = some '+')) = false := by
    simp [hm, hp]
  rw [hor]
  simp only [Bool.false_eq_true, if_false]
  rw [takeWhile_all _ _ hdig, if_neg (by simpa using hne), digitsToNat_natToDigits,
    roundDouble_eq_self _ h]
  simp

lemma jsNumToString_natToDigits (n : Nat) (h : n < 10 ^ 21) :
    jsNumToString (n : Int) = natToDigits n := by
  unfold jsNumToString
  rw [if_neg (by omega)]
  unfold jsNatToString
  rw [Int.toNat_natCast]
  rw [if_pos h]

lemma ruleAmountOk_natToDigits (n : Nat) (h0 : 0 < n) (h53 : n < 2 ^ 53) :
    ruleAmountOk (natToDigits n) = true := by
  unfold ruleAmountOk
  have hdig := natToDigits_all_digits n
  have hdot : List.contains (natToDigits n) '.' = false := by
    by_contra hcc
    rw [Bool.not_eq_false] at hcc
    have hmem : '.' ∈ natToDigits n := by simpa using hcc
    have := hdig '.' hmem
    simp [isDigitCh] at this
  have hmin : List.contains (natToDigits n) '-' = false := by
    by_contra hcc
    rw [Bool.not_eq_false] at hcc
    have hmem : '-' ∈ natToDigits n := by simpa using hcc
    have := hdig '-' hmem
    simp [isDigitCh] at this
  rw [jsParseInt_natToDigits n h53]
  rw [hdot, hmin]
  simp only [Bool.not_false, Bool.true_and]
  rw [jsNumToString_natToDigits n (by omega)]
  simp only [Bool.and_eq_true, decide_eq_true_eq]
  exact ⟨by exact_mod_cast h0, trivial⟩

def errCode (r : Option ErrObj) : Option JStr := r.map ErrObj.statusCode

lemma firstFailing_cons_false (b : Bool) (e : ErrObj) (rest : List (Bool × ErrObj))
    (h : b = false) : firstFailing ((b, e) :: rest) = firstFailing rest := by
  rw [firstFailing, h]
  rfl

lemma firstFailing_mem (l : List (Bool × ErrObj)) (e : ErrObj)
    (h : firstFailing l = some e) : e ∈ l.map Prod.snd := by
  induction l with
  | nil => simp [firstFailing] at h
  | cons a rest ih =>
    obtain ⟨b, e2⟩ := a
    rw [firstFailing] at h
    by_cases hb : b = true
    · rw [if_pos hb] at h
      injection h with h
      simp [h]
    · rw [if_neg hb] at h
      simp only [List.map_cons, List.mem_cons]
      exact Or.inr (ih h)

lemma validateDate_error_code (e : JStr) (dv : ErrObj) (h : validateDate e = .error dv) :
    dv.statusCode = str "DT01" := by
  unfold validateDate at h
  dsimp only at h
  by_cases c1 : (decide (e = []) || decide (e.length ≠ 10)) = true
  · rw [if_pos c1] at h
    first
    | (injection h with h2; rw [← h2])
    | rw [← h]
  · rw [if_neg c1] at h
    by_cases c2 : (decide (e.getD 4 ' ' ≠ '-') || decide (e.getD 7 ' ' ≠ '-')) = true
    · rw [if_pos c2] at h
      first
      | (injection h with h2; rw [← h2])
      | rw [← h]
    · rw [if_neg c2] at h
      by_cases c3 : (jsSubstring e 0 4).all isDigitCh = true
      · rw [if_neg (not_not_intro c3)] at h
        by_cases c4 : (jsSubstring e 5 7).all isDigitCh = true
        · rw [if_neg (not_not_intro c4)] at h
          by_cases c5 : (jsSubstring e 8 10).all isDigitCh = true
          · rw [if_neg (not_not_intro c5)] at h
            split_ifs at h <;>
              first
              | (injection h with h2; rw [← h2])
              | injection h
              | rw [← h]
          · rw [if_pos c5] at h
            first
            | (injection h with h2; rw [← h2])
            | rw [← h]
        · rw [if_pos c4] at h
          first
          | (injection h with h2; rw [← h2])
          | rw [← h]
      · rw [if_pos c3] at h
        first
        | (injection h with h2; rw [← h2])
        | rw [← h]

lemma specDateRule_code (p : Draft) (dv : ErrObj) (h : specDateRule p = some dv) :
    dv.statusCode = str "DT01" := by
  obtain ⟨t, am, cur, da, ca, eb⟩ := p
  unfold specDateRule at h
  dsimp only at h
  rcases eb with _ | e
  · exact Option.noConfusion h
  · dsimp only at h
    by_cases he : e = []
    · rw [if_pos he] at h
      exact Option.noConfusion h
    · rw [if_neg he] at h
      rcases hvd : validateDate e with dv2 | t2
      · rw [hvd] at h
        dsimp only at h
        injection h with h2
        rw [← h2]
        exact validateDate_error_code e dv2 hvd
      · rw [hvd] at h
        exact Option.noConfusion h

set_option maxHeartbeats 800000 in
lemma validate_no_AM01 (d : Draft) (accounts : List Account)
    (h1 : ruleAmountOk d.amount = true) :
    errCode (validateInstruction d accounts) ≠ some (str "AM01") := by
  rw [validate_eq_chain]
  unfold chainSpec
  dsimp only
  rw [firstFailing_cons_false _ _ _ (by rw [h1]; rfl)]
  rcases hff : firstFailing _ with _ | e
  · rcases hdr : specDateRule d with _ | dv
    · simp [Option.orElse, hff, hdr, errCode]
    · have := specDateRule_code d dv hdr
      simp [Option.orElse, hff, hdr, errCode]
      rw [this]
      decide
  · have hmem := firstFailing_mem _ _ hff
    simp only [List.map_cons, List.map_nil, List.mem_cons, List.not_mem_nil, or_false] at hmem
    simp only [Option.orElse, hff, errCode, Option.map_some]
    rcases hmem with h | h | h | h | h | h | h | h | h <;> (rw [h]; simp; decide)

lemma bitLenAux_eq (n : Nat) : ∀ fuel fuel2, n ≤ fuel → n ≤ fuel2 →
    bitLenAux fuel n = bitLenAux fuel2 n := by
  induction n using Nat.strong_induction_on with
  | _ n ih =>
    intro fuel fuel2 h1 h2
    match fuel, fuel2 with
    | 0, 0 => rfl
    | 0, f2 + 1 =>
      interval_cases n
      rw [bitLenAux, bitLenAux]
      simp
    | f1 + 1, 0 =>
      interval_cases n
      rw [bitLenAux, bitLenAux]
      simp
    | f1 + 1, f2 + 1 =>
      rw [bitLenAux, bitLenAux]
      by_cases h0 : n = 0
      · simp [h0]
      · rw [if_neg h0, if_neg h0]
        have hlt : n / 2 < n := Nat.div_lt_self (by omega) (by omega)
        rw [ih (n / 2) hlt f1 f2 (by omega) (by omega)]

lemma bitLen_two_pow_le (n : Nat) (h : 0 < n) : 2 ^ (bitLen n - 1) ≤ n := by
  induction n using Nat.strong_induction_on with
  | _ n ih =>
    unfold bitLen
    match hf : n, h with
    | 1, _ => decide
    | m + 2, _ =>
      rw [bitLenAux, if_neg (by omega)]
      have hlt : (m + 2) / 2 < m + 2 := Nat.div_lt_self (by omega) (by omega)
      have h2 : 0 < (m + 2) / 2 := by omega
      have ihh := ih ((m + 2) / 2) hlt h2
      unfold bitLen at ihh
      rw [bitLenAux_eq ((m + 2) / 2) (m + 1) ((m + 2) / 2) (by omega) (le_refl _)]
      have hpos : 0 < bitLenAux ((m + 2) / 2) ((m + 2) / 2) := by
        have : (m + 2) / 2 ≠ 0 := by omega
        rcases he : (m + 2) / 2 with _ | k
        · omega
        · rw [bitLenAux, if_neg (by omega)]
          omega
      rcases Nat.exists_eq_succ_of_ne_zero (Nat.pos_iff_ne_zero.mp hpos) with ⟨k, hk⟩
      rw [hk] at ihh ⊢
      have hks : (2 : Nat) ^ (k + 1 + 1 - 1) = 2 * 2 ^ k := by
        rw [Nat.add_sub_cancel, Nat.pow_succ]
        ring
      rw [hks]
      have ihh2 : 2 ^ k ≤ (m + 2) / 2 := ihh
      omega

lemma bitLen_lt_two_pow (n : Nat) : n < 2 ^ bitLen n := by
  induction n using Nat.strong_induction_on with
  | _ n ih =>
    unfold bitLen
    match n with
    | 0 => decide
    | m + 1 =>
      rw [bitLenAux, if_neg (by omega)]
      have hlt : (m + 1) / 2 < m + 1 := Nat.div_lt_self (by omega) (by omega)
      have ihh := ih ((m + 1) / 2) hlt
      unfold bitLen at ihh
      rw [bitLenAux_eq ((m + 1) / 2) m ((m + 1) / 2) (by omega) (le_refl _)]
      rw [Nat.pow_succ]
      omega

lemma roundCore_le (n e : Nat) (he : 2 ^ e ≤ n) :
    (if n % 2 ^ e < 2 ^ (e - 1) then n / 2 ^ e * 2 ^ e
     else if 2 ^ (e - 1) < n % 2 ^ e then (n / 2 ^ e + 1) * 2 ^ e
     else if n / 2 ^ e % 2 = 0 then n / 2 ^ e * 2 ^ e
     else (n / 2 ^ e + 1) * 2 ^ e) ≤ 2 * n := by
  have hqm := Nat.div_mul_le_self n (2 ^ e)
  have hq : 1 ≤ n / 2 ^ e := by
    rw [Nat.le_div_iff_mul_le (by positivity)]
    omega
  have hstep : (n / 2 ^ e + 1) * 2 ^ e = n / 2 ^ e * 2 ^ e + 2 ^ e := by ring
  have hpe : 2 ^ e ≤ n / 2 ^ e * 2 ^ e := by
    calc 2 ^ e = 1 * 2 ^ e := by ring
    _ ≤ n / 2 ^ e * 2 ^ e := Nat.mul_le_mul_right _ hq
  split_ifs <;> omega

lemma roundDouble_le (n : Nat) : roundDouble n ≤ 2 * n := by
  unfold roundDouble
  by_cases hsmall : n < 2 ^ 53
  · rw [if_pos hsmall]
    omega
  · rw [if_neg hsmall]
    push_neg at hsmall
    have hub : 2 ^ 53 < 2 ^ bitLen n := lt_of_le_of_lt hsmall (bitLen_lt_two_pow n)
    have h53 : 53 < bitLen n := by
      by_contra hc
      push_neg at hc
      have : (2 : Nat) ^ bitLen n ≤ 2 ^ 53 := Nat.pow_le_pow_right (by omega) hc
      omega
    have hple : 2 ^ (bitLen n - 53) ≤ 2 ^ (bitLen n - 1) :=
      Nat.pow_le_pow_right (by omega) (by omega)
    have hlen : 2 ^ (bitLen n - 1) ≤ n := bitLen_two_pow_le n (by omega)
    exact roundCore_le n (bitLen n - 53) (le_trans hple hlen)

lemma digitsToNat_lt (l : JStr) (h : ∀ c ∈ l, isDigitCh c = true) :
    digitsToNat l < 10 ^ l.length := by
  induction l using List.reverseRecOn with
  | nil => decide
  | append_singleton l c ih =>
    rw [digitsToNat_append_one]
    have hc := h c (by simp)
    have hcv : c.toNat - 48 ≤ 9 := by
      simp only [isDigitCh, Bool.and_eq_true, decide_eq_true_eq] at hc
      have : c.toNat ≤ 57 := hc.2
      omega
    have ihh := ih (fun x hx => h x (by simp [hx]))
    rw [List.length_append, List.length_singleton, Nat.pow_succ]
    omega

lemma takeWhile_append_all (l1 l2 : JStr) (p : Char → Bool) (h : ∀ c ∈ l1, p c = true) :
    (l1 ++ l2).takeWhile p = l1 ++ l2.takeWhile p := by
  induction l1 with
  | nil => simp
  | cons a rest ih =>
    rw [List.cons_append, List.takeWhile_cons, h a (by simp)]
    rw [ih (fun c hc => h c (by simp [hc]))]
    rfl

lemma digit_not_space (c : Char) (h : isDigitCh c = true) : isJsSpace c = false := by
  simp only [isDigitCh, Bool.and_eq_true, decide_eq_true_eq] at h
  have h1 : 48 ≤ c.toNat := h.1
  have h2 : c.toNat ≤ 57 := h.2
  unfold isJsSpace
  simp only [Bool.or_eq_false_iff, decide_eq_false_iff_not]
  refine ⟨⟨⟨⟨⟨?_, ?_⟩, ?_⟩, ?_⟩, ?_⟩, ?_⟩ <;>
    (intro he; have := congrArg Char.toNat he; simp at this; omega)

lemma digit_ne_char (c : Char) (h : isDigitCh c = true) (d : Char)
    (hd : isDigitCh d = false) : c ≠ d := by
  intro he
  rw [he, hd] at h
  exact absurd h (by simp)

lemma expSearch_some (n nd : Nat) : ∀ (l : List Nat) (c k : Nat),
    expSearch n nd l = some (c, k) → roundDouble (c * 10 ^ (nd - k)) = n := by
  intro l
  induction l with
  | nil => intro c k h; simp [expSearch] at h
  | cons a as ih =>
    intro c k h
    simp only [expSearch] at h
    split at h
    · rename_i hcond
      have h1 : (2 * n + 10 ^ (nd - a)) / (2 * 10 ^ (nd - a)) = c ∧ a = k := by
        have := h
        simp at this
        exact this
      rw [← h1.1, ← h1.2]
      exact hcond
    · exact ih c k h

lemma roundDouble_zero : roundDouble 0 = 0 := by decide

lemma jsNatToString_head_ne_zero (n : Nat) (h : 0 < n) :
    ∀ c cs, jsNatToString n = c :: cs → c ≠ '0' := by
  intro c cs hcs
  have hnd : ∀ c2 cs2, natToDigits n = c2 :: cs2 → c2 ≠ '0' := by
    intro c2 cs2 hc2
    exact natToDigits_head_ne_zero n h c2 (by rw [hc2]; rfl)
  unfold jsNatToString at hcs
  split at hcs
  · exact hnd c cs hcs
  · unfold expForm at hcs
    simp only at hcs
    rcases hse : expSearch n (digitCount n) (List.range' 1 (digitCount n)) with _ | ⟨c0, k⟩
    · rw [hse] at hcs
      exact hnd c cs hcs
    · rw [hse] at hcs
      have hc0 : c0 ≠ 0 := by
        intro h0
        have := expSearch_some n (digitCount n) _ c0 k hse
        rw [h0] at this
        simp only [Nat.zero_mul, roundDouble_zero] at this
        omega
      simp only at hcs
      split at hcs
      · injection hcs with h1 _
        rw [← h1]
        decide
      · rcases hnc : natToDigits c0 with _ | ⟨d, ds⟩
        · exact absurd hnc (natToDigits_ne_nil c0)
        · have hd : d ≠ '0' :=
            natToDigits_head_ne_zero c0 (by omega) d (by rw [hnc]; rfl)
          rcases ds with _ | ⟨d2, ds2⟩
          · rw [hnc] at hcs
            injection hcs with h1 _
            rw [← h1]
            exact hd
          · rw [hnc] at hcs
            injection hcs with h1 _
            rw [← h1]
            exact hd

lemma jsNatToString_shape (n : Nat) :
    (∀ c ∈ jsNatToString n, isDigitCh c = true) ∨
    (10 ^ 21 ≤ n ∧ ∃ d x rest, jsNatToString n = d :: x :: rest ∧ (x = 'e' ∨ x = '.')) := by
  have hbig : ¬(n < 10 ^ 21) → 10 ^ 21 ≤ n := by omega
  unfold jsNatToString
  split
  · exact Or.inl (natToDigits_all_digits n)
  · unfold expForm
    simp only
    rcases hse : expSearch n (digitCount n) (List.range' 1 (digitCount n)) with _ | ⟨c0, k⟩
    · exact Or.inl (natToDigits_all_digits n)
    · simp only
      split
      · exact Or.inr ⟨hbig (by assumption), '1', 'e', _, rfl, Or.inl rfl⟩
      · rcases hnc : natToDigits c0 with _ | ⟨d, ds⟩
        · exact Or.inl (natToDigits_all_digits n)
        · rcases ds with _ | ⟨d2, ds2⟩
          · exact Or.inr ⟨hbig (by assumption), d, 'e', _, rfl, Or.inl rfl⟩
          · exact Or.inr ⟨hbig (by assumption), d, '.', _, rfl, Or.inr rfl⟩

lemma jsParseInt_digit_head (h0 : Char) (t0 : JStr) (hh0 : isDigitCh h0 = true) :
    jsParseInt (h0 :: t0) =
      some ((roundDouble (digitsToNat ((h0 :: t0).takeWhile isDigitCh)) : Int)) := by
  have hdrop : (h0 :: t0).dropWhile isJsSpace = h0 :: t0 := by
    apply dropWhile_head_false
    intro c hc
    have hc2 : c = h0 := by simpa using hc.symm
    rw [hc2]
    exact digit_not_space h0 hh0
  unfold jsParseInt
  dsimp only
  rw [hdrop]
  have hm : ¬((h0 :: t0).head? = some '-') := by
    intro hc
    have hc2 : h0 = '-' := by simpa using hc
    rw [hc2] at hh0
    exact absurd hh0 (by decide)
  have hp : ¬((h0 :: t0).head? = some '+') := by
    intro hc
    have hc2 : h0 = '+' := by simpa using hc
    rw [hc2] at hh0
    exact absurd hh0 (by decide)
  rw [if_neg hm]
  have hor : (decide ((h0 :: t0).head? = some '-') ||
      decide ((h0 :: t0).head? = some '+')) = false := by
    simp only [Bool.or_eq_false_iff, decide_eq_false_iff_not]
    exact ⟨hm, hp⟩
  rw [hor]
  simp only [Bool.false_eq_true, if_false]
  rw [List.takeWhile_cons, hh0]
  simp only [if_true]
  rw [if_neg (by simp)]
  simp

lemma validate_AM01_of_not_ok (d : Draft) (accounts : List Account)
    (h : ruleAmountOk d.amount = false) :
    validateInstruction d accounts =
      some ⟨str "AM01", str "Amount must be a positive integer"⟩ := by
  rw [validate_eq_chain]
  unfold chainSpec
  dsimp only
  rw [firstFailing, h]
  rfl

lemma ruleAmountOk_dot_or_minus (s : JStr) (h : '.' ∈ s ∨ '-' ∈ s) :
    ruleAmountOk s = false := by
  unfold ruleAmountOk
  rcases h with h | h
  · have hc : s.contains '.' = true := by simpa using h
    rw [hc]
    simp
  · have hc : s.contains '-' = true := by simpa using h
    rw [hc]
    simp

lemma ruleAmountOk_leading_zero (rest : JStr) :
    ruleAmountOk ('0' :: rest) = false := by
  by_cases hdot : '.' ∈ '0' :: rest
  · exact ruleAmountOk_dot_or_minus _ (Or.inl hdot)
  by_cases hmin : '-' ∈ '0' :: rest
  · exact ruleAmountOk_dot_or_minus _ (Or.inr hmin)
  unfold ruleAmountOk
  have hcd : List.contains ('0' :: rest) '.' = false := by
    rw [Bool.eq_false_iff]
    intro hcc
    exact hdot (by simpa using hcc)
  have hcm : List.contains ('0' :: rest) '-' = false := by
    rw [Bool.eq_false_iff]
    intro hcc
    exact hmin (by simpa using hcc)
  rw [hcd, hcm]
  simp only [Bool.not_false, Bool.true_and]
  rw [jsParseInt_digit_head '0' rest (by decide)]
  set v : Int := ((roundDouble (digitsToNat (List.takeWhile isDigitCh ('0' :: rest))) : Nat) : Int) with hv
  by_cases hv0 : 0 < v
  · have hvn : ¬(v < 0) := by omega
    have hstr : jsNumToString v = jsNatToString v.toNat := by
      unfold jsNumToString
      rw [if_neg hvn]
    have hne2 : ('0' :: rest) ≠ jsNumToString v := by
      intro he
      rcases hjs : jsNatToString v.toNat with _ | ⟨c, cs⟩
      · exact absurd hjs (jsNatToString_ne_nil _)
      · rw [hstr, hjs] at he
        injection he with h1 _
        exact jsNatToString_head_ne_zero v.toNat (by omega) c cs hjs h1.symm
    simp [hne2]
  · simp [hv0]

lemma ruleAmountOk_trailing_junk (p0 : JStr) (c : Char) (junk : JStr)
    (hp0 : p0 ≠ []) (hdigs : ∀ ch ∈ p0, isDigitCh ch = true)
    (hc : isDigitCh c = false) :
    ruleAmountOk (p0 ++ c :: junk) = false := by
  by_cases hdot : '.' ∈ p0 ++ c :: junk
  · exact ruleAmountOk_dot_or_minus _ (Or.inl hdot)
  by_cases hmin : '-' ∈ p0 ++ c :: junk
  · exact ruleAmountOk_dot_or_minus _ (Or.inr hmin)
  unfold ruleAmountOk
  have hcd : (p0 ++ c :: junk).contains '.' = false := by
    rw [Bool.eq_false_iff]
    intro hcc
    exact hdot (by simpa using hcc)
  have hcm : (p0 ++ c :: junk).contains '-' = false := by
    rw [Bool.eq_false_iff]
    intro hcc
    exact hmin (by simpa using hcc)
  rw [hcd, hcm]
  simp only [Bool.not_false, Bool.true_and]
  rcases hp : p0 with _ | ⟨p0h, p0t⟩
  · exact absurd hp hp0
  rw [hp] at hdigs hdot
  have hph : isDigitCh p0h = true := hdigs p0h (by simp)
  rw [List.cons_append, jsParseInt_digit_head p0h (p0t ++ c :: junk) hph]
  have htw : List.takeWhile isDigitCh (p0h :: (p0t ++ c :: junk)) = p0h :: p0t := by
    rw [← List.cons_append, takeWhile_append_all _ _ _ hdigs]
    rw [List.takeWhile_cons, hc]
    simp
  rw [htw]
  set n0 := digitsToNat (p0h :: p0t) with hn0
  set v : Int := ((roundDouble n0 : Nat) : Int) with hv
  by_cases hv0 : 0 < v
  · have hvn : ¬(v < 0) := by omega
    have hstr : jsNumToString v = jsNatToString v.toNat := by
      unfold jsNumToString
      rw [if_neg hvn]
    have hne2 : (p0h :: (p0t ++ c :: junk)) ≠ jsNumToString v := by
      intro he
      rw [hstr] at he
      rcases jsNatToString_shape v.toNat with hall | ⟨hbig, d, x, rl, hx, hex⟩
      · have hcm2 : c ∈ p0h :: (p0t ++ c :: junk) := by simp
        rw [he] at hcm2
        rw [hall c hcm2] at hc
        simp at hc
      · rcases hex with hxe | hxd
        · have hle : roundDouble n0 ≤ 2 * n0 := roundDouble_le n0
          have e21 : (10 : Nat) ^ 21 = 1000000000000000000000 := by norm_num
          rw [e21] at hbig
          have hn0big : 100000000000000000000 < n0 := by omega
          have hlt : n0 < 10 ^ (p0h :: p0t).length := digitsToNat_lt _ hdigs
          have hlen : 2 ≤ (p0h :: p0t).length := by
            by_contra hl
            push_neg at hl
            have hple : (10 : Nat) ^ (p0h :: p0t).length ≤ 10 ^ 1 :=
              Nat.pow_le_pow_right (by omega) (by omega)
            have h10 : (10 : Nat) ^ 1 = 10 := by norm_num
            rw [h10] at hple
            omega
          rcases p0t with _ | ⟨q, qs⟩
          · simp at hlen
          · simp only [List.cons_append] at he
            rw [hx] at he
            injection he with h1 h2
            injection h2 with h3 _
            have hq : isDigitCh q = true := hdigs q (by simp)
            rw [h3, hxe] at hq
            exact absurd hq (by decide)
        · have hxm : x ∈ jsNatToString v.toNat := by
            rw [hx]
            simp
          rw [← he] at hxm
          rw [hxd] at hxm
          exact hdot (by simpa using hxm)
    simp [hne2]
  · simp [hv0]

/-- `pat` occurs in `s` at position `n`. -/
def occursAt (pat s : JStr) (n : Nat) : Prop := pat.isPrefixOf (List.drop n s) = true

lemma occursAt_nil (pat : JStr) (n : Nat) : occursAt pat [] n ↔ pat = [] := by
  unfold occursAt
  rw [List.drop_nil]
  cases pat <;> simp [List.isPrefixOf]

lemma findIdx0_least (pat : JStr) : ∀ (s : JStr) (n : Nat),
    findIdx0 pat s = some n ↔
      (occursAt pat s n ∧ ∀ m, m < n → ¬occursAt pat s m) := by
  intro s
  induction s with
  | nil =>
    intro n
    rw [findIdx0]
    by_cases hp : pat.isEmpty = true
    · have hpe : pat = [] := by simpa using hp
      rw [if_pos hp]
      constructor
      · intro h
        injection h with h
        subst h
        exact ⟨(occursAt_nil pat 0).mpr hpe, fun m hm => absurd hm (by omega)⟩
      · rintro ⟨h1, h2⟩
        rcases Nat.eq_zero_or_pos n with h0 | h0
        · rw [h0]
        · exact absurd ((occursAt_nil pat 0).mpr hpe) (h2 0 h0)
    · rw [if_neg hp]
      have hpe : pat ≠ [] := by simpa using hp
      constructor
      · intro h
        exact Option.noConfusion h
      · rintro ⟨h1, _⟩
        exact absurd ((occursAt_nil pat n).mp h1) hpe
  | cons c rest ih =>
    intro n
    rw [findIdx0]
    by_cases hp : pat.isPrefixOf (c :: rest) = true
    · rw [if_pos hp]
      constructor
      · intro h
        injection h with h
        subst h
        exact ⟨hp, fun m hm => absurd hm (by omega)⟩
      · rintro ⟨h1, h2⟩
        rcases Nat.eq_zero_or_pos n with h0 | h0
        · rw [h0]
        · exact absurd (show occursAt pat (c :: rest) 0 from hp) (h2 0 h0)
    · rw [if_neg hp]
      constructor
      · intro h
        rw [Option.map_eq_some'] at h
        rcases h with ⟨n', hn', hadd⟩
        subst hadd
        have hih := (ih n').mp hn'
        refine ⟨hih.1, ?_⟩
        intro m hm
        rcases m with _ | m'
        · exact fun hc => hp hc
        · intro hc
          exact hih.2 m' (by omega) hc
      · rintro ⟨h1, h2⟩
        rcases n with _ | n'
        · exact absurd h1 (fun hc => hp hc)
        · have hr : findIdx0 pat rest = some n' :=
            (ih n').mpr ⟨h1, fun m hm hc => h2 (m + 1) (by omega) hc⟩
          rw [hr]
          rfl

lemma findIdx0_none_least (pat : JStr) : ∀ (s : JStr),
    findIdx0 pat s = none ↔ ∀ m, ¬occursAt pat s m := by
  intro s
  induction s with
  | nil =>
    rw [findIdx0]
    by_cases hp : pat.isEmpty = true
    · have hpe : pat = [] := by simpa using hp
      rw [if_pos hp]
      constructor
      · intro h
        exact Option.noConfusion h
      · intro h
        exact absurd ((occursAt_nil pat 0).mpr hpe) (h 0)
    · rw [if_neg hp]
      have hpe : pat ≠ [] := by simpa using hp
      constructor
      · intro _ m hc
        exact hpe ((occursAt_nil pat m).mp hc)
      · intro _
        rfl
  | cons c rest ih =>
    rw [findIdx0]
    by_cases hp : pat.isPrefixOf (c :: rest) = true
    · rw [if_pos hp]
      constructor
      · intro h
        exact Option.noConfusion h
      · intro h
        exact absurd (show occursAt pat (c :: rest) 0 from hp) (h 0)
    · rw [if_neg hp]
      rw [Option.map_eq_none']
      rw [ih]
      constructor
      · intro h m
        rcases m with _ | m'
        · exact fun hc => hp hc
        · exact h m'
      · intro h m'
        exact h (m' + 1)

lemma drop_drop_occursAt (pat s : JStr) (k m : Nat) :
    occursAt pat (s.drop k) m ↔ occursAt pat s (m + k) := by
  unfold occursAt
  rw [List.drop_drop, Nat.add_comm k m]

lemma findFrom_least (pat s : JStr) (k n : Nat) :
    findFrom pat s k = some n ↔
      (k ≤ n ∧ occursAt pat s n ∧ ∀ m, k ≤ m → m < n → ¬occursAt pat s m) := by
  unfold findFrom
  constructor
  · intro h
    rw [Option.map_eq_some'] at h
    rcases h with ⟨n', hn', hadd⟩
    subst hadd
    have hih := (findIdx0_least pat (s.drop k) n').mp hn'
    refine ⟨by omega, (drop_drop_occursAt pat s k n').mp hih.1, ?_⟩
    intro m hm1 hm2 hc
    have hc2 : occursAt pat (s.drop k) (m - k) := by
      rw [drop_drop_occursAt]
      rw [show m - k + k = m by omega]
      exact hc
    exact hih.2 (m - k) (by omega) hc2
  · rintro ⟨h1, h2, h3⟩
    have hr : findIdx0 pat (s.drop k) = some (n - k) := by
      rw [findIdx0_least]
      refine ⟨?_, ?_⟩
      · rw [drop_drop_occursAt]
        rw [show n - k + k = n by omega]
        exact h2
      · intro m hm hc
        exact h3 (m + k) (by omega) (by omega) ((drop_drop_occursAt pat s k m).mp hc)
    rw [hr]
    simp only [Option.map_some']
    congr 1
    omega

lemma findFrom_none_least (pat s : JStr) (k : Nat) :
    findFrom pat s k = none ↔ ∀ m, k ≤ m → ¬occursAt pat s m := by
  unfold findFrom
  rw [Option.map_eq_none']
  rw [findIdx0_none_least]
  constructor
  · intro h m hm hc
    have : occursAt pat (s.drop k) (m - k) := by
      rw [drop_drop_occursAt]
      rw [show m - k + k = m by omega]
      exact hc
    exact h (m - k) this
  · intro h m hc
    exact h (m + k) (by omega) ((drop_drop_occursAt pat s k m).mp hc)

/-- Spec-side description of an `indexOf`-style scan result: either `-1` with
no occurrence at or after the offset, or the least occurrence at or after it. -/
def leastOccFrom (pat s : JStr) (k : Nat) (r : Int) : Prop :=
  (r = -1 ∧ ∀ m, k ≤ m → ¬occursAt pat s m) ∨
  (∃ n : Nat, r = (n : Int) ∧ k ≤ n ∧ occursAt pat s n ∧
    ∀ m, k ≤ m → m < n → ¬occursAt pat s m)

lemma jsIndexOf_leastOcc (s pat : JStr) (start : Int) :
    leastOccFrom pat s start.toNat (jsIndexOf s pat start) := by
  unfold jsIndexOf
  rcases hf : findFrom pat s start.toNat with _ | n
  · exact Or.inl ⟨rfl, (findFrom_none_least pat s start.toNat).mp hf⟩
  · have hih := (findFrom_least pat s start.toNat n).mp hf
    exact Or.inr ⟨n, rfl, hih.1, hih.2.1, hih.2.2⟩

lemma upStr_length (s : JStr) : (upStr s).length = s.length := List.length_map s upChar

lemma upStr_append (x y : JStr) : upStr (x ++ y) = upStr x ++ upStr y := List.map_append upChar x y

lemma upStr_cons_space (y : JStr) : upStr (' ' :: y) = ' ' :: upStr y := rfl

lemma occursAt_here (pat z : JStr) : occursAt pat (pat ++ z) 0 := by
  unfold occursAt
  rw [List.drop_zero]
  exact List.isPrefixOf_iff_prefix.mpr (List.prefix_append pat z)

lemma occursAt_self (pat : JStr) : occursAt pat pat 0 := by
  have := occursAt_here pat []
  rw [List.append_nil] at this
  exact this

lemma occursAt_append_left (pat x y : JStr) (n : Nat) (h : occursAt pat x n) :
    occursAt pat (x ++ y) n := by
  unfold occursAt at h ⊢
  rw [List.drop_append_eq_append_drop]
  have hp := List.isPrefixOf_iff_prefix.mp h
  exact List.isPrefixOf_iff_prefix.mpr (hp.trans (List.prefix_append _ _))

lemma occursAt_append_right_shift (pat x y : JStr) (m : Nat) (h : occursAt pat y m) :
    occursAt pat (x ++ y) (x.length + m) := by
  unfold occursAt at h ⊢
  rw [List.drop_append_eq_append_drop]
  rw [List.drop_eq_nil_of_le (by omega), show x.length + m - x.length = m by omega]
  rw [List.nil_append]
  exact h

lemma occursAt_cons_space_shift (pat x y : JStr) (m : Nat) (h : occursAt pat y m) :
    occursAt pat (x ++ ' ' :: y) (x.length + 1 + m) := by
  have h2 := occursAt_append_right_shift pat (x ++ [' ']) y m h
  rw [List.append_assoc] at h2
  rw [List.length_append, List.length_singleton] at h2
  exact h2

lemma occursAt_bounded (pat l : JStr) (hne : pat ≠ []) (m : Nat) (h : occursAt pat l m) :
    m < l.length := by
  by_contra hc
  push_neg at hc
  unfold occursAt at h
  rw [List.drop_eq_nil_of_le hc] at h
  have := List.isPrefixOf_iff_prefix.mp h
  exact hne (List.prefix_nil.mp this)

lemma not_occursAt_all (pat l : JStr) (hne : pat ≠ [])
    (h : ∀ m, m < l.length → ¬occursAt pat l m) : ∀ m, ¬occursAt pat l m := by
  intro m hm
  exact h m (occursAt_bounded pat l hne m hm) hm

lemma occursAt_unique_zero (pat l : JStr) (hne : pat ≠ [])
    (h : ∀ m, m < l.length → m ≠ 0 → ¬occursAt pat l m) :
    ∀ m, occursAt pat l m → m = 0 := by
  intro m hm
  by_contra h0
  exact h m (occursAt_bounded pat l hne m hm) h0 hm

lemma prefix_of_append_short {pat a b : JStr} (h : pat <+: a ++ b)
    (hlen : pat.length ≤ a.length) : pat <+: a := by
  rw [List.prefix_iff_eq_take] at h ⊢
  rw [List.take_append_eq_append_take, show pat.length - a.length = 0 by omega,
    List.take_zero, List.append_nil] at h
  exact h

lemma occursAt_append_space_split (pat x y : JStr) (n : Nat)
    (hsp : ' ' ∉ pat) (hne : pat ≠ []) (h : occursAt pat (x ++ ' ' :: y) n) :
    occursAt pat x n ∨ ∃ m, n = x.length + 1 + m ∧ occursAt pat y m := by
  unfold occursAt at h
  rcases Nat.lt_or_ge n (x.length + 1) with hn | hn
  · left
    rw [List.drop_append_eq_append_drop] at h
    have hp := List.isPrefixOf_iff_prefix.mp h
    by_cases hfit : pat.length ≤ x.length - n
    · have hpx : pat <+: List.drop n x := by
        apply prefix_of_append_short hp
        rw [List.length_drop]
        exact hfit
      exact List.isPrefixOf_iff_prefix.mpr hpx
    · exfalso
      push_neg at hfit
      have hsub : ' ' ∈ pat := by
        rw [List.prefix_iff_eq_take] at hp
        have hmem : ' ' ∈ List.take pat.length (List.drop n x ++ List.drop (n - x.length) (' ' :: y)) := by
          have hdn : (List.drop n x).length = x.length - n := List.length_drop n x
          rw [List.take_append_eq_append_take]
          have hrest : n - x.length = 0 := by omega
          rw [hrest]
          have h1 : 1 ≤ pat.length - (List.drop n x).length := by
            rw [hdn]; omega
          rcases hpl : pat.length - (List.drop n x).length with _ | k
          · omega
          · simp [List.take_cons]
        rw [← hp] at hmem
        exact hmem
      exact hsp hsub
  · right
    refine ⟨n - x.length - 1, by omega, ?_⟩
    rw [List.drop_append_eq_append_drop, List.drop_eq_nil_of_le (by omega),
      List.nil_append] at h
    have hyd : List.drop (n - x.length) (' ' :: y) = List.drop (n - x.length - 1) y := by
      rcases he : n - x.length with _ | k
      · omega
      · rw [List.drop_succ_cons]
        simp
    rw [hyd] at h
    exact h

lemma splitSpace_ne_nil (l : JStr) : splitSpace l ≠ [] := by
  cases l with
  | nil => simp [splitSpace]
  | cons c rest =>
    rw [splitSpace]
    rcases splitSpace rest with _ | ⟨w, ws⟩
    · simp
    · split_ifs <;> simp

lemma splitSpace_nospace (w : JStr) (h : ∀ ch ∈ w, isJsSpace ch = false) :
    splitSpace w = [w] := by
  induction w with
  | nil => rfl
  | cons c rest ih =>
    rw [splitSpace]
    rw [ih (fun ch hch => h ch (by simp [hch]))]
    have hc : c ≠ ' ' := by
      intro he
      have := h c (by simp)
      rw [he] at this
      exact absurd this (by decide)
    simp [hc]

lemma splitSpace_append_space (w r : JStr) (h : ∀ ch ∈ w, isJsSpace ch = false) :
    splitSpace (w ++ ' ' :: r) = w :: splitSpace r := by
  induction w with
  | nil =>
    rw [List.nil_append, splitSpace]
    rcases hs : splitSpace r with _ | ⟨w0, ws⟩
    · exact absurd hs (splitSpace_ne_nil r)
    · simp
  | cons c rest ih =>
    rw [List.cons_append, splitSpace]
    rw [ih (fun ch hch => h ch (by simp [hch]))]
    have hc : c ≠ ' ' := by
      intro he
      have := h c (by simp)
      rw [he] at this
      exact absurd this (by decide)
    simp [hc]

lemma joinSpace_cons_cons (w w2 : JStr) (ws : List JStr) :
    joinSpace (w :: w2 :: ws) = w ++ ' ' :: joinSpace (w2 :: ws) := rfl

lemma splitSpace_joinSpace (ws : List JStr) (hne : ws ≠ [])
    (h : ∀ w ∈ ws, ∀ ch ∈ w, isJsSpace ch = false) :
    splitSpace (joinSpace ws) = ws := by
  induction ws with
  | nil => exact absurd rfl hne
  | cons w rest ih =>
    rcases rest with _ | ⟨w2, rest2⟩
    · exact splitSpace_nospace w (h w (by simp))
    · rw [joinSpace_cons_cons]
      rw [splitSpace_append_space w _ (h w (by simp))]
      rw [ih (by simp) (fun t ht ch hch => h t (by simp [ht]) ch hch)]

lemma joinSpace_head (w : JStr) (ws : List JStr) (hw : w ≠ []) :
    (joinSpace (w :: ws)).head? = w.head? := by
  rcases ws with _ | ⟨w2, rest⟩
  · rfl
  · rw [joinSpace_cons_cons]
    rcases w with _ | ⟨c, t⟩
    · exact absurd rfl hw
    · rfl

lemma joinSpace_ne_nil (w : JStr) (ws : List JStr) (hw : w ≠ []) :
    joinSpace (w :: ws) ≠ [] := by
  intro h
  have := joinSpace_head w ws hw
  rw [h] at this
  rcases w with _ | ⟨c, t⟩
  · exact absurd rfl hw
  · exact Option.noConfusion this

lemma joinSpace_rev_head (ws : List JStr) (hne : ws ≠ []) (h1 : ∀ w ∈ ws, w ≠ []) :
    ∃ w ∈ ws, (joinSpace ws).reverse.head? = w.reverse.head? := by
  induction ws with
  | nil => exact absurd rfl hne
  | cons w rest ih =>
    rcases rest with _ | ⟨w2, rest2⟩
    · exact ⟨w, by simp, rfl⟩
    · rcases ih (by simp) (fun t ht => h1 t (by simp [ht])) with ⟨t, ht, hth⟩
      refine ⟨t, by simp [ht], ?_⟩
      rw [joinSpace_cons_cons, List.reverse_append]
      have hj : joinSpace (w2 :: rest2) ≠ [] := joinSpace_ne_nil w2 rest2 (h1 w2 (by simp))
      rcases hr : (joinSpace (w2 :: rest2)).reverse with _ | ⟨a, as⟩
      · exact absurd (by simpa using hr) hj
      · rw [List.reverse_cons, List.append_assoc]
        rw [hr] at hth ⊢
        rw [List.cons_append]
        rw [← hth]
        rfl

lemma jsTrim_nospace_edges (s : JStr)
    (h1 : ∀ c, s.head? = some c → isJsSpace c = false)
    (h2 : ∀ c, s.reverse.head? = some c → isJsSpace c = false) :
    jsTrim s = s := by
  unfold jsTrim dropTrailingSpace
  rw [dropWhile_head_false s _ h1]
  rw [dropWhile_head_false s.reverse _ h2]
  exact List.reverse_reverse s

lemma normalizeInstr_joinSpace (ws : List JStr) (hne : ws ≠ [])
    (h1 : ∀ w ∈ ws, w ≠ []) (h2 : ∀ w ∈ ws, ∀ ch ∈ w, isJsSpace ch = false) :
    normalizeInstr (joinSpace ws) = joinSpace ws := by
  unfold normalizeInstr
  have htrim : jsTrim (joinSpace ws) = joinSpace ws := by
    apply jsTrim_nospace_edges
    · intro c hc
      rcases ws with _ | ⟨w, rest⟩
      · exact absurd rfl hne
      · rw [joinSpace_head w rest (h1 w (by simp))] at hc
        have hcm : c ∈ w := List.mem_of_mem_head? hc
        exact h2 w (by simp) c hcm
    · intro c hc
      rcases joinSpace_rev_head ws hne h1 with ⟨t, ht, hth⟩
      rw [hth] at hc
      have hcm : c ∈ t.reverse := List.mem_of_mem_head? hc
      rw [List.mem_reverse] at hcm
      exact h2 t ht c hcm
  rw [htrim]
  rw [splitSpace_joinSpace ws hne h2]
  have hfilter : ws.filter (fun w => w.length > 0) = ws := by
    apply List.filter_eq_self.mpr
    intro w hw
    have := h1 w hw
    simp only [decide_eq_true_eq]
    rcases w with _ | ⟨c, t⟩
    · exact absurd rfl this
    · simp
  rw [hfilter]

lemma jsTrim_wrap (z : JStr)
    (h1 : ∀ c, z.head? = some c → isJsSpace c = false)
    (h2 : ∀ c, z.reverse.head? = some c → isJsSpace c = false) :
    jsTrim (' ' :: z ++ [' ']) = z := by
  unfold jsTrim dropTrailingSpace
  have e1 : (' ' :: z ++ [' ']) = ' ' :: (z ++ [' ']) := rfl
  rw [e1, List.dropWhile_cons]
  rw [show isJsSpace ' ' = true from rfl]
  simp only [if_true]
  rcases z with _ | ⟨c, t⟩
  · simp [List.dropWhile]
  · have hc : isJsSpace c = false := h1 c rfl
    have e2 : ((c :: t) ++ [' ']) = c :: (t ++ [' ']) := rfl
    rw [e2, List.dropWhile_cons, hc]
    simp only [Bool.false_eq_true, if_false]
    rw [← e2, List.reverse_append]
    simp only [List.reverse_singleton, List.singleton_append]
    rw [List.dropWhile_cons]
    rw [show isJsSpace ' ' = true from rfl]
    simp only [if_true]
    rw [dropWhile_head_false (c :: t).reverse _ h2, List.reverse_reverse]

lemma jsTrim_space_left (z : JStr)
    (h1 : ∀ c, z.head? = some c → isJsSpace c = false)
    (h2 : ∀ c, z.reverse.head? = some c → isJsSpace c = false) :
    jsTrim (' ' :: z) = z := by
  unfold jsTrim dropTrailingSpace
  rw [List.dropWhile_cons]
  rw [show isJsSpace ' ' = true from rfl]
  simp only [if_true]
  rw [dropWhile_head_false z _ h1]
  rw [dropWhile_head_false z.reverse _ h2]
  exact List.reverse_reverse z

lemma drop_shift (x y : JStr) (m : Nat) :
    List.drop (x.length + 1 + m) (x ++ ' ' :: y) = List.drop m y := by
  rw [List.drop_append_eq_append_drop]
  rw [List.drop_eq_nil_of_le (by omega), List.nil_append]
  rw [show x.length + 1 + m - x.length = m + 1 by omega]
  rw [List.drop_succ_cons]

lemma drop_at_space (x y : JStr) :
    List.drop x.length (x ++ ' ' :: y) = ' ' :: y := List.drop_left x (' ' :: y)

lemma jsSubstring_nat (s : JStr) (a b : Nat) (hab : a ≤ b) (hb : b ≤ s.length) :
    jsSubstring s (a : Int) (b : Int) = List.take (b - a) (List.drop a s) := by
  unfold jsSubstring
  dsimp only
  rw [Int.toNat_natCast, Int.toNat_natCast]
  rw [min_eq_left (le_trans hab hb), min_eq_left hb]
  rw [max_eq_right hab, min_eq_left hab]
  rw [List.drop_take]

lemma service_ok (now : Date3) (accounts : List Account) (s : JStr) (df : Draft)
    (h : parseInstruction s = .ok df) :
    paymentInstructionsService now ⟨accounts, s⟩ =
      (match validateInstruction df accounts with
       | some ve =>
         (⟨400, ⟨some df.ptype, jsParseIntOrNull df.amount, some df.currency,
           some df.debitAccount, some df.creditAccount, df.executeBy,
           str "failed", ve.statusReason, ve.statusCode,
           accounts.filterMap (fun acc =>
             if acc.id == df.debitAccount || acc.id == df.creditAccount then
               some ⟨acc.id, acc.balance, acc.balance, upStr acc.currency⟩
             else none)⟩⟩, accounts)
       | none =>
         if shouldExecuteImmediately df.executeBy now then
           (⟨200, ⟨some df.ptype, jsParseInt df.amount, some df.currency,
             some df.debitAccount, some df.creditAccount, df.executeBy,
             str "successful", str "Transaction executed successfully", str "AP00",
             accounts.filterMap (fun acc =>
               if acc.id == df.debitAccount || acc.id == df.creditAccount then
                 some (if acc.id == df.debitAccount then (executeTransaction df accounts).1
                   else (executeTransaction df accounts).2.1)
               else none)⟩⟩, (executeTransaction df accounts).2.2)
         else
           (⟨200, ⟨some df.ptype, jsParseInt df.amount, some df.currency,
             some df.debitAccount, some df.creditAccount, df.executeBy,
             str "pending", str "Transaction scheduled for future execution", str "AP02",
             accounts.filterMap (fun acc =>
               if acc.id == df.debitAccount || acc.id == df.creditAccount then
                 some ⟨acc.id, acc.balance, acc.balance, upStr acc.currency⟩
               else none)⟩⟩, accounts)) := by
  unfold paymentInstructionsService
  dsimp only
  rw [h]

instance occursAt.decidable (pat s : JStr) (n : Nat) : Decidable (occursAt pat s n) := by
  unfold occursAt
  infer_instance

/-- The seven keywords scanned by the parser. -/
def kwList : List JStr :=
  [str "DEBIT", str "FROM", str "ACCOUNT", str "FOR", str "CREDIT", str "TO", str "ON"]

/-- A usable instruction token: nonempty and whitespace-free. -/
def goodToken (w : JStr) : Prop := w ≠ [] ∧ ∀ ch ∈ w, isJsSpace ch = false

instance (w : JStr) : Decidable (goodToken w) := by
  unfold goodToken
  infer_instance

/-- The uppercase image of the token contains no keyword occurrence
(bounded form, decidable on concrete tokens). -/
def kwFree (w : JStr) : Prop :=
  ∀ K ∈ kwList, ∀ m, m ≤ (upStr w).length → ¬occursAt K (upStr w) m

instance (w : JStr) : Decidable (kwFree w) := by
  unfold kwFree occursAt
  infer_instance

lemma kwFree_no_occ (w : JStr) (h : kwFree w) (K : JStr) (hK : K ∈ kwList) :
    ∀ m, ¬occursAt K (upStr w) m := by
  have hKne : K ≠ [] := by
    fin_cases hK <;> decide
  intro m hm
  rcases le_or_lt m (upStr w).length with hle | hlt
  · exact h K hK m hle hm
  · have := occursAt_bounded K (upStr w) hKne m hm
    omega

lemma upStr_joinSpace (ws : List JStr) :
    upStr (joinSpace ws) = joinSpace (ws.map upStr) := by
  induction ws with
  | nil => rfl
  | cons w rest ih =>
    rcases rest with _ | ⟨w2, rest2⟩
    · rfl
    · rw [joinSpace_cons_cons, List.map_cons, List.map_cons, joinSpace_cons_cons]
      rw [upStr_append, upStr_cons_space]
      rw [← List.map_cons upStr w2 rest2, ih]

/-- An occurrence of the token `K` itself, at the start offset of its slot. -/
lemma occursAt_joinSpace_at (K : JStr) : ∀ (pre suf : List JStr),
    occursAt K (joinSpace (pre ++ K :: suf))
      ((pre.map (fun t => t.length + 1)).sum) := by
  intro pre
  induction pre with
  | nil =>
    intro suf
    rcases suf with _ | ⟨w2, rest⟩
    · exact occursAt_self K
    · rw [List.nil_append, joinSpace_cons_cons]
      exact occursAt_here K _
  | cons w pre' ih =>
    intro suf
    rw [List.cons_append]
    have hne : pre' ++ K :: suf ≠ [] := by
      rcases pre' with _ | ⟨a, b⟩ <;> simp
    rcases he : pre' ++ K :: suf with _ | ⟨t2, rest2⟩
    · exact absurd he hne
    · have ih2 := ih suf
      rw [he] at ih2
      rw [joinSpace_cons_cons]
      have hsh := occursAt_cons_space_shift K w _ _ ih2
      rw [List.map_cons, List.sum_cons]
      convert hsh using 1

/-- Any occurrence inside a space-join decomposes into an occurrence inside
one of the tokens, at the token's start offset. -/
lemma occursAt_joinSpace_split (K : JStr) (hsp : ' ' ∉ K) (hne : K ≠ []) :
    ∀ (ws : List JStr) (n : Nat), ws ≠ [] → occursAt K (joinSpace ws) n →
      ∃ (i m : Nat), i < ws.length ∧
        occursAt K (ws.getD i []) m ∧
        n = (((ws.take i).map (fun t => t.length + 1)).sum) + m := by
  intro ws
  induction ws with
  | nil =>
    intro n h
    exact absurd rfl h
  | cons w rest ih =>
    intro n _ h
    rcases rest with _ | ⟨w2, rest2⟩
    · refine ⟨0, n, by simp, ?_, by simp⟩
      exact h
    · rw [joinSpace_cons_cons] at h
      rcases occursAt_append_space_split K w _ n hsp hne h with h1 | ⟨m, hm, h2⟩
      · exact ⟨0, n, by simp, h1, by simp⟩
      · rcases ih m (by simp) h2 with ⟨i, m2, hi, hocc, hsum⟩
        refine ⟨i + 1, m2, by simpa using hi, by simpa using hocc, ?_⟩
        rw [List.take_succ_cons, List.map_cons, List.sum_cons]
        omega

lemma occursAt_congr_pos (K x : JStr) (n n' : Nat) (h : occursAt K x n) (he : n = n') :
    occursAt K x n' := he ▸ h

lemma joinSpace_singleton (w : JStr) : joinSpace [w] = w := rfl

lemma take_one_token (a r : JStr) :
    List.take (a.length + 2) (' ' :: (a ++ ' ' :: r)) = ' ' :: a ++ [' '] := by
  rw [show a.length + 2 = (a.length + 1) + 1 from rfl]
  rw [List.take_succ_cons]
  rw [List.take_append_eq_append_take]
  rw [List.take_of_length_le (by omega)]
  rw [show a.length + 1 - a.length = 1 from by omega]
  rfl

lemma take_two_tokens (a b r : JStr) :
    List.take (a.length + b.length + 3) (' ' :: (a ++ ' ' :: (b ++ ' ' :: r))) =
      ' ' :: (a ++ ' ' :: b) ++ [' '] := by
  rw [show a.length + b.length + 3 = (a.length + b.length + 2) + 1 from rfl]
  rw [List.take_succ_cons]
  rw [List.take_append_eq_append_take]
  rw [List.take_of_length_le (by omega)]
  rw [show a.length + b.length + 2 - a.length = (b.length + 1) + 1 from by omega]
  rw [List.take_succ_cons]
  rw [List.take_append_eq_append_take]
  rw [List.take_of_length_le (by omega)]
  rw [show b.length + 1 - b.length = 1 from by omega]
  simp

lemma head?_append_left (x y : JStr) (h : x ≠ []) : (x ++ y).head? = x.head? := by
  rcases x with _ | ⟨c, t⟩
  · exact absurd rfl h
  · rfl

lemma rev_head?_append (x y : JStr) (h : y ≠ []) :
    (x ++ y).reverse.head? = y.reverse.head? := by
  rw [List.reverse_append]
  apply head?_append_left
  intro hc
  exact h (List.reverse_eq_nil_iff.mp hc)

lemma rev_head?_cons_space (z : JStr) (h : z ≠ []) :
    (' ' :: z).reverse.head? = z.reverse.head? := by
  rw [show (' ' :: z) = [' '] ++ z from rfl]
  exact rev_head?_append [' '] z h

lemma jsSubstringFrom_nat (s : JStr) (a : Nat) (ha : a ≤ s.length) :
    jsSubstringFrom s (a : Int) = List.drop a s := by
  unfold jsSubstringFrom
  rw [jsSubstring_nat s a s.length ha (le_refl _)]
  apply List.take_of_length_le
  rw [List.length_drop]

lemma goodToken_head (w : JStr) (hg : goodToken w) :
    ∀ ch, w.head? = some ch → isJsSpace ch = false := by
  intro ch hch
  exact hg.2 ch (List.mem_of_mem_head? hch)

lemma goodToken_rev_head (w : JStr) (hg : goodToken w) :
    ∀ ch, w.reverse.head? = some ch → isJsSpace ch = false := by
  intro ch hch
  have := List.mem_of_mem_head? hch
  rw [List.mem_reverse] at this
  exact hg.2 ch this

lemma filter_two_tokens (a b : JStr) (ha : a ≠ []) (hb : b ≠ []) :
    List.filter (fun t => t.length > 0) [a, b] = [a, b] := by
  apply List.filter_eq_self.mpr
  intro w hw
  simp only [List.mem_cons, List.not_mem_nil, or_false] at hw
  rcases hw with h | h
  · subst h
    simp only [decide_eq_true_eq]
    exact List.length_pos.mpr ha
  · subst h
    simp only [decide_eq_true_eq]
    exact List.length_pos.mpr hb

set_option maxHeartbeats 1000000 in
lemma parseDebit_extract_on
    (debitW fromW accW1 forW credW toW accW2 onW amt cur d c dt : JStr)
    (hupD : upStr debitW = str "DEBIT") (hupF : upStr fromW = str "FROM")
    (hupA1 : upStr accW1 = str "ACCOUNT") (hupFo : upStr forW = str "FOR")
    (hupC : upStr credW = str "CREDIT") (hupT : upStr toW = str "TO")
    (hupA2 : upStr accW2 = str "ACCOUNT") (hupO : upStr onW = str "ON")
    (hgd : goodToken d) (hgcc : goodToken c) (hgdt : goodToken dt)
    (hga : goodToken amt) (hgc : goodToken cur)
    (hka : kwFree amt) (hkc : kwFree cur) (hkd : kwFree d) (hkcc : kwFree c)
    (hkdt : kwFree dt) :
    parseDebitInstruction (joinSpace [debitW, amt, cur, fromW, accW1, d, forW,
        credW, toW, accW2, c, onW, dt]) =
      .ok ⟨str "DEBIT", amt, upStr cur, d, c, some dt⟩ ∧
    jsIndexOf (upStr (joinSpace [debitW, amt, cur, fromW, accW1, d, forW,
        credW, toW, accW2, c, onW, dt])) (str "DEBIT") 0 = 0 := by
  have lD : debitW.length = 5 := by
    have h := upStr_length debitW
    rw [hupD] at h
    exact h.symm.trans (by decide)
  have lF : fromW.length = 4 := by
    have h := upStr_length fromW
    rw [hupF] at h
    exact h.symm.trans (by decide)
  have lA1 : accW1.length = 7 := by
    have h := upStr_length accW1
    rw [hupA1] at h
    exact h.symm.trans (by decide)
  have lFo : forW.length = 3 := by
    have h := upStr_length forW
    rw [hupFo] at h
    exact h.symm.trans (by decide)
  have lC : credW.length = 6 := by
    have h := upStr_length credW
    rw [hupC] at h
    exact h.symm.trans (by decide)
  have lT : toW.length = 2 := by
    have h := upStr_length toW
    rw [hupT] at h
    exact h.symm.trans (by decide)
  have lA2 : accW2.length = 7 := by
    have h := upStr_length accW2
    rw [hupA2] at h
    exact h.symm.trans (by decide)
  have lO : onW.length = 2 := by
    have h := upStr_length onW
    rw [hupO] at h
    exact h.symm.trans (by decide)
  have litD : (str "DEBIT").length = 5 := by decide
  have litF : (str "FROM").length = 4 := by decide
  have litA : (str "ACCOUNT").length = 7 := by decide
  have litFo : (str "FOR").length = 3 := by decide
  have litC : (str "CREDIT").length = 6 := by decide
  have litT : (str "TO").length = 2 := by decide
  have litO : (str "ON").length = 2 := by decide
  have hupj : upStr (joinSpace [debitW, amt, cur, fromW, accW1, d, forW,
      credW, toW, accW2, c, onW, dt]) =
      joinSpace [str "DEBIT", upStr amt, upStr cur, str "FROM", str "ACCOUNT",
        upStr d, str "FOR", str "CREDIT", str "TO", str "ACCOUNT", upStr c,
        str "ON", upStr dt] := by
    rw [upStr_joinSpace]
    simp only [List.map_cons, List.map_nil, hupD, hupF, hupA1, hupFo, hupC,
      hupT, hupA2, hupO]
  have hO_D : ∀ n, occursAt (str "DEBIT")
      (upStr (joinSpace [debitW, amt, cur, fromW, accW1, d, forW, credW, toW,
        accW2, c, onW, dt])) n → n = 0 := by
    intro n hn
    rw [hupj] at hn
    rcases occursAt_joinSpace_split _ (by decide) (by decide) _ n (by simp) hn
      with ⟨i, m, hi, hocc, hsum⟩
    have hi13 : i < 13 := by simpa using hi
    interval_cases i <;>
      simp only [List.getD_cons_zero, List.getD_cons_succ] at hocc <;>
      simp only [List.take_succ_cons, List.take_zero, List.map_cons, List.map_nil,
        List.sum_cons, List.sum_nil, upStr_length, litD, litF, litA, litFo, litC,
        litT, litO] at hsum <;>
      first
        | exact absurd hocc (kwFree_no_occ amt hka _ (by decide) m)
        | exact absurd hocc (kwFree_no_occ cur hkc _ (by decide) m)
        | exact absurd hocc (kwFree_no_occ d hkd _ (by decide) m)
        | exact absurd hocc (kwFree_no_occ c hkcc _ (by decide) m)
        | exact absurd hocc (kwFree_no_occ dt hkdt _ (by decide) m)
        | exact absurd hocc (not_occursAt_all _ _ (by decide) (by decide) m)
        | (have h0 := occursAt_unique_zero _ _ (by decide) (by decide) m hocc
           omega)
  have hO_F : ∀ n, occursAt (str "FROM")
      (upStr (joinSpace [debitW, amt, cur, fromW, accW1, d, forW, credW, toW,
        accW2, c, onW, dt])) n → n = 8 + amt.length + cur.length := by
    intro n hn
    rw [hupj] at hn
    rcases occursAt_joinSpace_split _ (by decide) (by decide) _ n (by simp) hn
      with ⟨i, m, hi, hocc, hsum⟩
    have hi13 : i < 13 := by simpa using hi
    interval_cases i <;>
      simp only [List.getD_cons_zero, List.getD_cons_succ] at hocc <;>
      simp only [List.take_succ_cons, List.take_zero, List.map_cons, List.map_nil,
        List.sum_cons, List.sum_nil, upStr_length, litD, litF, litA, litFo, litC,
        litT, litO] at hsum <;>
      first
        | exact absurd hocc (kwFree_no_occ amt hka _ (by decide) m)
        | exact absurd hocc (kwFree_no_occ cur hkc _ (by decide) m)
        | exact absurd hocc (kwFree_no_occ d hkd _ (by decide) m)
        | exact absurd hocc (kwFree_no_occ c hkcc _ (by decide) m)
        | exact absurd hocc (kwFree_no_occ dt hkdt _ (by decide) m)
        | exact absurd hocc (not_occursAt_all _ _ (by decide) (by decide) m)
        | (have h0 := occursAt_unique_zero _ _ (by decide) (by decide) m hocc
           omega)
  have hO_A : ∀ n, occursAt (str "ACCOUNT")
      (upStr (joinSpace [debitW, amt, cur, fromW, accW1, d, forW, credW, toW,
        accW2, c, onW, dt])) n →
      n = 13 + amt.length + cur.length ∨
      n = 36 + amt.length + cur.length + d.length := by
    intro n hn
    rw [hupj] at hn
    rcases occursAt_joinSpace_split _ (by decide) (by decide) _ n (by simp) hn
      with ⟨i, m, hi, hocc, hsum⟩
    have hi13 : i < 13 := by simpa using hi
    interval_cases i <;>
      simp only [List.getD_cons_zero, List.getD_cons_succ] at hocc <;>
      simp only [List.take_succ_cons, List.take_zero, List.map_cons, List.map_nil,
        List.sum_cons, List.sum_nil, upStr_length, litD, litF, litA, litFo, litC,
        litT, litO] at hsum <;>
      first
        | exact absurd hocc (kwFree_no_occ amt hka _ (by decide) m)
        | exact absurd hocc (kwFree_no_occ cur hkc _ (by decide) m)
        | exact absurd hocc (kwFree_no_occ d hkd _ (by decide) m)
        | exact absurd hocc (kwFree_no_occ c hkcc _ (by decide) m)
        | exact absurd hocc (kwFree_no_occ dt hkdt _ (by decide) m)
        | exact absurd hocc (not_occursAt_all _ _ (by decide) (by decide) m)
        | (have h0 := occursAt_unique_zero _ _ (by decide) (by decide) m hocc
           omega)
  have hO_Fo : ∀ n, occursAt (str "FOR")
      (upStr (joinSpace [debitW, amt, cur, fromW, accW1, d, forW, credW, toW,
        accW2, c, onW, dt])) n → n = 22 + amt.length + cur.length + d.length := by
    intro n hn
    rw [hupj] at hn
    rcases occursAt_joinSpace_split _ (by decide) (by decide) _ n (by simp) hn
      with ⟨i, m, hi, hocc, hsum⟩
    have hi13 : i < 13 := by simpa using hi
    interval_cases i <;>
      simp only [List.getD_cons_zero, List.getD_cons_succ] at hocc <;>
      simp only [List.take_succ_cons, List.take_zero, List.map_cons, List.map_nil,
        List.sum_cons, List.sum_nil, upStr_length, litD, litF, litA, litFo, litC,
        litT, litO] at hsum <;>
      first
        | exact absurd hocc (kwFree_no_occ amt hka _ (by decide) m)
        | exact absurd hocc (kwFree_no_occ cur hkc _ (by decide) m)
        | exact absurd hocc (kwFree_no_occ d hkd _ (by decide) m)
        | exact absurd hocc (kwFree_no_occ c hkcc _ (by decide) m)
        | exact absurd hocc (kwFree_no_occ dt hkdt _ (by decide) m)
        | exact absurd hocc (not_occursAt_all _ _ (by decide) (by decide) m)
        | (have h0 := occursAt_unique_zero _ _ (by decide) (by decide) m hocc
           omega)
  have hO_C : ∀ n, occursAt (str "CREDIT")
      (upStr (joinSpace [debitW, amt, cur, fromW, accW1, d, forW, credW, toW,
        accW2, c, onW, dt])) n → n = 26 + amt.length + cur.length + d.length := by
    intro n hn
    rw [hupj] at hn
    rcases occursAt_joinSpace_split _ (by decide) (by decide) _ n (by simp) hn
      with ⟨i, m, hi, hocc, hsum⟩
    have hi13 : i < 13 := by simpa using hi
    interval_cases i <;>
      simp only [List.getD_cons_zero, List.getD_cons_succ] at hocc <;>
      simp only [List.take_succ_cons, List.take_zero, List.map_cons, List.map_nil,
        List.sum_cons, List.sum_nil, upStr_length, litD, litF, litA, litFo, litC,
        litT, litO] at hsum <;>
      first
        | exact absurd hocc (kwFree_no_occ amt hka _ (by decide) m)
        | exact absurd hocc (kwFree_no_occ cur hkc _ (by decide) m)
        | exact absurd hocc (kwFree_no_occ d hkd _ (by decide) m)
        | exact absurd hocc (kwFree_no_occ c hkcc _ (by decide) m)
        | exact absurd hocc (kwFree_no_occ dt hkdt _ (by decide) m)
        | exact absurd hocc (not_occursAt_all _ _ (by decide) (by decide) m)
        | (have h0 := occursAt_unique_zero _ _ (by decide) (by decide) m hocc
           omega)
  have hO_T : ∀ n, occursAt (str "TO")
      (upStr (joinSpace [debitW, amt, cur, fromW, accW1, d, forW, credW, toW,
        accW2, c, onW, dt])) n → n = 33 + amt.length + cur.length + d.length := by
    intro n hn
    rw [hupj] at hn
    rcases occursAt_joinSpace_split _ (by decide) (by decide) _ n (by simp) hn
      with ⟨i, m, hi, hocc, hsum⟩
    have hi13 : i < 13 := by simpa using hi
    interval_cases i <;>
      simp only [List.getD_cons_zero, List.getD_cons_succ] at hocc <;>
      simp only [List.take_succ_cons, List.take_zero, List.map_cons, List.map_nil,
        List.sum_cons, List.sum_nil, upStr_length, litD, litF, litA, litFo, litC,
        litT, litO] at hsum <;>
      first
        | exact absurd hocc (kwFree_no_occ amt hka _ (by decide) m)
        | exact absurd hocc (kwFree_no_occ cur hkc _ (by decide) m)
        | exact absurd hocc (kwFree_no_occ d hkd _ (by decide) m)
        | exact absurd hocc (kwFree_no_occ c hkcc _ (by decide) m)
        | exact absurd hocc (kwFree_no_occ dt hkdt _ (by decide) m)
        | exact absurd hocc (not_occursAt_all _ _ (by decide) (by decide) m)
        | (have h0 := occursAt_unique_zero _ _ (by decide) (by decide) m hocc
           omega)
  have hO_O : ∀ n, occursAt (str "ON")
      (upStr (joinSpace [debitW, amt, cur, fromW, accW1, d, forW, credW, toW,
        accW2, c, onW, dt])) n →
      n = 45 + amt.length + cur.length + d.length + c.length := by
    intro n hn
    rw [hupj] at hn
    rcases occursAt_joinSpace_split _ (by decide) (by decide) _ n (by simp) hn
      with ⟨i, m, hi, hocc, hsum⟩
    have hi13 : i < 13 := by simpa using hi
    interval_cases i <;>
      simp only [List.getD_cons_zero, List.getD_cons_succ] at hocc <;>
      simp only [List.take_succ_cons, List.take_zero, List.map_cons, List.map_nil,
        List.sum_cons, List.sum_nil, upStr_length, litD, litF, litA, litFo, litC,
        litT, litO] at hsum <;>
      first
        | exact absurd hocc (kwFree_no_occ amt hka _ (by decide) m)
        | exact absurd hocc (kwFree_no_occ cur hkc _ (by decide) m)
        | exact absurd hocc (kwFree_no_occ d hkd _ (by decide) m)
        | exact absurd hocc (kwFree_no_occ c hkcc _ (by decide) m)
        | exact absurd hocc (kwFree_no_occ dt hkdt _ (by decide) m)
        | exact absurd hocc (not_occursAt_all _ _ (by decide) (by decide) m)
        | (have h0 := occursAt_unique_zero _ _ (by decide) (by decide) m hocc
           omega)
  have hE_D : occursAt (str "DEBIT") (upStr (joinSpace [debitW, amt, cur, fromW,
      accW1, d, forW, credW, toW, accW2, c, onW, dt])) 0 := by
    rw [hupj]
    have hx := occursAt_joinSpace_at (str "DEBIT") []
      [upStr amt, upStr cur, str "FROM", str "ACCOUNT", upStr d, str "FOR",
       str "CREDIT", str "TO", str "ACCOUNT", upStr c, str "ON", upStr dt]
    simp only [List.map_nil, List.sum_nil, List.nil_append] at hx
    exact hx
  have hE_F : occursAt (str "FROM") (upStr (joinSpace [debitW, amt, cur, fromW,
      accW1, d, forW, credW, toW, accW2, c, onW, dt]))
      (8 + amt.length + cur.length) := by
    rw [hupj]
    have hx := occursAt_joinSpace_at (str "FROM")
      [str "DEBIT", upStr amt, upStr cur]
      [str "ACCOUNT", upStr d, str "FOR", str "CREDIT", str "TO", str "ACCOUNT",
       upStr c, str "ON", upStr dt]
    simp only [List.map_cons, List.map_nil, List.sum_cons, List.sum_nil,
      upStr_length, litD, litF, litA, litFo, litC, litT, litO, List.cons_append,
      List.nil_append] at hx
    exact occursAt_congr_pos _ _ _ _ hx (by omega)
  have hE_A1 : occursAt (str "ACCOUNT") (upStr (joinSpace [debitW, amt, cur, fromW,
      accW1, d, forW, credW, toW, accW2, c, onW, dt]))
      (13 + amt.length + cur.length) := by
    rw [hupj]
    have hx := occursAt_joinSpace_at (str "ACCOUNT")
      [str "DEBIT", upStr amt, upStr cur, str "FROM"]
      [upStr d, str "FOR", str "CREDIT", str "TO", str "ACCOUNT", upStr c,
       str "ON", upStr dt]
    simp only [List.map_cons, List.map_nil, List.sum_cons, List.sum_nil,
      upStr_length, litD, litF, litA, litFo, litC, litT, litO, List.cons_append,
      List.nil_append] at hx
    exact occursAt_congr_pos _ _ _ _ hx (by omega)
  have hE_Fo : occursAt (str "FOR") (upStr (joinSpace [debitW, amt, cur, fromW,
      accW1, d, forW, credW, toW, accW2, c, onW, dt]))
      (22 + amt.length + cur.length + d.length) := by
    rw [hupj]
    have hx := occursAt_joinSpace_at (str "FOR")
      [str "DEBIT", upStr amt, upStr cur, str "FROM", str "ACCOUNT", upStr d]
      [str "CREDIT", str "TO", str "ACCOUNT", upStr c, str "ON", upStr dt]
    simp only [List.map_cons, List.map_nil, List.sum_cons, List.sum_nil,
      upStr_length, litD, litF, litA, litFo, litC, litT, litO, List.cons_append,
      List.nil_append] at hx
    exact occursAt_congr_pos _ _ _ _ hx (by omega)
  have hE_C : occursAt (str "CREDIT") (upStr (joinSpace [debitW, amt, cur, fromW,
      accW1, d, forW, credW, toW, accW2, c, onW, dt]))
      (26 + amt.length + cur.length + d.length) := by
    rw [hupj]
    have hx := occursAt_joinSpace_at (str "CREDIT")
      [str "DEBIT", upStr amt, upStr cur, str "FROM", str "ACCOUNT", upStr d,
       str "FOR"]
      [str "TO", str "ACCOUNT", upStr c, str "ON", upStr dt]
    simp only [List.map_cons, List.map_nil, List.sum_cons, List.sum_nil,
      upStr_length, litD, litF, litA, litFo, litC, litT, litO, List.cons_append,
      List.nil_append] at hx
    exact occursAt_congr_pos _ _ _ _ hx (by omega)
  have hE_T : occursAt (str "TO") (upStr (joinSpace [debitW, amt, cur, fromW,
      accW1, d, forW, credW, toW, accW2, c, onW, dt]))
      (33 + amt.length + cur.length + d.length) := by
    rw [hupj]
    have hx := occursAt_joinSpace_at (str "TO")
      [str "DEBIT", upStr amt, upStr cur, str "FROM", str "ACCOUNT", upStr d,
       str "FOR", str "CREDIT"]
      [str "ACCOUNT", upStr c, str "ON", upStr dt]
    simp only [List.map_cons, List.map_nil, List.sum_cons, List.sum_nil,
      upStr_length, litD, litF, litA, litFo, litC, litT, litO, List.cons_append,
      List.nil_append] at hx
    exact occursAt_congr_pos _ _ _ _ hx (by omega)
  have hE_A2 : occursAt (str "ACCOUNT") (upStr (joinSpace [debitW, amt, cur, fromW,
      accW1, d, forW, credW, toW, accW2, c, onW, dt]))
      (36 + amt.length + cur.length + d.length) := by
    rw [hupj]
    have hx := occursAt_joinSpace_at (str "ACCOUNT")
      [str "DEBIT", upStr amt, upStr cur, str "FROM", str "ACCOUNT", upStr d,
       str "FOR", str "CREDIT", str "TO"]
      [upStr c, str "ON", upStr dt]
    simp only [List.map_cons, List.map_nil, List.sum_cons, List.sum_nil,
      upStr_length, litD, litF, litA, litFo, litC, litT, litO, List.cons_append,
      List.nil_append] at hx
    exact occursAt_congr_pos _ _ _ _ hx (by omega)
  have hE_O : occursAt (str "ON") (upStr (joinSpace [debitW, amt, cur, fromW,
      accW1, d, forW, credW, toW, accW2, c, onW, dt]))
      (45 + amt.length + cur.length + d.length + c.length) := by
    rw [hupj]
    have hx := occursAt_joinSpace_at (str "ON")
      [str "DEBIT", upStr amt, upStr cur, str "FROM", str "ACCOUNT", upStr d,
       str "FOR", str "CREDIT", str "TO", str "ACCOUNT", upStr c]
      [upStr dt]
    simp only [List.map_cons, List.map_nil, List.sum_cons, List.sum_nil,
      upStr_length, litD, litF, litA, litFo, litC, litT, litO, List.cons_append,
      List.nil_append] at hx
    exact occursAt_congr_pos _ _ _ _ hx (by omega)
  have hIX_D : jsIndexOf (upStr (joinSpace [debitW, amt, cur, fromW, accW1, d,
      forW, credW, toW, accW2, c, onW, dt])) (str "DEBIT") 0 = 0 := by
    unfold jsIndexOf
    have hf : findFrom (str "DEBIT") (upStr (joinSpace [debitW, amt, cur, fromW,
        accW1, d, forW, credW, toW, accW2, c, onW, dt])) ((0 : Int).toNat) =
        some 0 := by
      rw [show ((0 : Int).toNat) = 0 from rfl, findFrom_least]
      exact ⟨le_refl 0, hE_D, fun m h1 h2 hocc => by omega⟩
    rw [hf]
    rfl
  have hIX_F : jsIndexOf (upStr (joinSpace [debitW, amt, cur, fromW, accW1, d,
      forW, credW, toW, accW2, c, onW, dt])) (str "FROM") 0 =
      ((8 + amt.length + cur.length : Nat) : Int) := by
    unfold jsIndexOf
    have hf : findFrom (str "FROM") (upStr (joinSpace [debitW, amt, cur, fromW,
        accW1, d, forW, credW, toW, accW2, c, onW, dt])) ((0 : Int).toNat) =
        some (8 + amt.length + cur.length) := by
      rw [show ((0 : Int).toNat) = 0 from rfl, findFrom_least]
      refine ⟨by omega, hE_F, ?_⟩
      intro m h1 h2 hocc
      have := hO_F m hocc
      omega
    rw [hf]
  have hIX_A1 : jsIndexOf (upStr (joinSpace [debitW, amt, cur, fromW, accW1, d,
      forW, credW, toW, accW2, c, onW, dt])) (str "ACCOUNT")
      ((8 + amt.length + cur.length : Nat) : Int) =
      ((13 + amt.length + cur.length : Nat) : Int) := by
    unfold jsIndexOf
    have hf : findFrom (str "ACCOUNT") (upStr (joinSpace [debitW, amt, cur, fromW,
        accW1, d, forW, credW, toW, accW2, c, onW, dt]))
        (((8 + amt.length + cur.length : Nat) : Int).toNat) =
        some (13 + amt.length + cur.length) := by
      rw [Int.toNat_natCast, findFrom_least]
      refine ⟨by omega, hE_A1, ?_⟩
      intro m h1 h2 hocc
      rcases hO_A m hocc with h | h <;> omega
    rw [hf]
  have hIX_Fo : jsIndexOf (upStr (joinSpace [debitW, amt, cur, fromW, accW1, d,
      forW, credW, toW, accW2, c, onW, dt])) (str "FOR") 0 =
      ((22 + amt.length + cur.length + d.length : Nat) : Int) := by
    unfold jsIndexOf
    have hf : findFrom (str "FOR") (upStr (joinSpace [debitW, amt, cur, fromW,
        accW1, d, forW, credW, toW, accW2, c, onW, dt])) ((0 : Int).toNat) =
        some (22 + amt.length + cur.length + d.length) := by
      rw [show ((0 : Int).toNat) = 0 from rfl, findFrom_least]
      refine ⟨by omega, hE_Fo, ?_⟩
      intro m h1 h2 hocc
      have := hO_Fo m hocc
      omega
    rw [hf]
  have hIX_C : jsIndexOf (upStr (joinSpace [debitW, amt, cur, fromW, accW1, d,
      forW, credW, toW, accW2, c, onW, dt])) (str "CREDIT")
      ((22 + amt.length + cur.length + d.length : Nat) : Int) =
      ((26 + amt.length + cur.length + d.length : Nat) : Int) := by
    unfold jsIndexOf
    have hf : findFrom (str "CREDIT") (upStr (joinSpace [debitW, amt, cur, fromW,
        accW1, d, forW, credW, toW, accW2, c, onW, dt]))
        (((22 + amt.length + cur.length + d.length : Nat) : Int).toNat) =
        some (26 + amt.length + cur.length + d.length) := by
      rw [Int.toNat_natCast, findFrom_least]
      refine ⟨by omega, hE_C, ?_⟩
      intro m h1 h2 hocc
      have := hO_C m hocc
      omega
    rw [hf]
  have hIX_T : jsIndexOf (upStr (joinSpace [debitW, amt, cur, fromW, accW1, d,
      forW, credW, toW, accW2, c, onW, dt])) (str "TO")
      ((26 + amt.length + cur.length + d.length : Nat) : Int) =
      ((33 + amt.length + cur.length + d.length : Nat) : Int) := by
    unfold jsIndexOf
    have hf : findFrom (str "TO") (upStr (joinSpace [debitW, amt, cur, fromW,
        accW1, d, forW, credW, toW, accW2, c, onW, dt]))
        (((26 + amt.length + cur.length + d.length : Nat) : Int).toNat) =
        some (33 + amt.length + cur.length + d.length) := by
      rw [Int.toNat_natCast, findFrom_least]
      refine ⟨by omega, hE_T, ?_⟩
      intro m h1 h2 hocc
      have := hO_T m hocc
      omega
    rw [hf]
  have hIX_A2 : jsIndexOf (upStr (joinSpace [debitW, amt, cur, fromW, accW1, d,
      forW, credW, toW, accW2, c, onW, dt])) (str "ACCOUNT")
      ((33 + amt.length + cur.length + d.length : Nat) : Int) =
      ((36 + amt.length + cur.length + d.length : Nat) : Int) := by
    unfold jsIndexOf
    have hf : findFrom (str "ACCOUNT") (upStr (joinSpace [debitW, amt, cur, fromW,
        accW1, d, forW, credW, toW, accW2, c, onW, dt]))
        (((33 + amt.length + cur.length + d.length : Nat) : Int).toNat) =
        some (36 + amt.length + cur.length + d.length) := by
      rw [Int.toNat_natCast, findFrom_least]
      refine ⟨by omega, hE_A2, ?_⟩
      intro m h1 h2 hocc
      rcases hO_A m hocc with h | h <;> omega
    rw [hf]
  have hIX_O : jsIndexOf (upStr (joinSpace [debitW, amt, cur, fromW, accW1, d,
      forW, credW, toW, accW2, c, onW, dt])) (str "ON")
      ((36 + amt.length + cur.length + d.length : Nat) : Int) =
      ((45 + amt.length + cur.length + d.length + c.length : Nat) : Int) := by
    unfold jsIndexOf
    have hf : findFrom (str "ON") (upStr (joinSpace [debitW, amt, cur, fromW,
        accW1, d, forW, credW, toW, accW2, c, onW, dt]))
        (((36 + amt.length + cur.length + d.length : Nat) : Int).toNat) =
        some (45 + amt.length + cur.length + d.length + c.length) := by
      rw [Int.toNat_natCast, findFrom_least]
      refine ⟨by omega, hE_O, ?_⟩
      intro m h1 h2 hocc
      have := hO_O m hocc
      omega
    rw [hf]
  have hslen : (joinSpace [debitW, amt, cur, fromW, accW1, d, forW, credW, toW,
      accW2, c, onW, dt]).length =
      48 + amt.length + cur.length + d.length + c.length + dt.length := by
    simp only [joinSpace_cons_cons, joinSpace_singleton, List.length_append,
      List.length_cons]
    rw [lD, lF, lA1, lFo, lC, lT, lA2, lO]
    omega
  have hsfull : joinSpace [debitW, amt, cur, fromW, accW1, d, forW, credW, toW,
      accW2, c, onW, dt] =
      debitW ++ ' ' :: (amt ++ ' ' :: (cur ++ ' ' :: (fromW ++ ' ' :: (accW1 ++
        ' ' :: (d ++ ' ' :: (forW ++ ' ' :: (credW ++ ' ' :: (toW ++ ' ' ::
        (accW2 ++ ' ' :: (c ++ ' ' :: (onW ++ ' ' :: dt))))))))))) := by
    simp only [joinSpace_cons_cons, joinSpace_singleton]
  have hAC : jsTrim (jsSubstring (joinSpace [debitW, amt, cur, fromW, accW1, d,
      forW, credW, toW, accW2, c, onW, dt]) ((5 : Nat) : Int)
      ((8 + amt.length + cur.length : Nat) : Int)) = amt ++ ' ' :: cur := by
    rw [jsSubstring_nat _ _ _ (by omega) (by rw [hslen]; omega)]
    rw [show 8 + amt.length + cur.length - 5 = amt.length + cur.length + 3 from
      by omega]
    rw [hsfull]
    rw [show (5 : Nat) = debitW.length from lD.symm]
    rw [drop_at_space]
    rw [take_two_tokens]
    have h1 : ∀ ch, (amt ++ ' ' :: cur).head? = some ch → isJsSpace ch = false := by
      intro ch hch
      rw [head?_append_left _ _ hga.1] at hch
      exact goodToken_head amt hga ch hch
    have h2 : ∀ ch, (amt ++ ' ' :: cur).reverse.head? = some ch →
        isJsSpace ch = false := by
      intro ch hch
      rw [rev_head?_append _ _ (by simp)] at hch
      rw [rev_head?_cons_space _ hgc.1] at hch
      exact goodToken_rev_head cur hgc ch hch
    exact jsTrim_wrap _ h1 h2
  have hDA : jsTrim (jsSubstring (joinSpace [debitW, amt, cur, fromW, accW1, d,
      forW, credW, toW, accW2, c, onW, dt])
      ((20 + amt.length + cur.length : Nat) : Int)
      ((22 + amt.length + cur.length + d.length : Nat) : Int)) = d := by
    rw [jsSubstring_nat _ _ _ (by omega) (by rw [hslen]; omega)]
    rw [show 22 + amt.length + cur.length + d.length -
      (20 + amt.length + cur.length) = d.length + 2 from by omega]
    rw [hsfull]
    rw [show 20 + amt.length + cur.length =
      debitW.length + 1 + (14 + amt.length + cur.length) from by rw [lD]; omega]
    rw [drop_shift]
    rw [show 14 + amt.length + cur.length =
      amt.length + 1 + (13 + cur.length) from by omega]
    rw [drop_shift]
    rw [show 13 + cur.length = cur.length + 1 + 12 from by omega]
    rw [drop_shift]
    rw [show (12 : Nat) = fromW.length + 1 + 7 from by rw [lF]]
    rw [drop_shift]
    rw [show (7 : Nat) = accW1.length from lA1.symm]
    rw [drop_at_space]
    rw [take_one_token]
    exact jsTrim_wrap d (goodToken_head d hgd) (goodToken_rev_head d hgd)
  have hCA : jsTrim (jsSubstring (joinSpace [debitW, amt, cur, fromW, accW1, d,
      forW, credW, toW, accW2, c, onW, dt])
      ((43 + amt.length + cur.length + d.length : Nat) : Int)
      ((45 + amt.length + cur.length + d.length + c.length : Nat) : Int)) = c := by
    rw [jsSubstring_nat _ _ _ (by omega) (by rw [hslen]; omega)]
    rw [show 45 + amt.length + cur.length + d.length + c.length -
      (43 + amt.length + cur.length + d.length) = c.length + 2 from by omega]
    rw [hsfull]
    rw [show 43 + amt.length + cur.length + d.length =
      debitW.length + 1 + (37 + amt.length + cur.length + d.length) from
      by rw [lD]; omega]
    rw [drop_shift]
    rw [show 37 + amt.length + cur.length + d.length =
      amt.length + 1 + (36 + cur.length + d.length) from by omega]
    rw [drop_shift]
    rw [show 36 + cur.length + d.length =
      cur.length + 1 + (35 + d.length) from by omega]
    rw [drop_shift]
    rw [show 35 + d.length = fromW.length + 1 + (30 + d.length) from
      by rw [lF]; omega]
    rw [drop_shift]
    rw [show 30 + d.length = accW1.length + 1 + (22 + d.length) from
      by rw [lA1]; omega]
    rw [drop_shift]
    rw [show 22 + d.length = d.length + 1 + 21 from by omega]
    rw [drop_shift]
    rw [show (21 : Nat) = forW.length + 1 + 17 from by rw [lFo]]
    rw [drop_shift]
    rw [show (17 : Nat) = credW.length + 1 + 10 from by rw [lC]]
    rw [drop_shift]
    rw [show (10 : Nat) = toW.length + 1 + 7 from by rw [lT]]
    rw [drop_shift]
    rw [show (7 : Nat) = accW2.length from lA2.symm]
    rw [drop_at_space]
    rw [take_one_token]
    exact jsTrim_wrap c (goodToken_head c hgcc) (goodToken_rev_head c hgcc)
  have hEB : jsTrim (jsSubstringFrom (joinSpace [debitW, amt, cur, fromW, accW1,
      d, forW, credW, toW, accW2, c, onW, dt])
      ((47 + amt.length + cur.length + d.length + c.length : Nat) : Int)) = dt := by
    rw [jsSubstringFrom_nat _ _ (by rw [hslen]; omega)]
    rw [hsfull]
    rw [show 47 + amt.length + cur.length + d.length + c.length =
      debitW.length + 1 + (41 + amt.length + cur.length + d.length + c.length)
      from by rw [lD]; omega]
    rw [drop_shift]
    rw [show 41 + amt.length + cur.length + d.length + c.length =
      amt.length + 1 + (40 + cur.length + d.length + c.length) from by omega]
    rw [drop_shift]
    rw [show 40 + cur.length + d.length + c.length =
      cur.length + 1 + (39 + d.length + c.length) from by omega]
    rw [drop_shift]
    rw [show 39 + d.length + c.length =
      fromW.length + 1 + (34 + d.length + c.length) from by rw [lF]; omega]
    rw [drop_shift]
    rw [show 34 + d.length + c.length =
      accW1.length + 1 + (26 + d.length + c.length) from by rw [lA1]; omega]
    rw [drop_shift]
    rw [show 26 + d.length + c.length =
      d.length + 1 + (25 + c.length) from by omega]
    rw [drop_shift]
    rw [show 25 + c.length = forW.length + 1 + (21 + c.length) from
      by rw [lFo]; omega]
    rw [drop_shift]
    rw [show 21 + c.length = credW.length + 1 + (14 + c.length) from
      by rw [lC]; omega]
    rw [drop_shift]
    rw [show 14 + c.length = toW.length + 1 + (11 + c.length) from
      by rw [lT]; omega]
    rw [drop_shift]
    rw [show 11 + c.length = accW2.length + 1 + (3 + c.length) from
      by rw [lA2]; omega]
    rw [drop_shift]
    rw [show 3 + c.length = c.length + 1 + 2 from by omega]
    rw [drop_shift]
    rw [show (2 : Nat) = onW.length from lO.symm]
    rw [drop_at_space]
    exact jsTrim_space_left dt (goodToken_head dt hgdt) (goodToken_rev_head dt hgdt)
  have hSP : splitSpace (amt ++ ' ' :: cur) = [amt, cur] := by
    rw [splitSpace_append_space amt cur hga.2, splitSpace_nospace cur hgc.2]
  have hFL : List.filter (fun t => t.length > 0) [amt, cur] = [amt, cur] :=
    filter_two_tokens amt cur hga.1 hgc.1
  refine ⟨?_, hIX_D⟩
  unfold parseDebitInstruction
  dsimp only
  rw [hIX_D, hIX_F, hIX_A1, hIX_Fo, hIX_C, hIX_T, hIX_A2, hIX_O]
  rw [if_neg (by decide)]
  rw [if_neg (by omega)]
  rw [if_neg (by omega)]
  rw [if_neg (by omega)]
  rw [if_neg (by omega)]
  rw [if_neg (by omega)]
  rw [if_neg (by omega)]
  rw [if_neg (not_not_intro ⟨by omega, by omega, by omega, by omega, by omega,
    by omega⟩)]
  rw [show (0 : Int) + 5 = ((5 : Nat) : Int) from by decide]
  rw [show ((13 + amt.length + cur.length : Nat) : Int) + 7 =
    ((20 + amt.length + cur.length : Nat) : Int) from by push_cast; ring]
  rw [hAC, hSP, hFL]
  dsimp only
  have hgt : ((45 + amt.length + cur.length + d.length + c.length : Nat) : Int) >
      ((36 + amt.length + cur.length + d.length : Nat) : Int) := by
    push_cast
    omega
  simp only [if_pos hgt]
  rw [show ((36 + amt.length + cur.length + d.length : Nat) : Int) + 7 =
    ((43 + amt.length + cur.length + d.length : Nat) : Int) from by push_cast; ring]
  rw [show ((45 + amt.length + cur.length + d.length + c.length : Nat) : Int) + 2 =
    ((47 + amt.length + cur.length + d.length + c.length : Nat) : Int) from
    by push_cast; ring]
  rw [hDA, hCA, hEB]

set_option maxHeartbeats 1000000 in
lemma parseDebit_extract_noDate
    (debitW fromW accW1 forW credW toW accW2 amt cur d c : JStr)
    (hupD : upStr debitW = str "DEBIT") (hupF : upStr fromW = str "FROM")
    (hupA1 : upStr accW1 = str "ACCOUNT") (hupFo : upStr forW = str "FOR")
    (hupC : upStr credW = str "CREDIT") (hupT : upStr toW = str "TO")
    (hupA2 : upStr accW2 = str "ACCOUNT")
    (hgd : goodToken d) (hgcc : goodToken c)
    (hga : goodToken amt) (hgc : goodToken cur)
    (hka : kwFree amt) (hkc : kwFree cur) (hkd : kwFree d) (hkcc : kwFree c) :
    parseDebitInstruction (joinSpace [debitW, amt, cur, fromW, accW1, d, forW,
        credW, toW, accW2, c]) =
      .ok ⟨str "DEBIT", amt, upStr cur, d, c, none⟩ ∧
    jsIndexOf (upStr (joinSpace [debitW, amt, cur, fromW, accW1, d, forW,
        credW, toW, accW2, c])) (str "DEBIT") 0 = 0 := by
  have lD : debitW.length = 5 := by
    have h := upStr_length debitW
    rw [hupD] at h
    exact h.symm.trans (by decide)
  have lF : fromW.length = 4 := by
    have h := upStr_length fromW
    rw [hupF] at h
    exact h.symm.trans (by decide)
  have lA1 : accW1.length = 7 := by
    have h := upStr_length accW1
    rw [hupA1] at h
    exact h.symm.trans (by decide)
  have lFo : forW.length = 3 := by
    have h := upStr_length forW
    rw [hupFo] at h
    exact h.symm.trans (by decide)
  have lC : credW.length = 6 := by
    have h := upStr_length credW
    rw [hupC] at h
    exact h.symm.trans (by decide)
  have lT : toW.length = 2 := by
    have h := upStr_length toW
    rw [hupT] at h
    exact h.symm.trans (by decide)
  have lA2 : accW2.length = 7 := by
    have h := upStr_length accW2
    rw [hupA2] at h
    exact h.symm.trans (by decide)
  have litD : (str "DEBIT").length = 5 := by decide
  have litF : (str "FROM").length = 4 := by decide
  have litA : (str "ACCOUNT").length = 7 := by decide
  have litFo : (str "FOR").length = 3 := by decide
  have litC : (str "CREDIT").length = 6 := by decide
  have litT : (str "TO").length = 2 := by decide
  have litO : (str "ON").length = 2 := by decide
  have hupj : upStr (joinSpace [debitW, amt, cur, fromW, accW1, d, forW,
      credW, toW, accW2, c]) =
      joinSpace [str "DEBIT", upStr amt, upStr cur, str "FROM", str "ACCOUNT",
        upStr d, str "FOR", str "CREDIT", str "TO", str "ACCOUNT", upStr c] := by
    rw [upStr_joinSpace]
    simp only [List.map_cons, List.map_nil, hupD, hupF, hupA1, hupFo, hupC,
      hupT, hupA2]
  have hO_D : ∀ n, occursAt (str "DEBIT")
      (upStr (joinSpace [debitW, amt, cur, fromW, accW1, d, forW, credW, toW,
        accW2, c])) n → n = 0 := by
    intro n hn
    rw [hupj] at hn
    rcases occursAt_joinSpace_split _ (by decide) (by decide) _ n (by simp) hn
      with ⟨i, m, hi, hocc, hsum⟩
    have hi11 : i < 11 := by simpa using hi
    interval_cases i <;>
      simp only [List.getD_cons_zero, List.getD_cons_succ] at hocc <;>
      simp only [List.take_succ_cons, List.take_zero, List.map_cons, List.map_nil,
        List.sum_cons, List.sum_nil, upStr_length, litD, litF, litA, litFo, litC,
        litT, litO] at hsum <;>
      first
        | exact absurd hocc (kwFree_no_occ amt hka _ (by decide) m)
        | exact absurd hocc (kwFree_no_occ cur hkc _ (by decide) m)
        | exact absurd hocc (kwFree_no_occ d hkd _ (by decide) m)
        | exact absurd hocc (kwFree_no_occ c hkcc _ (by decide) m)
        | exact absurd hocc (kwFree_no_occ dt hkdt _ (by decide) m)
        | exact absurd hocc (not_occursAt_all _ _ (by decide) (by decide) m)
        | (have h0 := occursAt_unique_zero _ _ (by decide) (by decide) m hocc
           omega)
  have hO_F : ∀ n, occursAt (str "FROM")
      (upStr (joinSpace [debitW, amt, cur, fromW, accW1, d, forW, credW, toW,
        accW2, c])) n → n = 8 + amt.length + cur.length := by
    intro n hn
    rw [hupj] at hn
    rcases occursAt_joinSpace_split _ (by decide) (by decide) _ n (by simp) hn
      with ⟨i, m, hi, hocc, hsum⟩
    have hi11 : i < 11 := by simpa using hi
    interval_cases i <;>
      simp only [List.getD_cons_zero, List.getD_cons_succ] at hocc <;>
      simp only [List.take_succ_cons, List.take_zero, List.map_cons, List.map_nil,
        List.sum_cons, List.sum_nil, upStr_length, litD, litF, litA, litFo, litC,
        litT, litO] at hsum <;>
      first
        | exact absurd hocc (kwFree_no_occ amt hka _ (by decide) m)
        | exact absurd hocc (kwFree_no_occ cur hkc _ (by decide) m)
        | exact absurd hocc (kwFree_no_occ d hkd _ (by decide) m)
        | exact absurd hocc (kwFree_no_occ c hkcc _ (by decide) m)
        | exact absurd hocc (kwFree_no_occ dt hkdt _ (by decide) m)
        | exact absurd hocc (not_occursAt_all _ _ (by decide) (by decide) m)
        | (have h0 := occursAt_unique_zero _ _ (by decide) (by decide) m hocc
           omega)
  have hO_A : ∀ n, occursAt (str "ACCOUNT")
      (upStr (joinSpace [debitW, amt, cur, fromW, accW1, d, forW, credW, toW,
        accW2, c])) n →
      n = 13 + amt.length + cur.length ∨
      n = 36 + amt.length + cur.length + d.length := by
    intro n hn
    rw [hupj] at hn
    rcases occursAt_joinSpace_split _ (by decide) (by decide) _ n (by simp) hn
      with ⟨i, m, hi, hocc, hsum⟩
    have hi11 : i < 11 := by simpa using hi
    interval_cases i <;>
      simp only [List.getD_cons_zero, List.getD_cons_succ] at hocc <;>
      simp only [List.take_succ_cons, List.take_zero, List.map_cons, List.map_nil,
        List.sum_cons, List.sum_nil, upStr_length, litD, litF, litA, litFo, litC,
        litT, litO] at hsum <;>
      first
        | exact absurd hocc (kwFree_no_occ amt hka _ (by decide) m)
        | exact absurd hocc (kwFree_no_occ cur hkc _ (by decide) m)
        | exact absurd hocc (kwFree_no_occ d hkd _ (by decide) m)
        | exact absurd hocc (kwFree_no_occ c hkcc _ (by decide) m)
        | exact absurd hocc (kwFree_no_occ dt hkdt _ (by decide) m)
        | exact absurd hocc (not_occursAt_all _ _ (by decide) (by decide) m)
        | (have h0 := occursAt_unique_zero _ _ (by decide) (by decide) m hocc
           omega)
  have hO_Fo : ∀ n, occursAt (str "FOR")
      (upStr (joinSpace [debitW, amt, cur, fromW, accW1, d, forW, credW, toW,
        accW2, c])) n → n = 22 + amt.length + cur.length + d.length := by
    intro n hn
    rw [hupj] at hn
    rcases occursAt_joinSpace_split _ (by decide) (by decide) _ n (by simp) hn
      with ⟨i, m, hi, hocc, hsum⟩
    have hi11 : i < 11 := by simpa using hi
    interval_cases i <;>
      simp only [List.getD_cons_zero, List.getD_cons_succ] at hocc <;>
      simp only [List.take_succ_cons, List.take_zero, List.map_cons, List.map_nil,
        List.sum_cons, List.sum_nil, upStr_length, litD, litF, litA, litFo, litC,
        litT, litO] at hsum <;>
      first
        | exact absurd hocc (kwFree_no_occ amt hka _ (by decide) m)
        | exact absurd hocc (kwFree_no_occ cur hkc _ (by decide) m)
        | exact absurd hocc (kwFree_no_occ d hkd _ (by decide) m)
        | exact absurd hocc (kwFree_no_occ c hkcc _ (by decide) m)
        | exact absurd hocc (kwFree_no_occ dt hkdt _ (by decide) m)
        | exact absurd hocc (not_occursAt_all _ _ (by decide) (by decide) m)
        | (have h0 := occursAt_unique_zero _ _ (by decide) (by decide) m hocc
           omega)
  have hO_C : ∀ n, occursAt (str "CREDIT")
      (upStr (joinSpace [debitW, amt, cur, fromW, accW1, d, forW, credW, toW,
        accW2, c])) n → n = 26 + amt.length + cur.length + d.length := by
    intro n hn
    rw [hupj] at hn
    rcases occursAt_joinSpace_split _ (by decide) (by decide) _ n (by simp) hn
      with ⟨i, m, hi, hocc, hsum⟩
    have hi11 : i < 11 := by simpa using hi
    interval_cases i <;>
      simp only [List.getD_cons_zero, List.getD_cons_succ] at hocc <;>
      simp only [List.take_succ_cons, List.take_zero, List.map_cons, List.map_nil,
        List.sum_cons, List.sum_nil, upStr_length, litD, litF, litA, litFo, litC,
        litT, litO] at hsum <;>
      first
        | exact absurd hocc (kwFree_no_occ amt hka _ (by decide) m)
        | exact absurd hocc (kwFree_no_occ cur hkc _ (by decide) m)
        | exact absurd hocc (kwFree_no_occ d hkd _ (by decide) m)
        | exact absurd hocc (kwFree_no_occ c hkcc _ (by decide) m)
        | exact absurd hocc (kwFree_no_occ dt hkdt _ (by decide) m)
        | exact absurd hocc (not_occursAt_all _ _ (by decide) (by decide) m)
        | (have h0 := occursAt_unique_zero _ _ (by decide) (by decide) m hocc
           omega)
  have hO_T : ∀ n, occursAt (str "TO")
      (upStr (joinSpace [debitW, amt, cur, fromW, accW1, d, forW, credW, toW,
        accW2, c])) n → n = 33 + amt.length + cur.length + d.length := by
    intro n hn
    rw [hupj] at hn
    rcases occursAt_joinSpace_split _ (by decide) (by decide) _ n (by simp) hn
      with ⟨i, m, hi, hocc, hsum⟩
    have hi11 : i < 11 := by simpa using hi
    interval_cases i <;>
      simp only [List.getD_cons_zero, List.getD_cons_succ] at hocc <;>
      simp only [List.take_succ_cons, List.take_zero, List.map_cons, List.map_nil,
        List.sum_cons, List.sum_nil, upStr_length, litD, litF, litA, litFo, litC,
        litT, litO] at hsum <;>
      first
        | exact absurd hocc (kwFree_no_occ amt hka _ (by decide) m)
        | exact absurd hocc (kwFree_no_occ cur hkc _ (by decide) m)
        | exact absurd hocc (kwFree_no_occ d hkd _ (by decide) m)
        | exact absurd hocc (kwFree_no_occ c hkcc _ (by decide) m)
        | exact absurd hocc (kwFree_no_occ dt hkdt _ (by decide) m)
        | exact absurd hocc (not_occursAt_all _ _ (by decide) (by decide) m)
        | (have h0 := occursAt_unique_zero _ _ (by decide) (by decide) m hocc
           omega)
  have hO_O : ∀ n, occursAt (str "ON")
      (upStr (joinSpace [debitW, amt, cur, fromW, accW1, d, forW, credW, toW,
        accW2, c])) n → False := by
    intro n hn
    rw [hupj] at hn
    rcases occursAt_joinSpace_split _ (by decide) (by decide) _ n (by simp) hn
      with ⟨i, m, hi, hocc, hsum⟩
    have hi11 : i < 11 := by simpa using hi
    interval_cases i <;>
      simp only [List.getD_cons_zero, List.getD_cons_succ] at hocc <;>
      simp only [List.take_succ_cons, List.take_zero, List.map_cons, List.map_nil,
        List.sum_cons, List.sum_nil, upStr_length, litD, litF, litA, litFo, litC,
        litT, litO] at hsum <;>
      first
        | exact absurd hocc (kwFree_no_occ amt hka _ (by decide) m)
        | exact absurd hocc (kwFree_no_occ cur hkc _ (by decide) m)
        | exact absurd hocc (kwFree_no_occ d hkd _ (by decide) m)
        | exact absurd hocc (kwFree_no_occ c hkcc _ (by decide) m)
        | exact absurd hocc (kwFree_no_occ dt hkdt _ (by decide) m)
        | exact absurd hocc (not_occursAt_all _ _ (by decide) (by decide) m)
        | (have h0 := occursAt_unique_zero _ _ (by decide) (by decide) m hocc
           omega)
  have hE_D : occursAt (str "DEBIT") (upStr (joinSpace [debitW, amt, cur, fromW,
      accW1, d, forW, credW, toW, accW2, c])) 0 := by
    rw [hupj]
    have hx := occursAt_joinSpace_at (str "DEBIT") []
      [upStr amt, upStr cur, str "FROM", str "ACCOUNT", upStr d, str "FOR",
       str "CREDIT", str "TO", str "ACCOUNT", upStr c]
    simp only [List.map_nil, List.sum_nil, List.nil_append] at hx
    exact hx
  have hE_F : occursAt (str "FROM") (upStr (joinSpace [debitW, amt, cur, fromW,
      accW1, d, forW, credW, toW, accW2, c]))
      (8 + amt.length + cur.length) := by
    rw [hupj]
    have hx := occursAt_joinSpace_at (str "FROM")
      [str "DEBIT", upStr amt, upStr cur]
      [str "ACCOUNT", upStr d, str "FOR", str "CREDIT", str "TO", str "ACCOUNT",
       upStr c]
    simp only [List.map_cons, List.map_nil, List.sum_cons, List.sum_nil,
      upStr_length, litD, litF, litA, litFo, litC, litT, litO, List.cons_append,
      List.nil_append] at hx
    exact occursAt_congr_pos _ _ _ _ hx (by omega)
  have hE_A1 : occursAt (str "ACCOUNT") (upStr (joinSpace [debitW, amt, cur, fromW,
      accW1, d, forW, credW, toW, accW2, c]))
      (13 + amt.length + cur.length) := by
    rw [hupj]
    have hx := occursAt_joinSpace_at (str "ACCOUNT")
      [str "DEBIT", upStr amt, upStr cur, str "FROM"]
      [upStr d, str "FOR", str "CREDIT", str "TO", str "ACCOUNT", upStr c]
    simp only [List.map_cons, List.map_nil, List.sum_cons, List.sum_nil,
      upStr_length, litD, litF, litA, litFo, litC, litT, litO, List.cons_append,
      List.nil_append] at hx
    exact occursAt_congr_pos _ _ _ _ hx (by omega)
  have hE_Fo : occursAt (str "FOR") (upStr (joinSpace [debitW, amt, cur, fromW,
      accW1, d, forW, credW, toW, accW2, c]))
      (22 + amt.length + cur.length + d.length) := by
    rw [hupj]
    have hx := occursAt_joinSpace_at (str "FOR")
      [str "DEBIT", upStr amt, upStr cur, str "FROM", str "ACCOUNT", upStr d]
      [str "CREDIT", str "TO", str "ACCOUNT", upStr c]
    simp only [List.map_cons, List.map_nil, List.sum_cons, List.sum_nil,
      upStr_length, litD, litF, litA, litFo, litC, litT, litO, List.cons_append,
      List.nil_append] at hx
    exact occursAt_congr_pos _ _ _ _ hx (by omega)
  have hE_C : occursAt (str "CREDIT") (upStr (joinSpace [debitW, amt, cur, fromW,
      accW1, d, forW, credW, toW, accW2, c]))
      (26 + amt.length + cur.length + d.length) := by
    rw [hupj]
    have hx := occursAt_joinSpace_at (str "CREDIT")
      [str "DEBIT", upStr amt, upStr cur, str "FROM", str "ACCOUNT", upStr d,
       str "FOR"]
      [str "TO", str "ACCOUNT", upStr c]
    simp only [List.map_cons, List.map_nil, List.sum_cons, List.sum_nil,
      upStr_length, litD, litF, litA, litFo, litC, litT, litO, List.cons_append,
      List.nil_append] at hx
    exact occursAt_congr_pos _ _ _ _ hx (by omega)
  have hE_T : occursAt (str "TO") (upStr (joinSpace [debitW, amt, cur, fromW,
      accW1, d, forW, credW, toW, accW2, c]))
      (33 + amt.length + cur.length + d.length) := by
    rw [hupj]
    have hx := occursAt_joinSpace_at (str "TO")
      [str "DEBIT", upStr amt, upStr cur, str "FROM", str "ACCOUNT", upStr d,
       str "FOR", str "CREDIT"]
      [str "ACCOUNT", upStr c]
    simp only [List.map_cons, List.map_nil, List.sum_cons, List.sum_nil,
      upStr_length, litD, litF, litA, litFo, litC, litT, litO, List.cons_append,
      List.nil_append] at hx
    exact occursAt_congr_pos _ _ _ _ hx (by omega)
  have hE_A2 : occursAt (str "ACCOUNT") (upStr (joinSpace [debitW, amt, cur, fromW,
      accW1, d, forW, credW, toW, accW2, c]))
      (36 + amt.length + cur.length + d.length) := by
    rw [hupj]
    have hx := occursAt_joinSpace_at (str "ACCOUNT")
      [str "DEBIT", upStr amt, upStr cur, str "FROM", str "ACCOUNT", upStr d,
       str "FOR", str "CREDIT", str "TO"]
      [upStr c]
    simp only [List.map_cons, List.map_nil, List.sum_cons, List.sum_nil,
      upStr_length, litD, litF, litA, litFo, litC, litT, litO, List.cons_append,
      List.nil_append] at hx
    exact occursAt_congr_pos _ _ _ _ hx (by omega)
  have hIX_D : jsIndexOf (upStr (joinSpace [debitW, amt, cur, fromW, accW1, d,
      forW, credW, toW, accW2, c])) (str "DEBIT") 0 = 0 := by
    unfold jsIndexOf
    have hf : findFrom (str "DEBIT") (upStr (joinSpace [debitW, amt, cur, fromW,
        accW1, d, forW, credW, toW, accW2, c])) ((0 : Int).toNat) =
        some 0 := by
      rw [show ((0 : Int).toNat) = 0 from rfl, findFrom_least]
      exact ⟨le_refl 0, hE_D, fun m h1 h2 hocc => by omega⟩
    rw [hf]
    rfl
  have hIX_F : jsIndexOf (upStr (joinSpace [debitW, amt, cur, fromW, accW1, d,
      forW, credW, toW, accW2, c])) (str "FROM") 0 =
      ((8 + amt.length + cur.length : Nat) : Int) := by
    unfold jsIndexOf
    have hf : findFrom (str "FROM") (upStr (joinSpace [debitW, amt, cur, fromW,
        accW1, d, forW, credW, toW, accW2, c])) ((0 : Int).toNat) =
        some (8 + amt.length + cur.length) := by
      rw [show ((0 : Int).toNat) = 0 from rfl, findFrom_least]
      refine ⟨by omega, hE_F, ?_⟩
      intro m h1 h2 hocc
      have := hO_F m hocc
      omega
    rw [hf]
  have hIX_A1 : jsIndexOf (upStr (joinSpace [debitW, amt, cur, fromW, accW1, d,
      forW, credW, toW, accW2, c])) (str "ACCOUNT")
      ((8 + amt.length + cur.length : Nat) : Int) =
      ((13 + amt.length + cur.length : Nat) : Int) := by
    unfold jsIndexOf
    have hf : findFrom (str "ACCOUNT") (upStr (joinSpace [debitW, amt, cur, fromW,
        accW1, d, forW, credW, toW, accW2, c]))
        (((8 + amt.length + cur.length : Nat) : Int).toNat) =
        some (13 + amt.length + cur.length) := by
      rw [Int.toNat_natCast, findFrom_least]
      refine ⟨by omega, hE_A1, ?_⟩
      intro m h1 h2 hocc
      rcases hO_A m hocc with h | h <;> omega
    rw [hf]
  have hIX_Fo : jsIndexOf (upStr (joinSpace [debitW, amt, cur, fromW, accW1, d,
      forW, credW, toW, accW2, c])) (str "FOR") 0 =
      ((22 + amt.length + cur.length + d.length : Nat) : Int) := by
    unfold jsIndexOf
    have hf : findFrom (str "FOR") (upStr (joinSpace [debitW, amt, cur, fromW,
        accW1, d, forW, credW, toW, accW2, c])) ((0 : Int).toNat) =
        some (22 + amt.length + cur.length + d.length) := by
      rw [show ((0 : Int).toNat) = 0 from rfl, findFrom_least]
      refine ⟨by omega, hE_Fo, ?_⟩
      intro m h1 h2 hocc
      have := hO_Fo m hocc
      omega
    rw [hf]
  have hIX_C : jsIndexOf (upStr (joinSpace [debitW, amt, cur, fromW, accW1, d,
      forW, credW, toW, accW2, c])) (str "CREDIT")
      ((22 + amt.length + cur.length + d.length : Nat) : Int) =
      ((26 + amt.length + cur.length + d.length : Nat) : Int) := by
    unfold jsIndexOf
    have hf : findFrom (str "CREDIT") (upStr (joinSpace [debitW, amt, cur, fromW,
        accW1, d, forW, credW, toW, accW2, c]))
        (((22 + amt.length + cur.length + d.length : Nat) : Int).toNat) =
        some (26 + amt.length + cur.length + d.length) := by
      rw [Int.toNat_natCast, findFrom_least]
      refine ⟨by omega, hE_C, ?_⟩
      intro m h1 h2 hocc
      have := hO_C m hocc
      omega
    rw [hf]
  have hIX_T : jsIndexOf (upStr (joinSpace [debitW, amt, cur, fromW, accW1, d,
      forW, credW, toW, accW2, c])) (str "TO")
      ((26 + amt.length + cur.length + d.length : Nat) : Int) =
      ((33 + amt.length + cur.length + d.length : Nat) : Int) := by
    unfold jsIndexOf
    have hf : findFrom (str "TO") (upStr (joinSpace [debitW, amt, cur, fromW,
        accW1, d, forW, credW, toW, accW2, c]))
        (((26 + amt.length + cur.length + d.length : Nat) : Int).toNat) =
        some (33 + amt.length + cur.length + d.length) := by
      rw [Int.toNat_natCast, findFrom_least]
      refine ⟨by omega, hE_T, ?_⟩
      intro m h1 h2 hocc
      have := hO_T m hocc
      omega
    rw [hf]
  have hIX_A2 : jsIndexOf (upStr (joinSpace [debitW, amt, cur, fromW, accW1, d,
      forW, credW, toW, accW2, c])) (str "ACCOUNT")
      ((33 + amt.length + cur.length + d.length : Nat) : Int) =
      ((36 + amt.length + cur.length + d.length : Nat) : Int) := by
    unfold jsIndexOf
    have hf : findFrom (str "ACCOUNT") (upStr (joinSpace [debitW, amt, cur, fromW,
        accW1, d, forW, credW, toW, accW2, c]))
        (((33 + amt.length + cur.length + d.length : Nat) : Int).toNat) =
        some (36 + amt.length + cur.length + d.length) := by
      rw [Int.toNat_natCast, findFrom_least]
      refine ⟨by omega, hE_A2, ?_⟩
      intro m h1 h2 hocc
      rcases hO_A m hocc with h | h <;> omega
    rw [hf]
  have hIX_O : jsIndexOf (upStr (joinSpace [debitW, amt, cur, fromW, accW1, d,
      forW, credW, toW, accW2, c])) (str "ON")
      ((36 + amt.length + cur.length + d.length : Nat) : Int) = -1 := by
    unfold jsIndexOf
    have hf : findFrom (str "ON") (upStr (joinSpace [debitW, amt, cur, fromW,
        accW1, d, forW, credW, toW, accW2, c]))
        (((36 + amt.length + cur.length + d.length : Nat) : Int).toNat) =
        none := by
      rw [Int.toNat_natCast, findFrom_none_least]
      intro m h1 hocc
      exact hO_O m hocc
    rw [hf]
  have hslen : (joinSpace [debitW, amt, cur, fromW, accW1, d, forW, credW, toW,
      accW2, c]).length =
      44 + amt.length + cur.length + d.length + c.length := by
    simp only [joinSpace_cons_cons, joinSpace_singleton, List.length_append,
      List.length_cons]
    rw [lD, lF, lA1, lFo, lC, lT, lA2]
    omega
  have hsfull : joinSpace [debitW, amt, cur, fromW, accW1, d, forW, credW, toW,
      accW2, c] =
      debitW ++ ' ' :: (amt ++ ' ' :: (cur ++ ' ' :: (fromW ++ ' ' :: (accW1 ++
        ' ' :: (d ++ ' ' :: (forW ++ ' ' :: (credW ++ ' ' :: (toW ++ ' ' ::
        (accW2 ++ ' ' :: c))))))))) := by
    simp only [joinSpace_cons_cons, joinSpace_singleton]
  have hAC : jsTrim (jsSubstring (joinSpace [debitW, amt, cur, fromW, accW1, d,
      forW, credW, toW, accW2, c]) ((5 : Nat) : Int)
      ((8 + amt.length + cur.length : Nat) : Int)) = amt ++ ' ' :: cur := by
    rw [jsSubstring_nat _ _ _ (by omega) (by rw [hslen]; omega)]
    rw [show 8 + amt.length + cur.length - 5 = amt.length + cur.length + 3 from
      by omega]
    rw [hsfull]
    rw [show (5 : Nat) = debitW.length from lD.symm]
    rw [drop_at_space]
    rw [take_two_tokens]
    have h1 : ∀ ch, (amt ++ ' ' :: cur).head? = some ch → isJsSpace ch = false := by
      intro ch hch
      rw [head?_append_left _ _ hga.1] at hch
      exact goodToken_head amt hga ch hch
    have h2 : ∀ ch, (amt ++ ' ' :: cur).reverse.head? = some ch →
        isJsSpace ch = false := by
      intro ch hch
      rw [rev_head?_append _ _ (by simp)] at hch
      rw [rev_head?_cons_space _ hgc.1] at hch
      exact goodToken_rev_head cur hgc ch hch
    exact jsTrim_wrap _ h1 h2
  have hDA : jsTrim (jsSubstring (joinSpace [debitW, amt, cur, fromW, accW1, d,
      forW, credW, toW, accW2, c])
      ((20 + amt.length + cur.length : Nat) : Int)
      ((22 + amt.length + cur.length + d.length : Nat) : Int)) = d := by
    rw [jsSubstring_nat _ _ _ (by omega) (by rw [hslen]; omega)]
    rw [show 22 + amt.length + cur.length + d.length -
      (20 + amt.length + cur.length) = d.length + 2 from by omega]
    rw [hsfull]
    rw [show 20 + amt.length + cur.length =
      debitW.length + 1 + (14 + amt.length + cur.length) from by rw [lD]; omega]
    rw [drop_shift]
    rw [show 14 + amt.length + cur.length =
      amt.length + 1 + (13 + cur.length) from by omega]
    rw [drop_shift]
    rw [show 13 + cur.length = cur.length + 1 + 12 from by omega]
    rw [drop_shift]
    rw [show (12 : Nat) = fromW.length + 1 + 7 from by rw [lF]]
    rw [drop_shift]
    rw [show (7 : Nat) = accW1.length from lA1.symm]
    rw [drop_at_space]
    rw [take_one_token]
    exact jsTrim_wrap d (goodToken_head d hgd) (goodToken_rev_head d hgd)
  have hCA : jsTrim (jsSubstringFrom (joinSpace [debitW, amt, cur, fromW, accW1,
      d, forW, credW, toW, accW2, c])
      ((43 + amt.length + cur.length + d.length : Nat) : Int)) = c := by
    rw [jsSubstringFrom_nat _ _ (by rw [hslen]; omega)]
    rw [hsfull]
    rw [show 43 + amt.length + cur.length + d.length =
      debitW.length + 1 + (37 + amt.length + cur.length + d.length) from
      by rw [lD]; omega]
    rw [drop_shift]
    rw [show 37 + amt.length + cur.length + d.length =
      amt.length + 1 + (36 + cur.length + d.length) from by omega]
    rw [drop_shift]
    rw [show 36 + cur.length + d.length =
      cur.length + 1 + (35 + d.length) from by omega]
    rw [drop_shift]
    rw [show 35 + d.length = fromW.length + 1 + (30 + d.length) from
      by rw [lF]; omega]
    rw [drop_shift]
    rw [show 30 + d.length = accW1.length + 1 + (22 + d.length) from
      by rw [lA1]; omega]
    rw [drop_shift]
    rw [show 22 + d.length = d.length + 1 + 21 from by omega]
    rw [drop_shift]
    rw [show (21 : Nat) = forW.length + 1 + 17 from by rw [lFo]]
    rw [drop_shift]
    rw [show (17 : Nat) = credW.length + 1 + 10 from by rw [lC]]
    rw [drop_shift]
    rw [show (10 : Nat) = toW.length + 1 + 7 from by rw [lT]]
    rw [drop_shift]
    rw [show (7 : Nat) = accW2.length from lA2.symm]
    rw [drop_at_space]
    exact jsTrim_space_left c (goodToken_head c hgcc) (goodToken_rev_head c hgcc)
  have hSP : splitSpace (amt ++ ' ' :: cur) = [amt, cur] := by
    rw [splitSpace_append_space amt cur hga.2, splitSpace_nospace cur hgc.2]
  have hFL : List.filter (fun t => t.length > 0) [amt, cur] = [amt, cur] :=
    filter_two_tokens amt cur hga.1 hgc.1
  refine ⟨?_, hIX_D⟩
  unfold parseDebitInstruction
  dsimp only
  rw [hIX_D, hIX_F, hIX_A1, hIX_Fo, hIX_C, hIX_T, hIX_A2, hIX_O]
  rw [if_neg (by decide)]
  rw [if_neg (by omega)]
  rw [if_neg (by omega)]
  rw [if_neg (by omega)]
  rw [if_neg (by omega)]
  rw [if_neg (by omega)]
  rw [if_neg (by omega)]
  rw [if_neg (not_not_intro ⟨by omega, by omega, by omega, by omega, by omega,
    by omega⟩)]
  rw [show (0 : Int) + 5 = ((5 : Nat) : Int) from by decide]
  rw [show ((13 + amt.length + cur.length : Nat) : Int) + 7 =
    ((20 + amt.length + cur.length : Nat) : Int) from by push_cast; ring]
  rw [hAC, hSP, hFL]
  dsimp only
  have hngt : ¬((-1 : Int) > ((36 + amt.length + cur.length + d.length : Nat) : Int)) := by
    push_cast
    omega
  simp only [if_neg hngt]
  rw [show ((36 + amt.length + cur.length + d.length : Nat) : Int) + 7 =
    ((43 + amt.length + cur.length + d.length : Nat) : Int) from by push_cast; ring]
  rw [hDA, hCA]

set_option maxHeartbeats 1000000 in
lemma parseCredit_extract_on
    (debitW fromW accW1 forW credW toW accW2 onW amt cur d c dt : JStr)
    (hupD : upStr debitW = str "DEBIT") (hupF : upStr fromW = str "FROM")
    (hupA1 : upStr accW1 = str "ACCOUNT") (hupFo : upStr forW = str "FOR")
    (hupC : upStr credW = str "CREDIT") (hupT : upStr toW = str "TO")
    (hupA2 : upStr accW2 = str "ACCOUNT") (hupO : upStr onW = str "ON")
    (hgd : goodToken d) (hgcc : goodToken c) (hgdt : goodToken dt)
    (hga : goodToken amt) (hgc : goodToken cur)
    (hka : kwFree amt) (hkc : kwFree cur) (hkd : kwFree d) (hkcc : kwFree c)
    (hkdt : kwFree dt) :
    parseCreditInstruction (joinSpace [credW, amt, cur, toW, accW1, c, forW,
        debitW, fromW, accW2, d, onW, dt]) =
      .ok ⟨str "CREDIT", amt, upStr cur, d, c, some dt⟩ ∧
    jsIndexOf (upStr (joinSpace [credW, amt, cur, toW, accW1, c, forW,
        debitW, fromW, accW2, d, onW, dt])) (str "DEBIT") 0 ≠ 0 ∧
    jsIndexOf (upStr (joinSpace [credW, amt, cur, toW, accW1, c, forW,
        debitW, fromW, accW2, d, onW, dt])) (str "CREDIT") 0 = 0 := by
  have lD : debitW.length = 5 := by
    have h := upStr_length debitW
    rw [hupD] at h
    exact h.symm.trans (by decide)
  have lF : fromW.length = 4 := by
    have h := upStr_length fromW
    rw [hupF] at h
    exact h.symm.trans (by decide)
  have lA1 : accW1.length = 7 := by
    have h := upStr_length accW1
    rw [hupA1] at h
    exact h.symm.trans (by decide)
  have lFo : forW.length = 3 := by
    have h := upStr_length forW
    rw [hupFo] at h
    exact h.symm.trans (by decide)
  have lC : credW.length = 6 := by
    have h := upStr_length credW
    rw [hupC] at h
    exact h.symm.trans (by decide)
  have lT : toW.length = 2 := by
    have h := upStr_length toW
    rw [hupT] at h
    exact h.symm.trans (by decide)
  have lA2 : accW2.length = 7 := by
    have h := upStr_length accW2
    rw [hupA2] at h
    exact h.symm.trans (by decide)
  have lO : onW.length = 2 := by
    have h := upStr_length onW
    rw [hupO] at h
    exact h.symm.trans (by decide)
  have litD : (str "DEBIT").length = 5 := by decide
  have litF : (str "FROM").length = 4 := by decide
  have litA : (str "ACCOUNT").length = 7 := by decide
  have litFo : (str "FOR").length = 3 := by decide
  have litC : (str "CREDIT").length = 6 := by decide
  have litT : (str "TO").length = 2 := by decide
  have litO : (str "ON").length = 2 := by decide
  have hupj : upStr (joinSpace [credW, amt, cur, toW, accW1, c, forW,
      debitW, fromW, accW2, d, onW, dt]) =
      joinSpace [str "CREDIT", upStr amt, upStr cur, str "TO", str "ACCOUNT",
        upStr c, str "FOR", str "DEBIT", str "FROM", str "ACCOUNT", upStr d,
        str "ON", upStr dt] := by
    rw [upStr_joinSpace]
    simp only [List.map_cons, List.map_nil, hupD, hupF, hupA1, hupFo, hupC,
      hupT, hupA2, hupO]
  have hO_C : ∀ n, occursAt (str "CREDIT")
      (upStr (joinSpace [credW, amt, cur, toW, accW1, c, forW, debitW, fromW,
        accW2, d, onW, dt])) n → n = 0 := by
    intro n hn
    rw [hupj] at hn
    rcases occursAt_joinSpace_split _ (by decide) (by decide) _ n (by simp) hn
      with ⟨i, m, hi, hocc, hsum⟩
    have hi13 : i < 13 := by simpa using hi
    interval_cases i <;>
      simp only [List.getD_cons_zero, List.getD_cons_succ] at hocc <;>
      simp only [List.take_succ_cons, List.take_zero, List.map_cons, List.map_nil,
        List.sum_cons, List.sum_nil, upStr_length, litD, litF, litA, litFo, litC,
        litT, litO] at hsum <;>
      first
        | exact absurd hocc (kwFree_no_occ amt hka _ (by decide) m)
        | exact absurd hocc (kwFree_no_occ cur hkc _ (by decide) m)
        | exact absurd hocc (kwFree_no_occ d hkd _ (by decide) m)
        | exact absurd hocc (kwFree_no_occ c hkcc _ (by decide) m)
        | exact absurd hocc (kwFree_no_occ dt hkdt _ (by decide) m)
        | exact absurd hocc (not_occursAt_all _ _ (by decide) (by decide) m)
        | (have h0 := occursAt_unique_zero _ _ (by decide) (by decide) m hocc
           omega)
  have hO_T : ∀ n, occursAt (str "TO")
      (upStr (joinSpace [credW, amt, cur, toW, accW1, c, forW, debitW, fromW,
        accW2, d, onW, dt])) n → n = 9 + amt.length + cur.length := by
    intro n hn
    rw [hupj] at hn
    rcases occursAt_joinSpace_split _ (by decide) (by decide) _ n (by simp) hn
      with ⟨i, m, hi, hocc, hsum⟩
    have hi13 : i < 13 := by simpa using hi
    interval_cases i <;>
      simp only [List.getD_cons_zero, List.getD_cons_succ] at hocc <;>
      simp only [List.take_succ_cons, List.take_zero, List.map_cons, List.map_nil,
        List.sum_cons, List.sum_nil, upStr_length, litD, litF, litA, litFo, litC,
        litT, litO] at hsum <;>
      first
        | exact absurd hocc (kwFree_no_occ amt hka _ (by decide) m)
        | exact absurd hocc (kwFree_no_occ cur hkc _ (by decide) m)
        | exact absurd hocc (kwFree_no_occ d hkd _ (by decide) m)
        | exact absurd hocc (kwFree_no_occ c hkcc _ (by decide) m)
        | exact absurd hocc (kwFree_no_occ dt hkdt _ (by decide) m)
        | exact absurd hocc (not_occursAt_all _ _ (by decide) (by decide) m)
        | (have h0 := occursAt_unique_zero _ _ (by decide) (by decide) m hocc
           omega)
  have hO_A : ∀ n, occursAt (str "ACCOUNT")
      (upStr (joinSpace [credW, amt, cur, toW, accW1, c, forW, debitW, fromW,
        accW2, d, onW, dt])) n →
      n = 12 + amt.length + cur.length ∨
      n = 36 + amt.length + cur.length + c.length := by
    intro n hn
    rw [hupj] at hn
    rcases occursAt_joinSpace_split _ (by decide) (by decide) _ n (by simp) hn
      with ⟨i, m, hi, hocc, hsum⟩
    have hi13 : i < 13 := by simpa using hi
    interval_cases i <;>
      simp only [List.getD_cons_zero, List.getD_cons_succ] at hocc <;>
      simp only [List.take_succ_cons, List.take_zero, List.map_cons, List.map_nil,
        List.sum_cons, List.sum_nil, upStr_length, litD, litF, litA, litFo, litC,
        litT, litO] at hsum <;>
      first
        | exact absurd hocc (kwFree_no_occ amt hka _ (by decide) m)
        | exact absurd hocc (kwFree_no_occ cur hkc _ (by decide) m)
        | exact absurd hocc (kwFree_no_occ d hkd _ (by decide) m)
        | exact absurd hocc (kwFree_no_occ c hkcc _ (by decide) m)
        | exact absurd hocc (kwFree_no_occ dt hkdt _ (by decide) m)
        | exact absurd hocc (not_occursAt_all _ _ (by decide) (by decide) m)
        | (have h0 := occursAt_unique_zero _ _ (by decide) (by decide) m hocc
           omega)
  have hO_Fo : ∀ n, occursAt (str "FOR")
      (upStr (joinSpace [credW, amt, cur, toW, accW1, c, forW, debitW, fromW,
        accW2, d, onW, dt])) n → n = 21 + amt.length + cur.length + c.length := by
    intro n hn
    rw [hupj] at hn
    rcases occursAt_joinSpace_split _ (by decide) (by decide) _ n (by simp) hn
      with ⟨i, m, hi, hocc, hsum⟩
    have hi13 : i < 13 := by simpa using hi
    interval_cases i <;>
      simp only [List.getD_cons_zero, List.getD_cons_succ] at hocc <;>
      simp only [List.take_succ_cons, List.take_zero, List.map_cons, List.map_nil,
        List.sum_cons, List.sum_nil, upStr_length, litD, litF, litA, litFo, litC,
        litT, litO] at hsum <;>
      first
        | exact absurd hocc (kwFree_no_occ amt hka _ (by decide) m)
        | exact absurd hocc (kwFree_no_occ cur hkc _ (by decide) m)
        | exact absurd hocc (kwFree_no_occ d hkd _ (by decide) m)
        | exact absurd hocc (kwFree_no_occ c hkcc _ (by decide) m)
        | exact absurd hocc (kwFree_no_occ dt hkdt _ (by decide) m)
        | exact absurd hocc (not_occursAt_all _ _ (by decide) (by decide) m)
        | (have h0 := occursAt_unique_zero _ _ (by decide) (by decide) m hocc
           omega)
  have hO_D : ∀ n, occursAt (str "DEBIT")
      (upStr (joinSpace [credW, amt, cur, toW, accW1, c, forW, debitW, fromW,
        accW2, d, onW, dt])) n → n = 25 + amt.length + cur.length + c.length := by
    intro n hn
    rw [hupj] at hn
    rcases occursAt_joinSpace_split _ (by decide) (by decide) _ n (by simp) hn
      with ⟨i, m, hi, hocc, hsum⟩
    have hi13 : i < 13 := by simpa using hi
    interval_cases i <;>
      simp only [List.getD_cons_zero, List.getD_cons_succ] at hocc <;>
      simp only [List.take_succ_cons, List.take_zero, List.map_cons, List.map_nil,
        List.sum_cons, List.sum_nil, upStr_length, litD, litF, litA, litFo, litC,
        litT, litO] at hsum <;>
      first
        | exact absurd hocc (kwFree_no_occ amt hka _ (by decide) m)
        | exact absurd hocc (kwFree_no_occ cur hkc _ (by decide) m)
        | exact absurd hocc (kwFree_no_occ d hkd _ (by decide) m)
        | exact absurd hocc (kwFree_no_occ c hkcc _ (by decide) m)
        | exact absurd hocc (kwFree_no_occ dt hkdt _ (by decide) m)
        | exact absurd hocc (not_occursAt_all _ _ (by decide) (by decide) m)
        | (have h0 := occursAt_unique_zero _ _ (by decide) (by decide) m hocc
           omega)
  have hO_F : ∀ n, occursAt (str "FROM")
      (upStr (joinSpace [credW, amt, cur, toW, accW1, c, forW, debitW, fromW,
        accW2, d, onW, dt])) n → n = 31 + amt.length + cur.length + c.length := by
    intro n hn
    rw [hupj] at hn
    rcases occursAt_joinSpace_split _ (by decide) (by decide) _ n (by simp) hn
      with ⟨i, m, hi, hocc, hsum⟩
    have hi13 : i < 13 := by simpa using hi
    interval_cases i <;>
      simp only [List.getD_cons_zero, List.getD_cons_succ] at hocc <;>
      simp only [List.take_succ_cons, List.take_zero, List.map_cons, List.map_nil,
        List.sum_cons, List.sum_nil, upStr_length, litD, litF, litA, litFo, litC,
        litT, litO] at hsum <;>
      first
        | exact absurd hocc (kwFree_no_occ amt hka _ (by decide) m)
        | exact absurd hocc (kwFree_no_occ cur hkc _ (by decide) m)
        | exact absurd hocc (kwFree_no_occ d hkd _ (by decide) m)
        | exact absurd hocc (kwFree_no_occ c hkcc _ (by decide) m)
        | exact absurd hocc (kwFree_no_occ dt hkdt _ (by decide) m)
        | exact absurd hocc (not_occursAt_all _ _ (by decide) (by decide) m)
        | (have h0 := occursAt_unique_zero _ _ (by decide) (by decide) m hocc
           omega)
  have hO_O : ∀ n, occursAt (str "ON")
      (upStr (joinSpace [credW, amt, cur, toW, accW1, c, forW, debitW, fromW,
        accW2, d, onW, dt])) n →
      n = 45 + amt.length + cur.length + c.length + d.length := by
    intro n hn
    rw [hupj] at hn
    rcases occursAt_joinSpace_split _ (by decide) (by decide) _ n (by simp) hn
      with ⟨i, m, hi, hocc, hsum⟩
    have hi13 : i < 13 := by simpa using hi
    interval_cases i <;>
      simp only [List.getD_cons_zero, List.getD_cons_succ] at hocc <;>
      simp only [List.take_succ_cons, List.take_zero, List.map_cons, List.map_nil,
        List.sum_cons, List.sum_nil, upStr_length, litD, litF, litA, litFo, litC,
        litT, litO] at hsum <;>
      first
        | exact absurd hocc (kwFree_no_occ amt hka _ (by decide) m)
        | exact absurd hocc (kwFree_no_occ cur hkc _ (by decide) m)
        | exact absurd hocc (kwFree_no_occ d hkd _ (by decide) m)
        | exact absurd hocc (kwFree_no_occ c hkcc _ (by decide) m)
        | exact absurd hocc (kwFree_no_occ dt hkdt _ (by decide) m)
        | exact absurd hocc (not_occursAt_all _ _ (by decide) (by decide) m)
        | (have h0 := occursAt_unique_zero _ _ (by decide) (by decide) m hocc
           omega)
  have hE_C : occursAt (str "CREDIT") (upStr (joinSpace [credW, amt, cur, toW,
      accW1, c, forW, debitW, fromW, accW2, d, onW, dt])) 0 := by
    rw [hupj]
    have hx := occursAt_joinSpace_at (str "CREDIT") []
      [upStr amt, upStr cur, str "TO", str "ACCOUNT", upStr c, str "FOR",
       str "DEBIT", str "FROM", str "ACCOUNT", upStr d, str "ON", upStr dt]
    simp only [List.map_nil, List.sum_nil, List.nil_append] at hx
    exact hx
  have hE_T : occursAt (str "TO") (upStr (joinSpace [credW, amt, cur, toW,
      accW1, c, forW, debitW, fromW, accW2, d, onW, dt]))
      (9 + amt.length + cur.length) := by
    rw [hupj]
    have hx := occursAt_joinSpace_at (str "TO")
      [str "CREDIT", upStr amt, upStr cur]
      [str "ACCOUNT", upStr c, str "FOR", str "DEBIT", str "FROM", str "ACCOUNT",
       upStr d, str "ON", upStr dt]
    simp only [List.map_cons, List.map_nil, List.sum_cons, List.sum_nil,
      upStr_length, litD, litF, litA, litFo, litC, litT, litO, List.cons_append,
      List.nil_append] at hx
    exact occursAt_congr_pos _ _ _ _ hx (by omega)
  have hE_A1 : occursAt (str "ACCOUNT") (upStr (joinSpace [credW, amt, cur, toW,
      accW1, c, forW, debitW, fromW, accW2, d, onW, dt]))
      (12 + amt.length + cur.length) := by
    rw [hupj]
    have hx := occursAt_joinSpace_at (str "ACCOUNT")
      [str "CREDIT", upStr amt, upStr cur, str "TO"]
      [upStr c, str "FOR", str "DEBIT", str "FROM", str "ACCOUNT", upStr d,
       str "ON", upStr dt]
    simp only [List.map_cons, List.map_nil, List.sum_cons, List.sum_nil,
      upStr_length, litD, litF, litA, litFo, litC, litT, litO, List.cons_append,
      List.nil_append] at hx
    exact occursAt_congr_pos _ _ _ _ hx (by omega)
  have hE_Fo : occursAt (str "FOR") (upStr (joinSpace [credW, amt, cur, toW,
      accW1, c, forW, debitW, fromW, accW2, d, onW, dt]))
      (21 + amt.length + cur.length + c.length) := by
    rw [hupj]
    have hx := occursAt_joinSpace_at (str "FOR")
      [str "CREDIT", upStr amt, upStr cur, str "TO", str "ACCOUNT", upStr c]
      [str "DEBIT", str "FROM", str "ACCOUNT", upStr d, str "ON", upStr dt]
    simp only [List.map_cons, List.map_nil, List.sum_cons, List.sum_nil,
      upStr_length, litD, litF, litA, litFo, litC, litT, litO, List.cons_append,
      List.nil_append] at hx
    exact occursAt_congr_pos _ _ _ _ hx (by omega)
  have hE_D : occursAt (str "DEBIT") (upStr (joinSpace [credW, amt, cur, toW,
      accW1, c, forW, debitW, fromW, accW2, d, onW, dt]))
      (25 + amt.length + cur.length + c.length) := by
    rw [hupj]
    have hx := occursAt_joinSpace_at (str "DEBIT")
      [str "CREDIT", upStr amt, upStr cur, str "TO", str "ACCOUNT", upStr c,
       str "FOR"]
      [str "FROM", str "ACCOUNT", upStr d, str "ON", upStr dt]
    simp only [List.map_cons, List.map_nil, List.sum_cons, List.sum_nil,
      upStr_length, litD, litF, litA, litFo, litC, litT, litO, List.cons_append,
      List.nil_append] at hx
    exact occursAt_congr_pos _ _ _ _ hx (by omega)
  have hE_F : occursAt (str "FROM") (upStr (joinSpace [credW, amt, cur, toW,
      accW1, c, forW, debitW, fromW, accW2, d, onW, dt]))
      (31 + amt.length + cur.length + c.length) := by
    rw [hupj]
    have hx := occursAt_joinSpace_at (str "FROM")
      [str "CREDIT", upStr amt, upStr cur, str "TO", str "ACCOUNT", upStr c,
       str "FOR", str "DEBIT"]
      [str "ACCOUNT", upStr d, str "ON", upStr dt]
    simp only [List.map_cons, List.map_nil, List.sum_cons, List.sum_nil,
      upStr_length, litD, litF, litA, litFo, litC, litT, litO, List.cons_append,
      List.nil_append] at hx
    exact occursAt_congr_pos _ _ _ _ hx (by omega)
  have hE_A2 : occursAt (str "ACCOUNT") (upStr (joinSpace [credW, amt, cur, toW,
      accW1, c, forW, debitW, fromW, accW2, d, onW, dt]))
      (36 + amt.length + cur.length + c.length) := by
    rw [hupj]
    have hx := occursAt_joinSpace_at (str "ACCOUNT")
      [str "CREDIT", upStr amt, upStr cur, str "TO", str "ACCOUNT", upStr c,
       str "FOR", str "DEBIT", str "FROM"]
      [upStr d, str "ON", upStr dt]
    simp only [List.map_cons, List.map_nil, List.sum_cons, List.sum_nil,
      upStr_length, litD, litF, litA, litFo, litC, litT, litO, List.cons_append,
      List.nil_append] at hx
    exact occursAt_congr_pos _ _ _ _ hx (by omega)
  have hE_O : occursAt (str "ON") (upStr (joinSpace [credW, amt, cur, toW,
      accW1, c, forW, debitW, fromW, accW2, d, onW, dt]))
      (45 + amt.length + cur.length + c.length + d.length) := by
    rw [hupj]
    have hx := occursAt_joinSpace_at (str "ON")
      [str "CREDIT", upStr amt, upStr cur, str "TO", str "ACCOUNT", upStr c,
       str "FOR", str "DEBIT", str "FROM", str "ACCOUNT", upStr d]
      [upStr dt]
    simp only [List.map_cons, List.map_nil, List.sum_cons, List.sum_nil,
      upStr_length, litD, litF, litA, litFo, litC, litT, litO, List.cons_append,
      List.nil_append] at hx
    exact occursAt_congr_pos _ _ _ _ hx (by omega)
  have hIX_C : jsIndexOf (upStr (joinSpace [credW, amt, cur, toW, accW1, c,
      forW, debitW, fromW, accW2, d, onW, dt])) (str "CREDIT") 0 = 0 := by
    unfold jsIndexOf
    have hf : findFrom (str "CREDIT") (upStr (joinSpace [credW, amt, cur, toW,
        accW1, c, forW, debitW, fromW, accW2, d, onW, dt])) ((0 : Int).toNat) =
        some 0 := by
      rw [show ((0 : Int).toNat) = 0 from rfl, findFrom_least]
      exact ⟨le_refl 0, hE_C, fun m h1 h2 hocc => by omega⟩
    rw [hf]
    rfl
  have hIX_T : jsIndexOf (upStr (joinSpace [credW, amt, cur, toW, accW1, c,
      forW, debitW, fromW, accW2, d, onW, dt])) (str "TO") 0 =
      ((9 + amt.length + cur.length : Nat) : Int) := by
    unfold jsIndexOf
    have hf : findFrom (str "TO") (upStr (joinSpace [credW, amt, cur, toW,
        accW1, c, forW, debitW, fromW, accW2, d, onW, dt])) ((0 : Int).toNat) =
        some (9 + amt.length + cur.length) := by
      rw [show ((0 : Int).toNat) = 0 from rfl, findFrom_least]
      refine ⟨by omega, hE_T, ?_⟩
      intro m h1 h2 hocc
      have := hO_T m hocc
      omega
    rw [hf]
  have hIX_A1 : jsIndexOf (upStr (joinSpace [credW, amt, cur, toW, accW1, c,
      forW, debitW, fromW, accW2, d, onW, dt])) (str "ACCOUNT")
      ((9 + amt.length + cur.length : Nat) : Int) =
      ((12 + amt.length + cur.length : Nat) : Int) := by
    unfold jsIndexOf
    have hf : findFrom (str "ACCOUNT") (upStr (joinSpace [credW, amt, cur, toW,
        accW1, c, forW, debitW, fromW, accW2, d, onW, dt]))
        (((9 + amt.length + cur.length : Nat) : Int).toNat) =
        some (12 + amt.length + cur.length) := by
      rw [Int.toNat_natCast, findFrom_least]
      refine ⟨by omega, hE_A1, ?_⟩
      intro m h1 h2 hocc
      rcases hO_A m hocc with h | h <;> omega
    rw [hf]
  have hIX_Fo : jsIndexOf (upStr (joinSpace [credW, amt, cur, toW, accW1, c,
      forW, debitW, fromW, accW2, d, onW, dt])) (str "FOR") 0 =
      ((21 + amt.length + cur.length + c.length : Nat) : Int) := by
    unfold jsIndexOf
    have hf : findFrom (str "FOR") (upStr (joinSpace [credW, amt, cur, toW,
        accW1, c, forW, debitW, fromW, accW2, d, onW, dt])) ((0 : Int).toNat) =
        some (21 + amt.length + cur.length + c.length) := by
      rw [show ((0 : Int).toNat) = 0 from rfl, findFrom_least]
      refine ⟨by omega, hE_Fo, ?_⟩
      intro m h1 h2 hocc
      have := hO_Fo m hocc
      omega
    rw [hf]
  have hIX_D : jsIndexOf (upStr (joinSpace [credW, amt, cur, toW, accW1, c,
      forW, debitW, fromW, accW2, d, onW, dt])) (str "DEBIT")
      ((21 + amt.length + cur.length + c.length : Nat) : Int) =
      ((25 + amt.length + cur.length + c.length : Nat) : Int) := by
    unfold jsIndexOf
    have hf : findFrom (str "DEBIT") (upStr (joinSpace [credW, amt, cur, toW,
        accW1, c, forW, debitW, fromW, accW2, d, onW, dt]))
        (((21 + amt.length + cur.length + c.length : Nat) : Int).toNat) =
        some (25 + amt.length + cur.length + c.length) := by
      rw [Int.toNat_natCast, findFrom_least]
      refine ⟨by omega, hE_D, ?_⟩
      intro m h1 h2 hocc
      have := hO_D m hocc
      omega
    rw [hf]
  have hIX_F : jsIndexOf (upStr (joinSpace [credW, amt, cur, toW, accW1, c,
      forW, debitW, fromW, accW2, d, onW, dt])) (str "FROM")
      ((25 + amt.length + cur.length + c.length : Nat) : Int) =
      ((31 + amt.length + cur.length + c.length : Nat) : Int) := by
    unfold jsIndexOf
    have hf : findFrom (str "FROM") (upStr (joinSpace [credW, amt, cur, toW,
        accW1, c, forW, debitW, fromW, accW2, d, onW, dt]))
        (((25 + amt.length + cur.length + c.length : Nat) : Int).toNat) =
        some (31 + amt.length + cur.length + c.length) := by
      rw [Int.toNat_natCast, findFrom_least]
      refine ⟨by omega, hE_F, ?_⟩
      intro m h1 h2 hocc
      have := hO_F m hocc
      omega
    rw [hf]
  have hIX_A2 : jsIndexOf (upStr (joinSpace [credW, amt, cur, toW, accW1, c,
      forW, debitW, fromW, accW2, d, onW, dt])) (str "ACCOUNT")
      ((31 + amt.length + cur.length + c.length : Nat) : Int) =
      ((36 + amt.length + cur.length + c.length : Nat) : Int) := by
    unfold jsIndexOf
    have hf : findFrom (str "ACCOUNT") (upStr (joinSpace [credW, amt, cur, toW,
        accW1, c, forW, debitW, fromW, accW2, d, onW, dt]))
        (((31 + amt.length + cur.length + c.length : Nat) : Int).toNat) =
        some (36 + amt.length + cur.length + c.length) := by
      rw [Int.toNat_natCast, findFrom_least]
      refine ⟨by omega, hE_A2, ?_⟩
      intro m h1 h2 hocc
      rcases hO_A m hocc with h | h <;> omega
    rw [hf]
  have hIX_O : jsIndexOf (upStr (joinSpace [credW, amt, cur, toW, accW1, c,
      forW, debitW, fromW, accW2, d, onW, dt])) (str "ON")
      ((36 + amt.length + cur.length + c.length : Nat) : Int) =
      ((45 + amt.length + cur.length + c.length + d.length : Nat) : Int) := by
    unfold jsIndexOf
    have hf : findFrom (str "ON") (upStr (joinSpace [credW, amt, cur, toW,
        accW1, c, forW, debitW, fromW, accW2, d, onW, dt]))
        (((36 + amt.length + cur.length + c.length : Nat) : Int).toNat) =
        some (45 + amt.length + cur.length + c.length + d.length) := by
      rw [Int.toNat_natCast, findFrom_least]
      refine ⟨by omega, hE_O, ?_⟩
      intro m h1 h2 hocc
      have := hO_O m hocc
      omega
    rw [hf]
  have hslen : (joinSpace [credW, amt, cur, toW, accW1, c, forW, debitW, fromW,
      accW2, d, onW, dt]).length =
      48 + amt.length + cur.length + c.length + d.length + dt.length := by
    simp only [joinSpace_cons_cons, joinSpace_singleton, List.length_append,
      List.length_cons]
    rw [lD, lF, lA1, lFo, lC, lT, lA2, lO]
    omega
  have hsfull : joinSpace [credW, amt, cur, toW, accW1, c, forW, debitW, fromW,
      accW2, d, onW, dt] =
      credW ++ ' ' :: (amt ++ ' ' :: (cur ++ ' ' :: (toW ++ ' ' :: (accW1 ++
        ' ' :: (c ++ ' ' :: (forW ++ ' ' :: (debitW ++ ' ' :: (fromW ++ ' ' ::
        (accW2 ++ ' ' :: (d ++ ' ' :: (onW ++ ' ' :: dt))))))))))) := by
    simp only [joinSpace_cons_cons, joinSpace_singleton]
  have hAC : jsTrim (jsSubstring (joinSpace [credW, amt, cur, toW, accW1, c,
      forW, debitW, fromW, accW2, d, onW, dt]) ((6 : Nat) : Int)
      ((9 + amt.length + cur.length : Nat) : Int)) = amt ++ ' ' :: cur := by
    rw [jsSubstring_nat _ _ _ (by omega) (by rw [hslen]; omega)]
    rw [show 9 + amt.length + cur.length - 6 = amt.length + cur.length + 3 from
      by omega]
    rw [hsfull]
    rw [show (6 : Nat) = credW.length from lC.symm]
    rw [drop_at_space]
    rw [take_two_tokens]
    have h1 : ∀ ch, (amt ++ ' ' :: cur).head? = some ch → isJsSpace ch = false := by
      intro ch hch
      rw [head?_append_left _ _ hga.1] at hch
      exact goodToken_head amt hga ch hch
    have h2 : ∀ ch, (amt ++ ' ' :: cur).reverse.head? = some ch →
        isJsSpace ch = false := by
      intro ch hch
      rw [rev_head?_append _ _ (by simp)] at hch
      rw [rev_head?_cons_space _ hgc.1] at hch
      exact goodToken_rev_head cur hgc ch hch
    exact jsTrim_wrap _ h1 h2
  have hCA : jsTrim (jsSubstring (joinSpace [credW, amt, cur, toW, accW1, c,
      forW, debitW, fromW, accW2, d, onW, dt])
      ((19 + amt.length + cur.length : Nat) : Int)
      ((21 + amt.length + cur.length + c.length : Nat) : Int)) = c := by
    rw [jsSubstring_nat _ _ _ (by omega) (by rw [hslen]; omega)]
    rw [show 21 + amt.length + cur.length + c.length -
      (19 + amt.length + cur.length) = c.length + 2 from by omega]
    rw [hsfull]
    rw [show 19 + amt.length + cur.length =
      credW.length + 1 + (12 + amt.length + cur.length) from by rw [lC]; omega]
    rw [drop_shift]
    rw [show 12 + amt.length + cur.length =
      amt.length + 1 + (11 + cur.length) from by omega]
    rw [drop_shift]
    rw [show 11 + cur.length = cur.length + 1 + 10 from by omega]
    rw [drop_shift]
    rw [show (10 : Nat) = toW.length + 1 + 7 from by rw [lT]]
    rw [drop_shift]
    rw [show (7 : Nat) = accW1.length from lA1.symm]
    rw [drop_at_space]
    rw [take_one_token]
    exact jsTrim_wrap c (goodToken_head c hgcc) (goodToken_rev_head c hgcc)
  have hDA : jsTrim (jsSubstring (joinSpace [credW, amt, cur, toW, accW1, c,
      forW, debitW, fromW, accW2, d, onW, dt])
      ((43 + amt.length + cur.length + c.length : Nat) : Int)
      ((45 + amt.length + cur.length + c.length + d.length : Nat) : Int)) = d := by
    rw [jsSubstring_nat _ _ _ (by omega) (by rw [hslen]; omega)]
    rw [show 45 + amt.length + cur.length + c.length + d.length -
      (43 + amt.length + cur.length + c.length) = d.length + 2 from by omega]
    rw [hsfull]
    rw [show 43 + amt.length + cur.length + c.length =
      credW.length + 1 + (36 + amt.length + cur.length + c.length) from
      by rw [lC]; omega]
    rw [drop_shift]
    rw [show 36 + amt.length + cur.length + c.length =
      amt.length + 1 + (35 + cur.length + c.length) from by omega]
    rw [drop_shift]
    rw [show 35 + cur.length + c.length =
      cur.length + 1 + (34 + c.length) from by omega]
    rw [drop_shift]
    rw [show 34 + c.length = toW.length + 1 + (31 + c.length) from
      by rw [lT]; omega]
    rw [drop_shift]
    rw [show 31 + c.length = accW1.length + 1 + (23 + c.length) from
      by rw [lA1]; omega]
    rw [drop_shift]
    rw [show 23 + c.length = c.length + 1 + 22 from by omega]
    rw [drop_shift]
    rw [show (22 : Nat) = forW.length + 1 + 18 from by rw [lFo]]
    rw [drop_shift]
    rw [show (18 : Nat) = debitW.length + 1 + 12 from by rw [lD]]
    rw [drop_shift]
    rw [show (12 : Nat) = fromW.length + 1 + 7 from by rw [lF]]
    rw [drop_shift]
    rw [show (7 : Nat) = accW2.length from lA2.symm]
    rw [drop_at_space]
    rw [take_one_token]
    exact jsTrim_wrap d (goodToken_head d hgd) (goodToken_rev_head d hgd)
  have hEB : jsTrim (jsSubstringFrom (joinSpace [credW, amt, cur, toW, accW1,
      c, forW, debitW, fromW, accW2, d, onW, dt])
      ((47 + amt.length + cur.length + c.length + d.length : Nat) : Int)) = dt := by
    rw [jsSubstringFrom_nat _ _ (by rw [hslen]; omega)]
    rw [hsfull]
    rw [show 47 + amt.length + cur.length + c.length + d.length =
      credW.length + 1 + (40 + amt.length + cur.length + c.length + d.length)
      from by rw [lC]; omega]
    rw [drop_shift]
    rw [show 40 + amt.length + cur.length + c.length + d.length =
      amt.length + 1 + (39 + cur.length + c.length + d.length) from by omega]
    rw [drop_shift]
    rw [show 39 + cur.length + c.length + d.length =
      cur.length + 1 + (38 + c.length + d.length) from by omega]
    rw [drop_shift]
    rw [show 38 + c.length + d.length =
      toW.length + 1 + (35 + c.length + d.length) from by rw [lT]; omega]
    rw [drop_shift]
    rw [show 35 + c.length + d.length =
      accW1.length + 1 + (27 + c.length + d.length) from by rw [lA1]; omega]
    rw [drop_shift]
    rw [show 27 + c.length + d.length =
      c.length + 1 + (26 + d.length) from by omega]
    rw [drop_shift]
    rw [show 26 + d.length = forW.length + 1 + (22 + d.length) from
      by rw [lFo]; omega]
    rw [drop_shift]
    rw [show 22 + d.length = debitW.length + 1 + (16 + d.length) from
      by rw [lD]; omega]
    rw [drop_shift]
    rw [show 16 + d.length = fromW.length + 1 + (11 + d.length) from
      by rw [lF]; omega]
    rw [drop_shift]
    rw [show 11 + d.length = accW2.length + 1 + (3 + d.length) from
      by rw [lA2]; omega]
    rw [drop_shift]
    rw [show 3 + d.length = d.length + 1 + 2 from by omega]
    rw [drop_shift]
    rw [show (2 : Nat) = onW.length from lO.symm]
    rw [drop_at_space]
    exact jsTrim_space_left dt (goodToken_head dt hgdt) (goodToken_rev_head dt hgdt)
  have hSP : splitSpace (amt ++ ' ' :: cur) = [amt, cur] := by
    rw [splitSpace_append_space amt cur hga.2, splitSpace_nospace cur hgc.2]
  have hFL : List.filter (fun t => t.length > 0) [amt, cur] = [amt, cur] :=
    filter_two_tokens amt cur hga.1 hgc.1
  have hIX_D0 : jsIndexOf (upStr (joinSpace [credW, amt, cur, toW, accW1, c,
      forW, debitW, fromW, accW2, d, onW, dt])) (str "DEBIT") 0 =
      ((25 + amt.length + cur.length + c.length : Nat) : Int) := by
    unfold jsIndexOf
    have hf : findFrom (str "DEBIT") (upStr (joinSpace [credW, amt, cur, toW,
        accW1, c, forW, debitW, fromW, accW2, d, onW, dt])) ((0 : Int).toNat) =
        some (25 + amt.length + cur.length + c.length) := by
      rw [show ((0 : Int).toNat) = 0 from rfl, findFrom_least]
      refine ⟨by omega, hE_D, ?_⟩
      intro m h1 h2 hocc
      have := hO_D m hocc
      omega
    rw [hf]
  refine ⟨?_, by rw [hIX_D0]; push_cast; omega, hIX_C⟩
  unfold parseCreditInstruction
  dsimp only
  rw [hIX_C, hIX_T, hIX_A1, hIX_Fo, hIX_D, hIX_F, hIX_A2, hIX_O]
  rw [if_neg (by decide)]
  rw [if_neg (by omega)]
  rw [if_neg (by omega)]
  rw [if_neg (by omega)]
  rw [if_neg (by omega)]
  rw [if_neg (by omega)]
  rw [if_neg (by omega)]
  rw [if_neg (not_not_intro ⟨by omega, by omega, by omega, by omega, by omega,
    by omega⟩)]
  rw [show (0 : Int) + 6 = ((6 : Nat) : Int) from by decide]
  rw [show ((12 + amt.length + cur.length : Nat) : Int) + 7 =
    ((19 + amt.length + cur.length : Nat) : Int) from by push_cast; ring]
  rw [hAC, hSP, hFL]
  dsimp only
  have hgt : ((45 + amt.length + cur.length + c.length + d.length : Nat) : Int) >
      ((36 + amt.length + cur.length + c.length : Nat) : Int) := by
    push_cast
    omega
  simp only [if_pos hgt]
  rw [show ((36 + amt.length + cur.length + c.length : Nat) : Int) + 7 =
    ((43 + amt.length + cur.length + c.length : Nat) : Int) from by push_cast; ring]
  rw [show ((45 + amt.length + cur.length + c.length + d.length : Nat) : Int) + 2 =
    ((47 + amt.length + cur.length + c.length + d.length : Nat) : Int) from
    by push_cast; ring]
  rw [hCA, hDA, hEB]

set_option maxHeartbeats 1000000 in
lemma parseCredit_extract_noDate
    (debitW fromW accW1 forW credW toW accW2 amt cur d c : JStr)
    (hupD : upStr debitW = str "DEBIT") (hupF : upStr fromW = str "FROM")
    (hupA1 : upStr accW1 = str "ACCOUNT") (hupFo : upStr forW = str "FOR")
    (hupC : upStr credW = str "CREDIT") (hupT : upStr toW = str "TO")
    (hupA2 : upStr accW2 = str "ACCOUNT")
    (hgd : goodToken d) (hgcc : goodToken c)
    (hga : goodToken amt) (hgc : goodToken cur)
    (hka : kwFree amt) (hkc : kwFree cur) (hkd : kwFree d) (hkcc : kwFree c) :
    parseCreditInstruction (joinSpace [credW, amt, cur, toW, accW1, c, forW,
        debitW, fromW, accW2, d]) =
      .ok ⟨str "CREDIT", amt, upStr cur, d, c, none⟩ ∧
    jsIndexOf (upStr (joinSpace [credW, amt, cur, toW, accW1, c, forW,
        debitW, fromW, accW2, d])) (str "DEBIT") 0 ≠ 0 ∧
    jsIndexOf (upStr (joinSpace [credW, amt, cur, toW, accW1, c, forW,
        debitW, fromW, accW2, d])) (str "CREDIT") 0 = 0 := by
  have lD : debitW.length = 5 := by
    have h := upStr_length debitW
    rw [hupD] at h
    exact h.symm.trans (by decide)
  have lF : fromW.length = 4 := by
    have h := upStr_length fromW
    rw [hupF] at h
    exact h.symm.trans (by decide)
  have lA1 : accW1.length = 7 := by
    have h := upStr_length accW1
    rw [hupA1] at h
    exact h.symm.trans (by decide)
  have lFo : forW.length = 3 := by
    have h := upStr_length forW
    rw [hupFo] at h
    exact h.symm.trans (by decide)
  have lC : credW.length = 6 := by
    have h := upStr_length credW
    rw [hupC] at h
    exact h.symm.trans (by decide)
  have lT : toW.length = 2 := by
    have h := upStr_length toW
    rw [hupT] at h
    exact h.symm.trans (by decide)
  have lA2 : accW2.length = 7 := by
    have h := upStr_length accW2
    rw [hupA2] at h
    exact h.symm.trans (by decide)
  have litD : (str "DEBIT").length = 5 := by decide
  have litF : (str "FROM").length = 4 := by decide
  have litA : (str "ACCOUNT").length = 7 := by decide
  have litFo : (str "FOR").length = 3 := by decide
  have litC : (str "CREDIT").length = 6 := by decide
  have litT : (str "TO").length = 2 := by decide
  have litO : (str "ON").length = 2 := by decide
  have hupj : upStr (joinSpace [credW, amt, cur, toW, accW1, c, forW,
      debitW, fromW, accW2, d]) =
      joinSpace [str "CREDIT", upStr amt, upStr cur, str "TO", str "ACCOUNT",
        upStr c, str "FOR", str "DEBIT", str "FROM", str "ACCOUNT", upStr d] := by
    rw [upStr_joinSpace]
    simp only [List.map_cons, List.map_nil, hupD, hupF, hupA1, hupFo, hupC,
      hupT, hupA2]
  have hO_C : ∀ n, occursAt (str "CREDIT")
      (upStr (joinSpace [credW, amt, cur, toW, accW1, c, forW, debitW, fromW,
        accW2, d])) n → n = 0 := by
    intro n hn
    rw [hupj] at hn
    rcases occursAt_joinSpace_split _ (by decide) (by decide) _ n (by simp) hn
      with ⟨i, m, hi, hocc, hsum⟩
    have hi11 : i < 11 := by simpa using hi
    interval_cases i <;>
      simp only [List.getD_cons_zero, List.getD_cons_succ] at hocc <;>
      simp only [List.take_succ_cons, List.take_zero, List.map_cons, List.map_nil,
        List.sum_cons, List.sum_nil, upStr_length, litD, litF, litA, litFo, litC,
        litT, litO] at hsum <;>
      first
        | exact absurd hocc (kwFree_no_occ amt hka _ (by decide) m)
        | exact absurd hocc (kwFree_no_occ cur hkc _ (by decide) m)
        | exact absurd hocc (kwFree_no_occ d hkd _ (by decide) m)
        | exact absurd hocc (kwFree_no_occ c hkcc _ (by decide) m)
        | exact absurd hocc (kwFree_no_occ dt hkdt _ (by decide) m)
        | exact absurd hocc (not_occursAt_all _ _ (by decide) (by decide) m)
        | (have h0 := occursAt_unique_zero _ _ (by decide) (by decide) m hocc
           omega)
  have hO_T : ∀ n, occursAt (str "TO")
      (upStr (joinSpace [credW, amt, cur, toW, accW1, c, forW, debitW, fromW,
        accW2, d])) n → n = 9 + amt.length + cur.length := by
    intro n hn
    rw [hupj] at hn
    rcases occursAt_joinSpace_split _ (by decide) (by decide) _ n (by simp) hn
      with ⟨i, m, hi, hocc, hsum⟩
    have hi11 : i < 11 := by simpa using hi
    interval_cases i <;>
      simp only [List.getD_cons_zero, List.getD_cons_succ] at hocc <;>
      simp only [List.take_succ_cons, List.take_zero, List.map_cons, List.map_nil,
        List.sum_cons, List.sum_nil, upStr_length, litD, litF, litA, litFo, litC,
        litT, litO] at hsum <;>
      first
        | exact absurd hocc (kwFree_no_occ amt hka _ (by decide) m)
        | exact absurd hocc (kwFree_no_occ cur hkc _ (by decide) m)
        | exact absurd hocc (kwFree_no_occ d hkd _ (by decide) m)
        | exact absurd hocc (kwFree_no_occ c hkcc _ (by decide) m)
        | exact absurd hocc (kwFree_no_occ dt hkdt _ (by decide) m)
        | exact absurd hocc (not_occursAt_all _ _ (by decide) (by decide) m)
        | (have h0 := occursAt_unique_zero _ _ (by decide) (by decide) m hocc
           omega)
  have hO_A : ∀ n, occursAt (str "ACCOUNT")
      (upStr (joinSpace [credW, amt, cur, toW, accW1, c, forW, debitW, fromW,
        accW2, d])) n →
      n = 12 + amt.length + cur.length ∨
      n = 36 + amt.length + cur.length + c.length := by
    intro n hn
    rw [hupj] at hn
    rcases occursAt_joinSpace_split _ (by decide) (by decide) _ n (by simp) hn
      with ⟨i, m, hi, hocc, hsum⟩
    have hi11 : i < 11 := by simpa using hi
    interval_cases i <;>
      simp only [List.getD_cons_zero, List.getD_cons_succ] at hocc <;>
      simp only [List.take_succ_cons, List.take_zero, List.map_cons, List.map_nil,
        List.sum_cons, List.sum_nil, upStr_length, litD, litF, litA, litFo, litC,
        litT, litO] at hsum <;>
      first
        | exact absurd hocc (kwFree_no_occ amt hka _ (by decide) m)
        | exact absurd hocc (kwFree_no_occ cur hkc _ (by decide) m)
        | exact absurd hocc (kwFree_no_occ d hkd _ (by decide) m)
        | exact absurd hocc (kwFree_no_occ c hkcc _ (by decide) m)
        | exact absurd hocc (kwFree_no_occ dt hkdt _ (by decide) m)
        | exact absurd hocc (not_occursAt_all _ _ (by decide) (by decide) m)
        | (have h0 := occursAt_unique_zero _ _ (by decide) (by decide) m hocc
           omega)
  have hO_Fo : ∀ n, occursAt (str "FOR")
      (upStr (joinSpace [credW, amt, cur, toW, accW1, c, forW, debitW, fromW,
        accW2, d])) n → n = 21 + amt.length + cur.length + c.length := by
    intro n hn
    rw [hupj] at hn
    rcases occursAt_joinSpace_split _ (by decide) (by decide) _ n (by simp) hn
      with ⟨i, m, hi, hocc, hsum⟩
    have hi11 : i < 11 := by simpa using hi
    interval_cases i <;>
      simp only [List.getD_cons_zero, List.getD_cons_succ] at hocc <;>
      simp only [List.take_succ_cons, List.take_zero, List.map_cons, List.map_nil,
        List.sum_cons, List.sum_nil, upStr_length, litD, litF, litA, litFo, litC,
        litT, litO] at hsum <;>
      first
        | exact absurd hocc (kwFree_no_occ amt hka _ (by decide) m)
        | exact absurd hocc (kwFree_no_occ cur hkc _ (by decide) m)
        | exact absurd hocc (kwFree_no_occ d hkd _ (by decide) m)
        | exact absurd hocc (kwFree_no_occ c hkcc _ (by decide) m)
        | exact absurd hocc (kwFree_no_occ dt hkdt _ (by decide) m)
        | exact absurd hocc (not_occursAt_all _ _ (by decide) (by decide) m)
        | (have h0 := occursAt_unique_zero _ _ (by decide) (by decide) m hocc
           omega)
  have hO_D : ∀ n, occursAt (str "DEBIT")
      (upStr (joinSpace [credW, amt, cur, toW, accW1, c, forW, debitW, fromW,
        accW2, d])) n → n = 25 + amt.length + cur.length + c.length := by
    intro n hn
    rw [hupj] at hn
    rcases occursAt_joinSpace_split _ (by decide) (by decide) _ n (by simp) hn
      with ⟨i, m, hi, hocc, hsum⟩
    have hi11 : i < 11 := by simpa using hi
    interval_cases i <;>
      simp only [List.getD_cons_zero, List.getD_cons_succ] at hocc <;>
      simp only [List.take_succ_cons, List.take_zero, List.map_cons, List.map_nil,
        List.sum_cons, List.sum_nil, upStr_length, litD, litF, litA, litFo, litC,
        litT, litO] at hsum <;>
      first
        | exact absurd hocc (kwFree_no_occ amt hka _ (by decide) m)
        | exact absurd hocc (kwFree_no_occ cur hkc _ (by decide) m)
        | exact absurd hocc (kwFree_no_occ d hkd _ (by decide) m)
        | exact absurd hocc (kwFree_no_occ c hkcc _ (by decide) m)
        | exact absurd hocc (kwFree_no_occ dt hkdt _ (by decide) m)
        | exact absurd hocc (not_occursAt_all _ _ (by decide) (by decide) m)
        | (have h0 := occursAt_unique_zero _ _ (by decide) (by decide) m hocc
           omega)
  have hO_F : ∀ n, occursAt (str "FROM")
      (upStr (joinSpace [credW, amt, cur, toW, accW1, c, forW, debitW, fromW,
        accW2, d])) n → n = 31 + amt.length + cur.length + c.length := by
    intro n hn
    rw [hupj] at hn
    rcases occursAt_joinSpace_split _ (by decide) (by decide) _ n (by simp) hn
      with ⟨i, m, hi, hocc, hsum⟩
    have hi11 : i < 11 := by simpa using hi
    interval_cases i <;>
      simp only [List.getD_cons_zero, List.getD_cons_succ] at hocc <;>
      simp only [List.take_succ_cons, List.take_zero, List.map_cons, List.map_nil,
        List.sum_cons, List.sum_nil, upStr_length, litD, litF, litA, litFo, litC,
        litT, litO] at hsum <;>
      first
        | exact absurd hocc (kwFree_no_occ amt hka _ (by decide) m)
        | exact absurd hocc (kwFree_no_occ cur hkc _ (by decide) m)
        | exact absurd hocc (kwFree_no_occ d hkd _ (by decide) m)
        | exact absurd hocc (kwFree_no_occ c hkcc _ (by decide) m)
        | exact absurd hocc (kwFree_no_occ dt hkdt _ (by decide) m)
        | exact absurd hocc (not_occursAt_all _ _ (by decide) (by decide) m)
        | (have h0 := occursAt_unique_zero _ _ (by decide) (by decide) m hocc
           omega)
  have hO_O : ∀ n, occursAt (str "ON")
      (upStr (joinSpace [credW, amt, cur, toW, accW1, c, forW, debitW, fromW,
        accW2, d])) n → False := by
    intro n hn
    rw [hupj] at hn
    rcases occursAt_joinSpace_split _ (by decide) (by decide) _ n (by simp) hn
      with ⟨i, m, hi, hocc, hsum⟩
    have hi11 : i < 11 := by simpa using hi
    interval_cases i <;>
      simp only [List.getD_cons_zero, List.getD_cons_succ] at hocc <;>
      simp only [List.take_succ_cons, List.take_zero, List.map_cons, List.map_nil,
        List.sum_cons, List.sum_nil, upStr_length, litD, litF, litA, litFo, litC,
        litT, litO] at hsum <;>
      first
        | exact absurd hocc (kwFree_no_occ amt hka _ (by decide) m)
        | exact absurd hocc (kwFree_no_occ cur hkc _ (by decide) m)
        | exact absurd hocc (kwFree_no_occ d hkd _ (by decide) m)
        | exact absurd hocc (kwFree_no_occ c hkcc _ (by decide) m)
        | exact absurd hocc (kwFree_no_occ dt hkdt _ (by decide) m)
        | exact absurd hocc (not_occursAt_all _ _ (by decide) (by decide) m)
        | (have h0 := occursAt_unique_zero _ _ (by decide) (by decide) m hocc
           omega)
  have hE_C : occursAt (str "CREDIT") (upStr (joinSpace [credW, amt, cur, toW,
      accW1, c, forW, debitW, fromW, accW2, d])) 0 := by
    rw [hupj]
    have hx := occursAt_joinSpace_at (str "CREDIT") []
      [upStr amt, upStr cur, str "TO", str "ACCOUNT", upStr c, str "FOR",
       str "DEBIT", str "FROM", str "ACCOUNT", upStr d]
    simp only [List.map_nil, List.sum_nil, List.nil_append] at hx
    exact hx
  have hE_T : occursAt (str "TO") (upStr (joinSpace [credW, amt, cur, toW,
      accW1, c, forW, debitW, fromW, accW2, d]))
      (9 + amt.length + cur.length) := by
    rw [hupj]
    have hx := occursAt_joinSpace_at (str "TO")
      [str "CREDIT", upStr amt, upStr cur]
      [str "ACCOUNT", upStr c, str "FOR", str "DEBIT", str "FROM", str "ACCOUNT",
       upStr d]
    simp only [List.map_cons, List.map_nil, List.sum_cons, List.sum_nil,
      upStr_length, litD, litF, litA, litFo, litC, litT, litO, List.cons_append,
      List.nil_append] at hx
    exact occursAt_congr_pos _ _ _ _ hx (by omega)
  have hE_A1 : occursAt (str "ACCOUNT") (upStr (joinSpace [credW, amt, cur, toW,
      accW1, c, forW, debitW, fromW, accW2, d]))
      (12 + amt.length + cur.length) := by
    rw [hupj]
    have hx := occursAt_joinSpace_at (str "ACCOUNT")
      [str "CREDIT", upStr amt, upStr cur, str "TO"]
      [upStr c, str "FOR", str "DEBIT", str "FROM", str "ACCOUNT", upStr d]
    simp only [List.map_cons, List.map_nil, List.sum_cons, List.sum_nil,
      upStr_length, litD, litF, litA, litFo, litC, litT, litO, List.cons_append,
      List.nil_append] at hx
    exact occursAt_congr_pos _ _ _ _ hx (by omega)
  have hE_Fo : occursAt (str "FOR") (upStr (joinSpace [credW, amt, cur, toW,
      accW1, c, forW, debitW, fromW, accW2, d]))
      (21 + amt.length + cur.length + c.length) := by
    rw [hupj]
    have hx := occursAt_joinSpace_at (str "FOR")
      [str "CREDIT", upStr amt, upStr cur, str "TO", str "ACCOUNT", upStr c]
      [str "DEBIT", str "FROM", str "ACCOUNT", upStr d]
    simp only [List.map_cons, List.map_nil, List.sum_cons, List.sum_nil,
      upStr_length, litD, litF, litA, litFo, litC, litT, litO, List.cons_append,
      List.nil_append] at hx
    exact occursAt_congr_pos _ _ _ _ hx (by omega)
  have hE_D : occursAt (str "DEBIT") (upStr (joinSpace [credW, amt, cur, toW,
      accW1, c, forW, debitW, fromW, accW2, d]))
      (25 + amt.length + cur.length + c.length) := by
    rw [hupj]
    have hx := occursAt_joinSpace_at (str "DEBIT")
      [str "CREDIT", upStr amt, upStr cur, str "TO", str "ACCOUNT", upStr c,
       str "FOR"]
      [str "FROM", str "ACCOUNT", upStr d]
    simp only [List.map_cons, List.map_nil, List.sum_cons, List.sum_nil,
      upStr_length, litD, litF, litA, litFo, litC, litT, litO, List.cons_append,
      List.nil_append] at hx
    exact occursAt_congr_pos _ _ _ _ hx (by omega)
  have hE_F : occursAt (str "FROM") (upStr (joinSpace [credW, amt, cur, toW,
      accW1, c, forW, debitW, fromW, accW2, d]))
      (31 + amt.length + cur.length + c.length) := by
    rw [hupj]
    have hx := occursAt_joinSpace_at (str "FROM")
      [str "CREDIT", upStr amt, upStr cur, str "TO", str "ACCOUNT", upStr c,
       str "FOR", str "DEBIT"]
      [str "ACCOUNT", upStr d]
    simp only [List.map_cons, List.map_nil, List.sum_cons, List.sum_nil,
      upStr_length, litD, litF, litA, litFo, litC, litT, litO, List.cons_append,
      List.nil_append] at hx
    exact occursAt_congr_pos _ _ _ _ hx (by omega)
  have hE_A2 : occursAt (str "ACCOUNT") (upStr (joinSpace [credW, amt, cur, toW,
      accW1, c, forW, debitW, fromW, accW2, d]))
      (36 + amt.length + cur.length + c.length) := by
    rw [hupj]
    have hx := occursAt_joinSpace_at (str "ACCOUNT")
      [str "CREDIT", upStr amt, upStr cur, str "TO", str "ACCOUNT", upStr c,
       str "FOR", str "DEBIT", str "FROM"]
      [upStr d]
    simp only [List.map_cons, List.map_nil, List.sum_cons, List.sum_nil,
      upStr_length, litD, litF, litA, litFo, litC, litT, litO, List.cons_append,
      List.nil_append] at hx
    exact occursAt_congr_pos _ _ _ _ hx (by omega)
  have hIX_C : jsIndexOf (upStr (joinSpace [credW, amt, cur, toW, accW1, c,
      forW, debitW, fromW, accW2, d])) (str "CREDIT") 0 = 0 := by
    unfold jsIndexOf
    have hf : findFrom (str "CREDIT") (upStr (joinSpace [credW, amt, cur, toW,
        accW1, c, forW, debitW, fromW, accW2, d])) ((0 : Int).toNat) =
        some 0 := by
      rw [show ((0 : Int).toNat) = 0 from rfl, findFrom_least]
      exact ⟨le_refl 0, hE_C, fun m h1 h2 hocc => by omega⟩
    rw [hf]
    rfl
  have hIX_T : jsIndexOf (upStr (joinSpace [credW, amt, cur, toW, accW1, c,
      forW, debitW, fromW, accW2, d])) (str "TO") 0 =
      ((9 + amt.length + cur.length : Nat) : Int) := by
    unfold jsIndexOf
    have hf : findFrom (str "TO") (upStr (joinSpace [credW, amt, cur, toW,
        accW1, c, forW, debitW, fromW, accW2, d])) ((0 : Int).toNat) =
        some (9 + amt.length + cur.length) := by
      rw [show ((0 : Int).toNat) = 0 from rfl, findFrom_least]
      refine ⟨by omega, hE_T, ?_⟩
      intro m h1 h2 hocc
      have := hO_T m hocc
      omega
    rw [hf]
  have hIX_A1 : jsIndexOf (upStr (joinSpace [credW, amt, cur, toW, accW1, c,
      forW, debitW, fromW, accW2, d])) (str "ACCOUNT")
      ((9 + amt.length + cur.length : Nat) : Int) =
      ((12 + amt.length + cur.length : Nat) : Int) := by
    unfold jsIndexOf
    have hf : findFrom (str "ACCOUNT") (upStr (joinSpace [credW, amt, cur, toW,
        accW1, c, forW, debitW, fromW, accW2, d]))
        (((9 + amt.length + cur.length : Nat) : Int).toNat) =
        some (12 + amt.length + cur.length) := by
      rw [Int.toNat_natCast, findFrom_least]
      refine ⟨by omega, hE_A1, ?_⟩
      intro m h1 h2 hocc
      rcases hO_A m hocc with h | h <;> omega
    rw [hf]
  have hIX_Fo : jsIndexOf (upStr (joinSpace [credW, amt, cur, toW, accW1, c,
      forW, debitW, fromW, accW2, d])) (str "FOR") 0 =
      ((21 + amt.length + cur.length + c.length : Nat) : Int) := by
    unfold jsIndexOf
    have hf : findFrom (str "FOR") (upStr (joinSpace [credW, amt, cur, toW,
        accW1, c, forW, debitW, fromW, accW2, d])) ((0 : Int).toNat) =
        some (21 + amt.length + cur.length + c.length) := by
      rw [show ((0 : Int).toNat) = 0 from rfl, findFrom_least]
      refine ⟨by omega, hE_Fo, ?_⟩
      intro m h1 h2 hocc
      have := hO_Fo m hocc
      omega
    rw [hf]
  have hIX_D : jsIndexOf (upStr (joinSpace [credW, amt, cur, toW, accW1, c,
      forW, debitW, fromW, accW2, d])) (str "DEBIT")
      ((21 + amt.length + cur.length + c.length : Nat) : Int) =
      ((25 + amt.length + cur.length + c.length : Nat) : Int) := by
    unfold jsIndexOf
    have hf : findFrom (str "DEBIT") (upStr (joinSpace [credW, amt, cur, toW,
        accW1, c, forW, debitW, fromW, accW2, d]))
        (((21 + amt.length + cur.length + c.length : Nat) : Int).toNat) =
        some (25 + amt.length + cur.length + c.length) := by
      rw [Int.toNat_natCast, findFrom_least]
      refine ⟨by omega, hE_D, ?_⟩
      intro m h1 h2 hocc
      have := hO_D m hocc
      omega
    rw [hf]
  have hIX_F : jsIndexOf (upStr (joinSpace [credW, amt, cur, toW, accW1, c,
      forW, debitW, fromW, accW2, d])) (str "FROM")
      ((25 + amt.length + cur.length + c.length : Nat) : Int) =
      ((31 + amt.length + cur.length + c.length : Nat) : Int) := by
    unfold jsIndexOf
    have hf : findFrom (str "FROM") (upStr (joinSpace [credW, amt, cur, toW,
        accW1, c, forW, debitW, fromW, accW2, d]))
        (((25 + amt.length + cur.length + c.length : Nat) : Int).toNat) =
        some (31 + amt.length + cur.length + c.length) := by
      rw [Int.toNat_natCast, findFrom_least]
      refine ⟨by omega, hE_F, ?_⟩
      intro m h1 h2 hocc
      have := hO_F m hocc
      omega
    rw [hf]
  have hIX_A2 : jsIndexOf (upStr (joinSpace [credW, amt, cur, toW, accW1, c,
      forW, debitW, fromW, accW2, d])) (str "ACCOUNT")
      ((31 + amt.length + cur.length + c.length : Nat) : Int) =
      ((36 + amt.length + cur.length + c.length : Nat) : Int) := by
    unfold jsIndexOf
    have hf : findFrom (str "ACCOUNT") (upStr (joinSpace [credW, amt, cur, toW,
        accW1, c, forW, debitW, fromW, accW2, d]))
        (((31 + amt.length + cur.length + c.length : Nat) : Int).toNat) =
        some (36 + amt.length + cur.length + c.length) := by
      rw [Int.toNat_natCast, findFrom_least]
      refine ⟨by omega, hE_A2, ?_⟩
      intro m h1 h2 hocc
      rcases hO_A m hocc with h | h <;> omega
    rw [hf]
  have hIX_O : jsIndexOf (upStr (joinSpace [credW, amt, cur, toW, accW1, c,
      forW, debitW, fromW, accW2, d])) (str "ON")
      ((36 + amt.length + cur.length + c.length : Nat) : Int) = -1 := by
    unfold jsIndexOf
    have hf : findFrom (str "ON") (upStr (joinSpace [credW, amt, cur, toW,
        accW1, c, forW, debitW, fromW, accW2, d]))
        (((36 + amt.length + cur.length + c.length : Nat) : Int).toNat) =
        none := by
      rw [Int.toNat_natCast, findFrom_none_least]
      intro m h1 hocc
      exact hO_O m hocc
    rw [hf]
  have hslen : (joinSpace [credW, amt, cur, toW, accW1, c, forW, debitW, fromW,
      accW2, d]).length =
      44 + amt.length + cur.length + c.length + d.length := by
    simp only [joinSpace_cons_cons, joinSpace_singleton, List.length_append,
      List.length_cons]
    rw [lD, lF, lA1, lFo, lC, lT, lA2]
    omega
  have hsfull : joinSpace [credW, amt, cur, toW, accW1, c, forW, debitW, fromW,
      accW2, d] =
      credW ++ ' ' :: (amt ++ ' ' :: (cur ++ ' ' :: (toW ++ ' ' :: (accW1 ++
        ' ' :: (c ++ ' ' :: (forW ++ ' ' :: (debitW ++ ' ' :: (fromW ++ ' ' ::
        (accW2 ++ ' ' :: d))))))))) := by
    simp only [joinSpace_cons_cons, joinSpace_singleton]
  have hAC : jsTrim (jsSubstring (joinSpace [credW, amt, cur, toW, accW1, c,
      forW, debitW, fromW, accW2, d]) ((6 : Nat) : Int)
      ((9 + amt.length + cur.length : Nat) : Int)) = amt ++ ' ' :: cur := by
    rw [jsSubstring_nat _ _ _ (by omega) (by rw [hslen]; omega)]
    rw [show 9 + amt.length + cur.length - 6 = amt.length + cur.length + 3 from
      by omega]
    rw [hsfull]
    rw [show (6 : Nat) = credW.length from lC.symm]
    rw [drop_at_space]
    rw [take_two_tokens]
    have h1 : ∀ ch, (amt ++ ' ' :: cur).head? = some ch → isJsSpace ch = false := by
      intro ch hch
      rw [head?_append_left _ _ hga.1] at hch
      exact goodToken_head amt hga ch hch
    have h2 : ∀ ch, (amt ++ ' ' :: cur).reverse.head? = some ch →
        isJsSpace ch = false := by
      intro ch hch
      rw [rev_head?_append _ _ (by simp)] at hch
      rw [rev_head?_cons_space _ hgc.1] at hch
      exact goodToken_rev_head cur hgc ch hch
    exact jsTrim_wrap _ h1 h2
  have hCA : jsTrim (jsSubstring (joinSpace [credW, amt, cur, toW, accW1, c,
      forW, debitW, fromW, accW2, d])
      ((19 + amt.length + cur.length : Nat) : Int)
      ((21 + amt.length + cur.length + c.length : Nat) : Int)) = c := by
    rw [jsSubstring_nat _ _ _ (by omega) (by rw [hslen]; omega)]
    rw [show 21 + amt.length + cur.length + c.length -
      (19 + amt.length + cur.length) = c.length + 2 from by omega]
    rw [hsfull]
    rw [show 19 + amt.length + cur.length =
      credW.length + 1 + (12 + amt.length + cur.length) from by rw [lC]; omega]
    rw [drop_shift]
    rw [show 12 + amt.length + cur.length =
      amt.length + 1 + (11 + cur.length) from by omega]
    rw [drop_shift]
    rw [show 11 + cur.length = cur.length + 1 + 10 from by omega]
    rw [drop_shift]
    rw [show (10 : Nat) = toW.length + 1 + 7 from by rw [lT]]
    rw [drop_shift]
    rw [show (7 : Nat) = accW1.length from lA1.symm]
    rw [drop_at_space]
    rw [take_one_token]
    exact jsTrim_wrap c (goodToken_head c hgcc) (goodToken_rev_head c hgcc)
  have hDA : jsTrim (jsSubstringFrom (joinSpace [credW, amt, cur, toW, accW1,
      c, forW, debitW, fromW, accW2, d])
      ((43 + amt.length + cur.length + c.length : Nat) : Int)) = d := by
    rw [jsSubstringFrom_nat _ _ (by rw [hslen]; omega)]
    rw [hsfull]
    rw [show 43 + amt.length + cur.length + c.length =
      credW.length + 1 + (36 + amt.length + cur.length + c.length) from
      by rw [lC]; omega]
    rw [drop_shift]
    rw [show 36 + amt.length + cur.length + c.length =
      amt.length + 1 + (35 + cur.length + c.length) from by omega]
    rw [drop_shift]
    rw [show 35 + cur.length + c.length =
      cur.length + 1 + (34 + c.length) from by omega]
    rw [drop_shift]
    rw [show 34 + c.length = toW.length + 1 + (31 + c.length) from
      by rw [lT]; omega]
    rw [drop_shift]
    rw [show 31 + c.length = accW1.length + 1 + (23 + c.length) from
      by rw [lA1]; omega]
    rw [drop_shift]
    rw [show 23 + c.length = c.length + 1 + 22 from by omega]
    rw [drop_shift]
    rw [show (22 : Nat) = forW.length + 1 + 18 from by rw [lFo]]
    rw [drop_shift]
    rw [show (18 : Nat) = debitW.length + 1 + 12 from by rw [lD]]
    rw [drop_shift]
    rw [show (12 : Nat) = fromW.length + 1 + 7 from by rw [lF]]
    rw [drop_shift]
    rw [show (7 : Nat) = accW2.length from lA2.symm]
    rw [drop_at_space]
    exact jsTrim_space_left d (goodToken_head d hgd) (goodToken_rev_head d hgd)
  have hSP : splitSpace (amt ++ ' ' :: cur) = [amt, cur] := by
    rw [splitSpace_append_space amt cur hga.2, splitSpace_nospace cur hgc.2]
  have hFL : List.filter (fun t => t.length > 0) [amt, cur] = [amt, cur] :=
    filter_two_tokens amt cur hga.1 hgc.1
  have hIX_D0 : jsIndexOf (upStr (joinSpace [credW, amt, cur, toW, accW1, c,
      forW, debitW, fromW, accW2, d])) (str "DEBIT") 0 =
      ((25 + amt.length + cur.length + c.length : Nat) : Int) := by
    unfold jsIndexOf
    have hf : findFrom (str "DEBIT") (upStr (joinSpace [credW, amt, cur, toW,
        accW1, c, forW, debitW, fromW, accW2, d])) ((0 : Int).toNat) =
        some (25 + amt.length + cur.length + c.length) := by
      rw [show ((0 : Int).toNat) = 0 from rfl, findFrom_least]
      refine ⟨by omega, hE_D, ?_⟩
      intro m h1 h2 hocc
      have := hO_D m hocc
      omega
    rw [hf]
  refine ⟨?_, by rw [hIX_D0]; push_cast; omega, hIX_C⟩
  unfold parseCreditInstruction
  dsimp only
  rw [hIX_C, hIX_T, hIX_A1, hIX_Fo, hIX_D, hIX_F, hIX_A2, hIX_O]
  rw [if_neg (by decide)]
  rw [if_neg (by omega)]
  rw [if_neg (by omega)]
  rw [if_neg (by omega)]
  rw [if_neg (by omega)]
  rw [if_neg (by omega)]
  rw [if_neg (by omega)]
  rw [if_neg (not_not_intro ⟨by omega, by omega, by omega, by omega, by omega,
    by omega⟩)]
  rw [show (0 : Int) + 6 = ((6 : Nat) : Int) from by decide]
  rw [show ((12 + amt.length + cur.length : Nat) : Int) + 7 =
    ((19 + amt.length + cur.length : Nat) : Int) from by push_cast; ring]
  rw [hAC, hSP, hFL]
  dsimp only
  have hngt : ¬((-1 : Int) >
      ((36 + amt.length + cur.length + c.length : Nat) : Int)) := by
    push_cast
    omega
  simp only [if_neg hngt]
  rw [show ((36 + amt.length + cur.length + c.length : Nat) : Int) + 7 =
    ((43 + amt.length + cur.length + c.length : Nat) : Int) from by push_cast; ring]
  rw [hCA, hDA]

/-! ## Claim theorems -/


/-- C3: for every parsed draft transfer and account set, the code's
validator returns exactly the first failing rule of the spec's ordered
chain AM01, CU02, AC04 (debit then credit), AC02, AC03 (debit then
credit), CU01 (debit then credit), AC01, DT01 (only if a date was
supplied), and success when no rule fails. -/
theorem C3_validator_chain_order (p : Draft) (accounts : List Account) :
    validateInstruction p accounts = chainSpec p accounts :=
  validate_eq_chain p accounts

/-- C8: the scheduler's defensive invalid-date branch is unreachable: for
every request that passes validation, either no date (or an empty date) is
present, or the date validates, so `shouldExecuteImmediately` resolves by
the date comparison and never through its invalid-date default. -/
theorem C8_invalid_date_branch_unreachable (p : Draft) (accounts : List Account)
    (now : Date3) (hv : validateInstruction p accounts = none) :
    ∀ e, p.executeBy = some e → e ≠ [] →
      ∃ t, validateDate e = .ok t ∧
        shouldExecuteImmediately p.executeBy now = dateLe t now := by
  intro e he hne
  obtain ⟨t, ht⟩ := validate_ok_date p accounts e hv he hne
  refine ⟨t, ht, ?_⟩
  unfold shouldExecuteImmediately
  rw [he]
  dsimp only
  rw [if_neg hne, ht]

theorem C8_witness :
    ∃ t, validateDate (str "2024-01-15") = .ok t ∧
      shouldExecuteImmediately (some (str "2024-01-15")) ⟨2026, 10, 11⟩ =
        dateLe t ⟨2026, 10, 11⟩ :=
  C8_invalid_date_branch_unreachable
    ⟨str "DEBIT", str "100", str "USD", str "a", str "b", some (str "2024-01-15")⟩
    [⟨str "a", 500, str "USD"⟩, ⟨str "b", 0, str "USD"⟩] ⟨2026, 10, 11⟩ (by decide)
    (str "2024-01-15") rfl (by decide)

/-- C9: an instruction whose ON keyword is followed by nothing parses to an
empty-string date; validation then behaves exactly as with no date (DT01 is
skipped), the transfer executes immediately, and the response reports the
empty string as `execute_by` with status `successful` / `AP00`. -/
theorem C9_empty_date_executes_immediately (s : JStr) (accounts : List Account)
    (now : Date3) (d : Draft) (hp : parseInstruction s = .ok d)
    (he : d.executeBy = some [])
    (hv : validateInstruction { d with executeBy := none } accounts = none) :
    validateInstruction d accounts = none ∧
    shouldExecuteImmediately d.executeBy now = true ∧
    (paymentInstructionsService now ⟨accounts, s⟩).1.data.status = str "successful" ∧
    (paymentInstructionsService now ⟨accounts, s⟩).1.data.execute_by = some [] ∧
    (paymentInstructionsService now ⟨accounts, s⟩).1.data.status_code = str "AP00" := by
  have hval : validateInstruction d accounts = none :=
    (validate_empty_date d accounts he).trans hv
  have hsei : shouldExecuteImmediately d.executeBy now = true := by
    unfold shouldExecuteImmediately
    rw [he]
    rfl
  have hsei2 : shouldExecuteImmediately (some ([] : JStr)) now = true := rfl
  refine ⟨hval, hsei, ?_, ?_, ?_⟩ <;>
    simp only [paymentInstructionsService, hp, hval, hsei, hsei2, he, if_true, ite_true]

theorem C9_witness :
    validateInstruction ⟨str "DEBIT", str "100", str "USD", str "a", str "b", some []⟩
      [⟨str "a", 500, str "USD"⟩, ⟨str "b", 0, str "USD"⟩] = none ∧
    shouldExecuteImmediately (some []) ⟨2026, 10, 11⟩ = true ∧
    (paymentInstructionsService ⟨2026, 10, 11⟩ ⟨[⟨str "a", 500, str "USD"⟩, ⟨str "b", 0, str "USD"⟩],
      str "DEBIT 100 USD FROM ACCOUNT a FOR CREDIT TO ACCOUNT b ON"⟩).1.data.status =
      str "successful" ∧
    (paymentInstructionsService ⟨2026, 10, 11⟩ ⟨[⟨str "a", 500, str "USD"⟩, ⟨str "b", 0, str "USD"⟩],
      str "DEBIT 100 USD FROM ACCOUNT a FOR CREDIT TO ACCOUNT b ON"⟩).1.data.execute_by =
      some [] ∧
    (paymentInstructionsService ⟨2026, 10, 11⟩ ⟨[⟨str "a", 500, str "USD"⟩, ⟨str "b", 0, str "USD"⟩],
      str "DEBIT 100 USD FROM ACCOUNT a FOR CREDIT TO ACCOUNT b ON"⟩).1.data.status_code =
      str "AP00" := by
  have h := C9_empty_date_executes_immediately
    (str "DEBIT 100 USD FROM ACCOUNT a FOR CREDIT TO ACCOUNT b ON")
    [⟨str "a", 500, str "USD"⟩, ⟨str "b", 0, str "USD"⟩] ⟨2026, 10, 11⟩
    ⟨str "DEBIT", str "100", str "USD", str "a", str "b", some []⟩
    (by decide) rfl (by decide)
  exact h

/-- C2: counterexample to the original claim.  Balances are float64: crediting
amount 1 to an account holding 2^53 leaves it unchanged (2^53 + 1 rounds back
to 2^53), so a successful transfer can destroy value — the credit account does
not increase by the parsed amount and the balance sum drops. -/
theorem C2_counterexample :
    (paymentInstructionsService ⟨2026, 10, 11⟩
      ⟨[⟨str "a", 1, str "USD"⟩, ⟨str "b", 9007199254740992, str "USD"⟩],
        str "DEBIT 1 USD FROM ACCOUNT a FOR CREDIT TO ACCOUNT b"⟩).1.data.status =
      str "successful" ∧
    (paymentInstructionsService ⟨2026, 10, 11⟩
      ⟨[⟨str "a", 1, str "USD"⟩, ⟨str "b", 9007199254740992, str "USD"⟩],
        str "DEBIT 1 USD FROM ACCOUNT a FOR CREDIT TO ACCOUNT b"⟩).2 =
      [⟨str "a", 0, str "USD"⟩, ⟨str "b", 9007199254740992, str "USD"⟩] ∧
    sumBal (paymentInstructionsService ⟨2026, 10, 11⟩
      ⟨[⟨str "a", 1, str "USD"⟩, ⟨str "b", 9007199254740992, str "USD"⟩],
        str "DEBIT 1 USD FROM ACCOUNT a FOR CREDIT TO ACCOUNT b"⟩).2 =
      9007199254740992 ∧
    sumBal [⟨str "a", 1, str "USD"⟩, ⟨str "b", 9007199254740992, str "USD"⟩] =
      9007199254740993 := by
  refine ⟨by decide, by decide, by decide, by decide⟩

set_option maxHeartbeats 1600000 in
/-- C2 (amended): when the result status is not successful the account list is
untouched; when it is successful the balances move through float64 addition,
so the debit account decreases by exactly the parsed amount, the credit
account increases by exactly it, and the balance sum is conserved PROVIDED the
updated balances stay strictly within the float64-exact integer window
(-2^53, 2^53); outside that window rounding can break conservation. -/
theorem C2_conservation (now : Date3) (sd : ServiceData) :
    ((paymentInstructionsService now sd).1.data.status ≠ str "successful" →
      (paymentInstructionsService now sd).2 = sd.accounts) ∧
    ((paymentInstructionsService now sd).1.data.status = str "successful" →
      ∀ dI cI a, (paymentInstructionsService now sd).1.data.debit_account = some dI →
        (paymentInstructionsService now sd).1.data.credit_account = some cI →
        (paymentInstructionsService now sd).1.data.amount = some a →
        ((-(2 ^ 53) < balOf sd.accounts dI - a ∧ balOf sd.accounts dI - a < 2 ^ 53) →
          balOf (paymentInstructionsService now sd).2 dI = balOf sd.accounts dI - a) ∧
        ((-(2 ^ 53) < balOf sd.accounts cI + a ∧ balOf sd.accounts cI + a < 2 ^ 53) →
          balOf (paymentInstructionsService now sd).2 cI = balOf sd.accounts cI + a) ∧
        ((-(2 ^ 53) < balOf sd.accounts dI - a ∧ balOf sd.accounts dI - a < 2 ^ 53) →
         (-(2 ^ 53) < balOf sd.accounts cI + a ∧ balOf sd.accounts cI + a < 2 ^ 53) →
          sumBal (paymentInstructionsService now sd).2 = sumBal sd.accounts)) := by
  obtain ⟨accounts, instr⟩ := sd
  rcases hE : parseInstruction instr with pe | parsed
  · simp only [paymentInstructionsService, hE]
    refine ⟨fun _ => trivial, fun hst => ?_⟩
    exact absurd hst (by decide)
  · rcases hval : validateInstruction parsed accounts with _ | ve
    · by_cases hexec : shouldExecuteImmediately parsed.executeBy now = true
      · simp only [paymentInstructionsService, hE, hval, hexec, if_true, ite_true]
        obtain ⟨hdc, hfd, hfc, v, hv⟩ := validate_ok_facts parsed accounts hval
        constructor
        · intro h
          exact absurd rfl h
        · intro _
          have hamt : (jsParseInt parsed.amount).getD 0 = v := by rw [hv]; rfl
          have hacc :
              (executeTransaction parsed accounts).2.2 =
                updateFirst (updateFirst accounts parsed.debitAccount (-v))
                  parsed.creditAccount v := by
            unfold executeTransaction
            rw [hamt]
          have hcd : parsed.creditAccount ≠ parsed.debitAccount := Ne.symm hdc
          have hfc1 :
              ((updateFirst accounts parsed.debitAccount (-v)).find?
                (fun a => a.id == parsed.creditAccount)).isSome := by
            rw [find?_updateFirst_ne _ _ _ _ hcd]
            exact hfc
          intro dI cI a h1 h2 h3
          have hdI : dI = parsed.debitAccount := by
            injection h1 with h
            exact h.symm
          have hcI : cI = parsed.creditAccount := by
            injection h2 with h
            exact h.symm
          have hav : a = v := by
            rw [hv] at h3
            injection h3 with h
            exact h.symm
          subst hdI hcI hav
          have hbca : balOf (updateFirst accounts parsed.debitAccount (-a))
              parsed.creditAccount = balOf accounts parsed.creditAccount := by
            unfold balOf
            rw [find?_updateFirst_ne _ _ _ _ hcd]
          refine ⟨?_, ?_, ?_⟩
          · rintro ⟨hb1, hb2⟩
            obtain ⟨da, hda⟩ := Option.isSome_iff_exists.mp hfd
            have hbal : balOf accounts parsed.debitAccount = da.balance := by
              unfold balOf
              rw [hda]
              rfl
            rw [hbal] at hb1 hb2
            unfold balOf
            rw [hacc, find?_updateFirst_ne _ _ _ _ hdc,
              find?_updateFirst_self]
            rw [hda]
            simp
            rw [jsAddDouble_exact da.balance (-a) (by omega) (by omega)]
            ring
          · rintro ⟨hb1, hb2⟩
            obtain ⟨ca, hca⟩ := Option.isSome_iff_exists.mp hfc
            have hbal : balOf accounts parsed.creditAccount = ca.balance := by
              unfold balOf
              rw [hca]
              rfl
            rw [hbal] at hb1 hb2
            unfold balOf
            rw [hacc, find?_updateFirst_self,
              find?_updateFirst_ne _ _ _ _ hcd]
            rw [hca]
            simp
            rw [jsAddDouble_exact ca.balance a (by omega) (by omega)]
          · rintro ⟨hd1, hd2⟩ ⟨hc1, hc2⟩
            have hexd : jsAddDouble (balOf accounts parsed.debitAccount) (-a) =
                balOf accounts parsed.debitAccount + (-a) :=
              jsAddDouble_exact _ _ (by omega) (by omega)
            have hexc : jsAddDouble (balOf (updateFirst accounts
                parsed.debitAccount (-a)) parsed.creditAccount) a =
                balOf (updateFirst accounts parsed.debitAccount (-a))
                  parsed.creditAccount + a := by
              rw [hbca]
              exact jsAddDouble_exact _ _ (by omega) (by omega)
            rw [hacc, sumBal_updateFirst _ _ _ hfc1 hexc,
              sumBal_updateFirst _ _ _ hfd hexd]
            ring
      · have hexec2 : shouldExecuteImmediately parsed.executeBy now = false := by
          rwa [Bool.not_eq_true] at hexec
        simp only [paymentInstructionsService, hE, hval, hexec2, Bool.false_eq_true,
          if_false, ite_false]
        refine ⟨fun _ => trivial, fun hst => ?_⟩
        exact absurd hst (by decide)
    · simp only [paymentInstructionsService, hE, hval]
      refine ⟨fun _ => trivial, fun hst => ?_⟩
      exact absurd hst (by decide)

theorem C2_witness :
    sumBal (paymentInstructionsService ⟨2026, 10, 11⟩
      ⟨[⟨str "N90394", 1000, str "USD"⟩, ⟨str "N9122", 500, str "USD"⟩],
        str "DEBIT 500 USD FROM ACCOUNT N90394 FOR CREDIT TO ACCOUNT N9122"⟩).2 =
      sumBal [⟨str "N90394", 1000, str "USD"⟩, ⟨str "N9122", 500, str "USD"⟩] ∧
    balOf (paymentInstructionsService ⟨2026, 10, 11⟩
      ⟨[⟨str "N90394", 1000, str "USD"⟩, ⟨str "N9122", 500, str "USD"⟩],
        str "DEBIT 500 USD FROM ACCOUNT N90394 FOR CREDIT TO ACCOUNT N9122"⟩).2
      (str "N90394") =
      balOf [⟨str "N90394", 1000, str "USD"⟩, ⟨str "N9122", 500, str "USD"⟩]
        (str "N90394") - 500 ∧
    balOf (paymentInstructionsService ⟨2026, 10, 11⟩
      ⟨[⟨str "N90394", 1000, str "USD"⟩, ⟨str "N9122", 500, str "USD"⟩],
        str "DEBIT 500 USD FROM ACCOUNT N90394 FOR CREDIT TO ACCOUNT N9122"⟩).2
      (str "N9122") =
      balOf [⟨str "N90394", 1000, str "USD"⟩, ⟨str "N9122", 500, str "USD"⟩]
        (str "N9122") + 500 := by
  have h := C2_conservation ⟨2026, 10, 11⟩
    ⟨[⟨str "N90394", 1000, str "USD"⟩, ⟨str "N9122", 500, str "USD"⟩],
      str "DEBIT 500 USD FROM ACCOUNT N90394 FOR CREDIT TO ACCOUNT N9122"⟩
  have hper := h.2 (by decide) (str "N90394") (str "N9122") 500
    (by decide) (by decide) (by decide)
  refine ⟨hper.2.2 (by decide) (by decide), hper.1 (by decide), hper.2.1 (by decide)⟩

/-- C10 counterexample: for raw amount 9007199254740993 (= 2^53 + 1) the
validation-failure response reports 9007199254740992 — the float64-rounded
parse — not the integer prefix-parse of the raw string. -/
theorem C10_counterexample :
    (paymentInstructionsService ⟨2026, 10, 11⟩ ⟨[],
      str "DEBIT 9007199254740993 USD FROM ACCOUNT a FOR CREDIT TO ACCOUNT b"⟩).1.data.status =
      str "failed" ∧
    (paymentInstructionsService ⟨2026, 10, 11⟩ ⟨[],
      str "DEBIT 9007199254740993 USD FROM ACCOUNT a FOR CREDIT TO ACCOUNT b"⟩).1.data.amount =
      some 9007199254740992 ∧
    specPrefixParse (str "9007199254740993") = some 9007199254740993 ∧
    (paymentInstructionsService ⟨2026, 10, 11⟩ ⟨[],
      str "DEBIT 9007199254740993 USD FROM ACCOUNT a FOR CREDIT TO ACCOUNT b"⟩).1.data.amount ≠
      specPrefixParse (str "9007199254740993") := by
  refine ⟨by decide, by decide, by decide, by decide⟩

/-- C10 (amended): for every validation-failure response, the amount field
is `parseInt(raw) || null`, i.e. the float64-rounded prefix parse with NaN
and 0 collapsed to null; whenever the exact prefix-parse value lies
strictly between -2^53 and 2^53 this agrees with the claim's integer
prefix-parse (null when 0 or NaN). -/
theorem C10_failure_amount_field (now : Date3) (sd : ServiceData) (parsed : Draft)
    (ve : ErrObj) (hE : parseInstruction sd.instruction = .ok parsed)
    (hval : validateInstruction parsed sd.accounts = some ve) :
    (paymentInstructionsService now sd).1.data.amount = jsParseIntOrNull parsed.amount ∧
    (∀ v, specPrefixParse parsed.amount = some v → -(2 ^ 53) < v → v < 2 ^ 53 →
      (paymentInstructionsService now sd).1.data.amount = if v = 0 then none else some v) ∧
    (specPrefixParse parsed.amount = none →
      (paymentInstructionsService now sd).1.data.amount = none) := by
  obtain ⟨accounts, instr⟩ := sd
  have hresp : (paymentInstructionsService now ⟨accounts, instr⟩).1.data.amount =
      jsParseIntOrNull parsed.amount := by
    simp only [paymentInstructionsService, hE, hval]
  refine ⟨hresp, ?_, ?_⟩
  · intro v hs hlb hub
    rw [hresp]
    unfold jsParseIntOrNull
    rw [jsParseInt_eq_spec parsed.amount v hs hlb hub]
  · intro hs
    rw [hresp]
    unfold jsParseIntOrNull
    rw [(jsParseInt_none_iff parsed.amount).mpr hs]

theorem C10_witness :
    (paymentInstructionsService ⟨2026, 10, 11⟩ ⟨[],
      str "DEBIT -100 USD FROM ACCOUNT a FOR CREDIT TO ACCOUNT b"⟩).1.data.amount =
      jsParseIntOrNull (str "-100") ∧
    (paymentInstructionsService ⟨2026, 10, 11⟩ ⟨[],
      str "DEBIT -100 USD FROM ACCOUNT a FOR CREDIT TO ACCOUNT b"⟩).1.data.amount =
      some (-100) := by
  have h := C10_failure_amount_field ⟨2026, 10, 11⟩
    ⟨[], str "DEBIT -100 USD FROM ACCOUNT a FOR CREDIT TO ACCOUNT b"⟩
    ⟨str "DEBIT", str "-100", str "USD", str "a", str "b", none⟩
    ⟨str "AM01", str "Amount must be a positive integer"⟩ (by decide) (by decide)
  refine ⟨h.1, ?_⟩
  have h2 := h.2.1 (-100) (by decide) (by decide) (by decide)
  simpa using h2

/-- C7: counterexample to the original claim.  The string
"9007199254740993" is the canonical base-10 representation of the strictly
positive integer 9007199254740993, yet the validator rejects it with AM01,
because parseInt rounds it to the nearest double 9007199254740992 and the
re-stringified value no longer matches. -/
theorem C7_counterexample :
    natToDigits 9007199254740993 = str "9007199254740993" ∧
    validateInstruction
        ⟨str "DEBIT", str "9007199254740993", str "USD", str "a", str "b", none⟩ [] =
      some ⟨str "AM01", str "Amount must be a positive integer"⟩ := by
  constructor <;> decide

/-- C7 (amended): the amount rule accepts every canonical base-10 numeral of a
strictly positive integer BELOW 2^53 (never yielding AM01), and yields AM01 for
any amount containing '.', any containing '-', any with a leading zero, and any
with a maximal digit prefix followed by a non-digit character. -/
theorem C7_amount_rule (d : Draft) (accounts : List Account) :
    (∀ n : Nat, 0 < n → n < 2 ^ 53 → d.amount = natToDigits n →
      errCode (validateInstruction d accounts) ≠ some (str "AM01")) ∧
    (('.' ∈ d.amount ∨ '-' ∈ d.amount) →
      validateInstruction d accounts =
        some ⟨str "AM01", str "Amount must be a positive integer"⟩) ∧
    (∀ rest, d.amount = '0' :: rest →
      validateInstruction d accounts =
        some ⟨str "AM01", str "Amount must be a positive integer"⟩) ∧
    (∀ p0 c junk, d.amount = p0 ++ c :: junk → p0 ≠ [] →
      (∀ ch ∈ p0, isDigitCh ch = true) → isDigitCh c = false →
      validateInstruction d accounts =
        some ⟨str "AM01", str "Amount must be a positive integer"⟩) := by
  refine ⟨?_, ?_, ?_, ?_⟩
  · intro n h0 h53 hd
    exact validate_no_AM01 d accounts (by rw [hd]; exact ruleAmountOk_natToDigits n h0 h53)
  · intro h
    exact validate_AM01_of_not_ok d accounts (ruleAmountOk_dot_or_minus d.amount h)
  · intro rest hd
    exact validate_AM01_of_not_ok d accounts (by rw [hd]; exact ruleAmountOk_leading_zero rest)
  · intro p0 c junk hd hp0 hdigs hc
    exact validate_AM01_of_not_ok d accounts
      (by rw [hd]; exact ruleAmountOk_trailing_junk p0 c junk hp0 hdigs hc)

/-- C7: witness instantiating the amended rule on concrete inputs. -/
theorem C7_witness :
    (errCode (validateInstruction
        ⟨str "DEBIT", str "5", str "USD", str "a", str "b", none⟩ []) ≠
      some (str "AM01")) ∧
    validateInstruction ⟨str "DEBIT", str "12x", str "USD", str "a", str "b", none⟩ [] =
      some ⟨str "AM01", str "Amount must be a positive integer"⟩ ∧
    validateInstruction ⟨str "DEBIT", str "0100", str "USD", str "a", str "b", none⟩ [] =
      some ⟨str "AM01", str "Amount must be a positive integer"⟩ ∧
    validateInstruction ⟨str "DEBIT", str "-5", str "USD", str "a", str "b", none⟩ [] =
      some ⟨str "AM01", str "Amount must be a positive integer"⟩ :=
  ⟨(C7_amount_rule ⟨str "DEBIT", str "5", str "USD", str "a", str "b", none⟩ []).1
      5 (by decide) (by decide) (by decide),
   (C7_amount_rule ⟨str "DEBIT", str "12x", str "USD", str "a", str "b", none⟩ []).2.2.2
      (str "12") 'x' [] (by decide) (by decide) (by decide) (by decide),
   (C7_amount_rule ⟨str "DEBIT", str "0100", str "USD", str "a", str "b", none⟩ []).2.2.1
      (str "100") (by decide),
   (C7_amount_rule ⟨str "DEBIT", str "-5", str "USD", str "a", str "b", none⟩ []).2.1
      (Or.inr (by decide))⟩

/-- C1: counterexample to the original claim.  A missing required keyword
(FROM) and an order violation both surface as SY03, not SY01 / SY02: the
inner throws are caught by parseInstruction's try/catch and re-labelled. -/
theorem C1_counterexample :
    parseInstruction (str "DEBIT 100 USD ACCOUNT a FOR CREDIT TO ACCOUNT b") =
      .error ⟨str "SY03", str "Missing required keyword: FROM"⟩ ∧
    parseInstruction (str "DEBIT 5 USD ACCOUNT A FROM B FOR CREDIT TO ACCOUNT C") =
      .error ⟨str "SY03", str "Invalid keyword order"⟩ ∧
    str "SY03" ≠ str "SY01" ∧ str "SY03" ≠ str "SY02" := by
  refine ⟨by decide, by decide, by decide, by decide⟩

/-- C1 (amended): parse errors carry only SY01 or SY03 (never SY02); SY01
occurs exactly when the nonempty normalized input starts with neither DEBIT
nor CREDIT; and every error thrown inside the form-specific parsers —
including missing-keyword and keyword-order errors — is caught and reported
as SY03 carrying the thrown message. -/
theorem C1_parse_error_codes (s : JStr) :
    (∀ e, parseInstruction s = .error e →
      e.statusCode = str "SY01" ∨ e.statusCode = str "SY03") ∧
    (∀ e, parseInstruction s = .error e →
      (e.statusCode = str "SY01" ↔
        s ≠ [] ∧ jsIndexOf (upStr (normalizeInstr s)) (str "DEBIT") 0 ≠ 0 ∧
          jsIndexOf (upStr (normalizeInstr s)) (str "CREDIT") 0 ≠ 0)) ∧
    (∀ m, s ≠ [] → jsIndexOf (upStr (normalizeInstr s)) (str "DEBIT") 0 = 0 →
      parseDebitInstruction (normalizeInstr s) = .error m →
      parseInstruction s = .error ⟨str "SY03", m⟩) ∧
    (∀ m, s ≠ [] → jsIndexOf (upStr (normalizeInstr s)) (str "DEBIT") 0 ≠ 0 →
      jsIndexOf (upStr (normalizeInstr s)) (str "CREDIT") 0 = 0 →
      parseCreditInstruction (normalizeInstr s) = .error m →
      parseInstruction s = .error ⟨str "SY03", m⟩) := by
  by_cases hs : s = []
  · subst hs
    have hpe : parseInstruction [] =
        .error ⟨str "SY03", str "Malformed instruction: unable to parse keywords"⟩ := rfl
    refine ⟨?_, ?_, ?_, ?_⟩
    · intro e he
      rw [hpe] at he
      injection he with h
      rw [← h]
      right
      rfl
    · intro e he
      rw [hpe] at he
      injection he with h
      rw [← h]
      constructor
      · intro hc
        exact absurd hc (by decide)
      · intro hc
        exact absurd rfl hc.1
    · intro m hne
      exact absurd rfl hne
    · intro m hne
      exact absurd rfl hne
  · have hbody : parseInstruction s =
        (if jsIndexOf (upStr (normalizeInstr s)) (str "DEBIT") 0 = 0 then
          match parseDebitInstruction (normalizeInstr s) with
          | .ok d => .ok d
          | .error m => .error ⟨str "SY03", m⟩
        else if jsIndexOf (upStr (normalizeInstr s)) (str "CREDIT") 0 = 0 then
          match parseCreditInstruction (normalizeInstr s) with
          | .ok d => .ok d
          | .error m => .error ⟨str "SY03", m⟩
        else .error ⟨str "SY01", str "Missing required keyword: DEBIT or CREDIT"⟩) := by
      unfold parseInstruction
      rw [if_neg hs]
    by_cases hd : jsIndexOf (upStr (normalizeInstr s)) (str "DEBIT") 0 = 0
    · rw [if_pos hd] at hbody
      rcases hp : parseDebitInstruction (normalizeInstr s) with m | d <;> rw [hp] at hbody
      · refine ⟨?_, ?_, ?_, ?_⟩
        · intro e he
          rw [hbody] at he
          injection he with h
          rw [← h]
          right
          rfl
        · intro e he
          rw [hbody] at he
          injection he with h
          rw [← h]
          constructor
          · intro hc
            have hcc : str "SY03" = str "SY01" := hc
            exact absurd hcc (by decide)
          · intro hc
            exact absurd hd hc.2.1
        · intro m2 _ _ hp2
          injection hp2 with h2
          rw [hbody, ← h2]
        · intro m2 _ hd2 _ _
          exact absurd hd hd2
      · refine ⟨?_, ?_, ?_, ?_⟩
        · intro e he
          rw [hbody] at he
          exact absurd he (by simp)
        · intro e he
          rw [hbody] at he
          exact absurd he (by simp)
        · intro m2 _ _ hp2
          exact Except.noConfusion hp2
        · intro m2 _ hd2 _ _
          exact absurd hd hd2
    · rw [if_neg hd] at hbody
      by_cases hc : jsIndexOf (upStr (normalizeInstr s)) (str "CREDIT") 0 = 0
      · rw [if_pos hc] at hbody
        rcases hp : parseCreditInstruction (normalizeInstr s) with m | d <;> rw [hp] at hbody
        · refine ⟨?_, ?_, ?_, ?_⟩
          · intro e he
            rw [hbody] at he
            injection he with h
            rw [← h]
            right
            rfl
          · intro e he
            rw [hbody] at he
            injection he with h
            rw [← h]
            constructor
            · intro hcc
              have hcc2 : str "SY03" = str "SY01" := hcc
              exact absurd hcc2 (by decide)
            · intro hcc
              exact absurd hc hcc.2.2
          · intro m2 _ hd2 _
            exact absurd hd2 hd
          · intro m2 _ _ _ hp2
            injection hp2 with h2
            rw [hbody, ← h2]
        · refine ⟨?_, ?_, ?_, ?_⟩
          · intro e he
            rw [hbody] at he
            exact absurd he (by simp)
          · intro e he
            rw [hbody] at he
            exact absurd he (by simp)
          · intro m2 _ hd2 _
            exact absurd hd2 hd
          · intro m2 _ _ _ hp2
            exact Except.noConfusion hp2
      · rw [if_neg hc] at hbody
        refine ⟨?_, ?_, ?_, ?_⟩
        · intro e he
          rw [hbody] at he
          injection he with h
          rw [← h]
          left
          rfl
        · intro e he
          rw [hbody] at he
          injection he with h
          rw [← h]
          constructor
          · intro _
            exact ⟨hs, hd, hc⟩
          · intro _
            rfl
        · intro m2 _ hd2 _
          exact absurd hd2 hd
        · intro m2 _ _ hc2 _
          exact absurd hc2 hc

/-- C1: witness instantiating the amended statement on a concrete input. -/
theorem C1_witness :
    parseInstruction (str "DEBIT 1 USD FROM ACCOUNT a FOR CREDIT ACCOUNT b") =
      .error ⟨str "SY03", str "Missing required keyword: TO"⟩ :=
  (C1_parse_error_codes (str "DEBIT 1 USD FROM ACCOUNT a FOR CREDIT ACCOUNT b")).2.2.1
    (str "Missing required keyword: TO") (by decide) (by decide) (by decide)

/-- C6: counterexample to the original claim.  In
"DEBIT FOR USD FROM ACCOUNT a FOR CREDIT TO ACCOUNT b" the search for FOR
starts at offset 0 (not after the preceding ACCOUNT occurrence), so FOR binds
to the stray occurrence at position 6 instead of the first occurrence (29) at
or after the end (26) of the ACCOUNT occurrence; the whole instruction is then
rejected as out of order. -/
theorem C6_counterexample :
    jsIndexOf (upStr (str "DEBIT FOR USD FROM ACCOUNT a FOR CREDIT TO ACCOUNT b"))
        (str "FOR") 0 = 6 ∧
    jsIndexOf (upStr (str "DEBIT FOR USD FROM ACCOUNT a FOR CREDIT TO ACCOUNT b"))
        (str "ACCOUNT") (jsIndexOf (upStr (str "DEBIT FOR USD FROM ACCOUNT a FOR CREDIT TO ACCOUNT b")) (str "FROM") 0) = 19 ∧
    findFrom (str "FOR") (upStr (str "DEBIT FOR USD FROM ACCOUNT a FOR CREDIT TO ACCOUNT b"))
        (19 + 7) = some 29 ∧
    (6 : Int) ≠ 29 ∧
    parseInstruction (str "DEBIT FOR USD FROM ACCOUNT a FOR CREDIT TO ACCOUNT b") =
      .error ⟨str "SY03", str "Invalid keyword order"⟩ := by
  refine ⟨by decide, by decide, by decide, by decide, by decide⟩

/-- C6 (amended): each scan position produced by the two form-specific parsers
is the least occurrence of its keyword at or after the offset the code
actually uses — which is the START position of the previously scanned keyword
(clamped to 0 when that scan failed with -1), except that the FROM and FOR
scans in the DEBIT form (and the TO and FOR scans in the CREDIT form) restart
at offset 0 rather than after the preceding keyword. -/
theorem C6_scan_offsets (s : JStr) :
    (leastOccFrom (str "DEBIT") (upStr s) 0 (jsIndexOf (upStr s) (str "DEBIT") 0) ∧
     leastOccFrom (str "FROM") (upStr s) 0 (jsIndexOf (upStr s) (str "FROM") 0) ∧
     leastOccFrom (str "ACCOUNT") (upStr s) (jsIndexOf (upStr s) (str "FROM") 0).toNat
       (jsIndexOf (upStr s) (str "ACCOUNT") (jsIndexOf (upStr s) (str "FROM") 0)) ∧
     leastOccFrom (str "FOR") (upStr s) 0 (jsIndexOf (upStr s) (str "FOR") 0) ∧
     leastOccFrom (str "CREDIT") (upStr s) (jsIndexOf (upStr s) (str "FOR") 0).toNat
       (jsIndexOf (upStr s) (str "CREDIT") (jsIndexOf (upStr s) (str "FOR") 0)) ∧
     leastOccFrom (str "TO") (upStr s)
       (jsIndexOf (upStr s) (str "CREDIT") (jsIndexOf (upStr s) (str "FOR") 0)).toNat
       (jsIndexOf (upStr s) (str "TO")
         (jsIndexOf (upStr s) (str "CREDIT") (jsIndexOf (upStr s) (str "FOR") 0))) ∧
     leastOccFrom (str "ACCOUNT") (upStr s)
       (jsIndexOf (upStr s) (str "TO")
         (jsIndexOf (upStr s) (str "CREDIT") (jsIndexOf (upStr s) (str "FOR") 0))).toNat
       (jsIndexOf (upStr s) (str "ACCOUNT")
         (jsIndexOf (upStr s) (str "TO")
           (jsIndexOf (upStr s) (str "CREDIT") (jsIndexOf (upStr s) (str "FOR") 0)))) ∧
     leastOccFrom (str "ON") (upStr s)
       (jsIndexOf (upStr s) (str "ACCOUNT")
         (jsIndexOf (upStr s) (str "TO")
           (jsIndexOf (upStr s) (str "CREDIT") (jsIndexOf (upStr s) (str "FOR") 0)))).toNat
       (jsIndexOf (upStr s) (str "ON")
         (jsIndexOf (upStr s) (str "ACCOUNT")
           (jsIndexOf (upStr s) (str "TO")
             (jsIndexOf (upStr s) (str "CREDIT") (jsIndexOf (upStr s) (str "FOR") 0)))))) ∧
    (leastOccFrom (str "CREDIT") (upStr s) 0 (jsIndexOf (upStr s) (str "CREDIT") 0) ∧
     leastOccFrom (str "TO") (upStr s) 0 (jsIndexOf (upStr s) (str "TO") 0) ∧
     leastOccFrom (str "FOR") (upStr s) 0 (jsIndexOf (upStr s) (str "FOR") 0) ∧
     leastOccFrom (str "ACCOUNT") (upStr s) (jsIndexOf (upStr s) (str "TO") 0).toNat
       (jsIndexOf (upStr s) (str "ACCOUNT") (jsIndexOf (upStr s) (str "TO") 0)) ∧
     leastOccFrom (str "DEBIT") (upStr s) (jsIndexOf (upStr s) (str "FOR") 0).toNat
       (jsIndexOf (upStr s) (str "DEBIT") (jsIndexOf (upStr s) (str "FOR") 0)) ∧
     leastOccFrom (str "FROM") (upStr s)
       (jsIndexOf (upStr s) (str "DEBIT") (jsIndexOf (upStr s) (str "FOR") 0)).toNat
       (jsIndexOf (upStr s) (str "FROM")
         (jsIndexOf (upStr s) (str "DEBIT") (jsIndexOf (upStr s) (str "FOR") 0))) ∧
     leastOccFrom (str "ACCOUNT") (upStr s)
       (jsIndexOf (upStr s) (str "FROM")
         (jsIndexOf (upStr s) (str "DEBIT") (jsIndexOf (upStr s) (str "FOR") 0))).toNat
       (jsIndexOf (upStr s) (str "ACCOUNT")
         (jsIndexOf (upStr s) (str "FROM")
           (jsIndexOf (upStr s) (str "DEBIT") (jsIndexOf (upStr s) (str "FOR") 0)))) ∧
     leastOccFrom (str "ON") (upStr s)
       (jsIndexOf (upStr s) (str "ACCOUNT")
         (jsIndexOf (upStr s) (str "FROM")
           (jsIndexOf (upStr s) (str "DEBIT") (jsIndexOf (upStr s) (str "FOR") 0)))).toNat
       (jsIndexOf (upStr s) (str "ON")
         (jsIndexOf (upStr s) (str "ACCOUNT")
           (jsIndexOf (upStr s) (str "FROM")
             (jsIndexOf (upStr s) (str "DEBIT") (jsIndexOf (upStr s) (str "FOR") 0)))))) :=
  ⟨⟨jsIndexOf_leastOcc _ _ _, jsIndexOf_leastOcc _ _ _, jsIndexOf_leastOcc _ _ _,
    jsIndexOf_leastOcc _ _ _, jsIndexOf_leastOcc _ _ _, jsIndexOf_leastOcc _ _ _,
    jsIndexOf_leastOcc _ _ _, jsIndexOf_leastOcc _ _ _⟩,
   ⟨jsIndexOf_leastOcc _ _ _, jsIndexOf_leastOcc _ _ _, jsIndexOf_leastOcc _ _ _,
    jsIndexOf_leastOcc _ _ _, jsIndexOf_leastOcc _ _ _, jsIndexOf_leastOcc _ _ _,
    jsIndexOf_leastOcc _ _ _, jsIndexOf_leastOcc _ _ _⟩⟩

/-- C5: counterexample to the original claim.  The account id FORT (legal per
the AC04 character set) derails the DEBIT-form scan (FOR binds inside FORT)
but not the CREDIT-form scan, so the two equivalent instructions produce
different statuses and different debit_account fields. -/
theorem C5_counterexample :
    (paymentInstructionsService ⟨2025, 1, 1⟩
        ⟨[⟨str "FORT", 100, str "USD"⟩, ⟨str "B", 0, str "USD"⟩],
         str "DEBIT 5 USD FROM ACCOUNT FORT FOR CREDIT TO ACCOUNT B"⟩).1.data.status =
      str "failed" ∧
    (paymentInstructionsService ⟨2025, 1, 1⟩
        ⟨[⟨str "FORT", 100, str "USD"⟩, ⟨str "B", 0, str "USD"⟩],
         str "CREDIT 5 USD TO ACCOUNT B FOR DEBIT FROM ACCOUNT FORT"⟩).1.data.status =
      str "successful" ∧
    (paymentInstructionsService ⟨2025, 1, 1⟩
        ⟨[⟨str "FORT", 100, str "USD"⟩, ⟨str "B", 0, str "USD"⟩],
         str "DEBIT 5 USD FROM ACCOUNT FORT FOR CREDIT TO ACCOUNT B"⟩).1.data.debit_account =
      some [] ∧
    (paymentInstructionsService ⟨2025, 1, 1⟩
        ⟨[⟨str "FORT", 100, str "USD"⟩, ⟨str "B", 0, str "USD"⟩],
         str "CREDIT 5 USD TO ACCOUNT B FOR DEBIT FROM ACCOUNT FORT"⟩).1.data.debit_account =
      some (str "FORT") := by
  refine ⟨by decide, by decide, by decide, by decide⟩

/-- C5 (amended): whenever two instructions parse to DEBIT- and CREDIT-typed
drafts with identical amount, currency, accounts and date, the service
produces identical outcomes — same HTTP status, amount, currency,
debit_account, credit_account, execute_by, status, reason, code, account
snapshots, and final balances — differing only in the reported type. -/
theorem C5_symmetry (now : Date3) (accounts : List Account)
    (s1 s2 : JStr) (amt cur da ca : JStr) (eb : Option JStr)
    (r1 r2 : Response × List Account)
    (h1 : parseInstruction s1 = .ok ⟨str "DEBIT", amt, cur, da, ca, eb⟩)
    (h2 : parseInstruction s2 = .ok ⟨str "CREDIT", amt, cur, da, ca, eb⟩)
    (hr1 : paymentInstructionsService now ⟨accounts, s1⟩ = r1)
    (hr2 : paymentInstructionsService now ⟨accounts, s2⟩ = r2) :
    r1.1.data.rtype = some (str "DEBIT") ∧
    r2.1.data.rtype = some (str "CREDIT") ∧
    r1.1.httpStatus = r2.1.httpStatus ∧
    r1.1.data.amount = r2.1.data.amount ∧
    r1.1.data.currency = r2.1.data.currency ∧
    r1.1.data.debit_account = r2.1.data.debit_account ∧
    r1.1.data.credit_account = r2.1.data.credit_account ∧
    r1.1.data.execute_by = r2.1.data.execute_by ∧
    r1.1.data.status = r2.1.data.status ∧
    r1.1.data.status_reason = r2.1.data.status_reason ∧
    r1.1.data.status_code = r2.1.data.status_code ∧
    r1.1.data.raccounts = r2.1.data.raccounts ∧
    r1.2 = r2.2 := by
  subst hr1
  subst hr2
  rw [service_ok now accounts s1 _ h1, service_ok now accounts s2 _ h2]
  have hval : validateInstruction ⟨str "CREDIT", amt, cur, da, ca, eb⟩ accounts =
      validateInstruction ⟨str "DEBIT", amt, cur, da, ca, eb⟩ accounts := rfl
  have hexec : executeTransaction ⟨str "CREDIT", amt, cur, da, ca, eb⟩ accounts =
      executeTransaction ⟨str "DEBIT", amt, cur, da, ca, eb⟩ accounts := rfl
  rw [hval, hexec]
  dsimp only
  rcases hv : validateInstruction ⟨str "DEBIT", amt, cur, da, ca, eb⟩ accounts with _ | ve
  · by_cases hse : shouldExecuteImmediately eb now = true
    · rw [hse]
      simp
    · rw [Bool.not_eq_true] at hse
      rw [hse]
      simp
  · simp

/-- C5: witness instantiating the symmetry theorem on concrete instructions. -/
theorem C5_witness :
    (paymentInstructionsService ⟨2025, 1, 1⟩
        ⟨[⟨str "a", 10, str "USD"⟩, ⟨str "b", 0, str "USD"⟩],
         str "DEBIT 5 USD FROM ACCOUNT a FOR CREDIT TO ACCOUNT b"⟩).1.data.rtype =
      some (str "DEBIT") ∧
    (paymentInstructionsService ⟨2025, 1, 1⟩
        ⟨[⟨str "a", 10, str "USD"⟩, ⟨str "b", 0, str "USD"⟩],
         str "CREDIT 5 USD TO ACCOUNT b FOR DEBIT FROM ACCOUNT a"⟩).1.data.rtype =
      some (str "CREDIT") ∧
    (paymentInstructionsService ⟨2025, 1, 1⟩
        ⟨[⟨str "a", 10, str "USD"⟩, ⟨str "b", 0, str "USD"⟩],
         str "DEBIT 5 USD FROM ACCOUNT a FOR CREDIT TO ACCOUNT b"⟩).1.data.status =
      (paymentInstructionsService ⟨2025, 1, 1⟩
        ⟨[⟨str "a", 10, str "USD"⟩, ⟨str "b", 0, str "USD"⟩],
         str "CREDIT 5 USD TO ACCOUNT b FOR DEBIT FROM ACCOUNT a"⟩).1.data.status ∧
    (paymentInstructionsService ⟨2025, 1, 1⟩
        ⟨[⟨str "a", 10, str "USD"⟩, ⟨str "b", 0, str "USD"⟩],
         str "DEBIT 5 USD FROM ACCOUNT a FOR CREDIT TO ACCOUNT b"⟩).2 =
      (paymentInstructionsService ⟨2025, 1, 1⟩
        ⟨[⟨str "a", 10, str "USD"⟩, ⟨str "b", 0, str "USD"⟩],
         str "CREDIT 5 USD TO ACCOUNT b FOR DEBIT FROM ACCOUNT a"⟩).2 := by
  have h := C5_symmetry ⟨2025, 1, 1⟩
    [⟨str "a", 10, str "USD"⟩, ⟨str "b", 0, str "USD"⟩]
    (str "DEBIT 5 USD FROM ACCOUNT a FOR CREDIT TO ACCOUNT b")
    (str "CREDIT 5 USD TO ACCOUNT b FOR DEBIT FROM ACCOUNT a")
    (str "5") (str "USD") (str "a") (str "b") none _ _
    (by decide) (by decide) rfl rfl
  exact ⟨h.1, h.2.1, h.2.2.2.2.2.2.2.2.1, h.2.2.2.2.2.2.2.2.2.2.2.2⟩

/-- C4: counterexample to the original claim.  FORT is a legal account id
(AC04 character set), and the instruction matches the DEBIT grammar, yet the
FOR scan (which starts at offset 0) binds inside FORT, so the parser succeeds
with an EMPTY debit account instead of FORT. -/
theorem C4_counterexample :
    isValidAccountId (str "FORT") = true ∧
    parseInstruction (str "DEBIT 5 USD FROM ACCOUNT FORT FOR CREDIT TO ACCOUNT B") =
      .ok ⟨str "DEBIT", str "5", str "USD", [], str "B", none⟩ ∧
    ([] : JStr) ≠ str "FORT" := by
  refine ⟨by decide, by decide, by decide⟩

/-- C4 (amended): for every instruction of the grammar family
`<DEBIT> <amount> <currency> <FROM> <ACCOUNT> <id> <FOR> <CREDIT> <TO>
<ACCOUNT> <id> [<ON> <date>]` (and the CREDIT-led mirror form), with
case-variant keywords, whitespace-free nonempty tokens, and payload tokens
whose uppercase images contain no occurrence of any scanner keyword, the
parser succeeds and returns exactly the instruction's constituents: the
amount, the upcased currency, the two account ids bound to the correct roles,
and the optional date. -/
theorem C4_parser_extraction
    (debitW fromW accW1 forW credW toW accW2 onW amt cur d c dt : JStr)
    (hupD : upStr debitW = str "DEBIT") (hupF : upStr fromW = str "FROM")
    (hupA1 : upStr accW1 = str "ACCOUNT") (hupFo : upStr forW = str "FOR")
    (hupC : upStr credW = str "CREDIT") (hupT : upStr toW = str "TO")
    (hupA2 : upStr accW2 = str "ACCOUNT") (hupO : upStr onW = str "ON")
    (hgD : goodToken debitW) (hgF : goodToken fromW) (hgA1 : goodToken accW1)
    (hgFo : goodToken forW) (hgC : goodToken credW) (hgT : goodToken toW)
    (hgA2 : goodToken accW2) (hgO : goodToken onW)
    (hgd : goodToken d) (hgcc : goodToken c) (hgdt : goodToken dt)
    (hga : goodToken amt) (hgc : goodToken cur)
    (hka : kwFree amt) (hkc : kwFree cur) (hkd : kwFree d) (hkcc : kwFree c)
    (hkdt : kwFree dt) :
    parseInstruction (joinSpace [debitW, amt, cur, fromW, accW1, d, forW,
        credW, toW, accW2, c, onW, dt]) =
      .ok ⟨str "DEBIT", amt, upStr cur, d, c, some dt⟩ ∧
    parseInstruction (joinSpace [debitW, amt, cur, fromW, accW1, d, forW,
        credW, toW, accW2, c]) =
      .ok ⟨str "DEBIT", amt, upStr cur, d, c, none⟩ ∧
    parseInstruction (joinSpace [credW, amt, cur, toW, accW1, c, forW,
        debitW, fromW, accW2, d, onW, dt]) =
      .ok ⟨str "CREDIT", amt, upStr cur, d, c, some dt⟩ ∧
    parseInstruction (joinSpace [credW, amt, cur, toW, accW1, c, forW,
        debitW, fromW, accW2, d]) =
      .ok ⟨str "CREDIT", amt, upStr cur, d, c, none⟩ := by
  have hm1 := parseDebit_extract_on debitW fromW accW1 forW credW toW accW2 onW
    amt cur d c dt hupD hupF hupA1 hupFo hupC hupT hupA2 hupO hgd hgcc hgdt
    hga hgc hka hkc hkd hkcc hkdt
  have hm2 := parseDebit_extract_noDate debitW fromW accW1 forW credW toW accW2
    amt cur d c hupD hupF hupA1 hupFo hupC hupT hupA2 hgd hgcc hga hgc
    hka hkc hkd hkcc
  have hm3 := parseCredit_extract_on debitW fromW accW1 forW credW toW accW2 onW
    amt cur d c dt hupD hupF hupA1 hupFo hupC hupT hupA2 hupO hgd hgcc hgdt
    hga hgc hka hkc hkd hkcc hkdt
  have hm4 := parseCredit_extract_noDate debitW fromW accW1 forW credW toW accW2
    amt cur d c hupD hupF hupA1 hupFo hupC hupT hupA2 hgd hgcc hga hgc
    hka hkc hkd hkcc
  have hne1 : joinSpace [debitW, amt, cur, fromW, accW1, d, forW, credW, toW,
      accW2, c, onW, dt] ≠ [] := joinSpace_ne_nil _ _ hgD.1
  have hne2 : joinSpace [debitW, amt, cur, fromW, accW1, d, forW, credW, toW,
      accW2, c] ≠ [] := joinSpace_ne_nil _ _ hgD.1
  have hne3 : joinSpace [credW, amt, cur, toW, accW1, c, forW, debitW, fromW,
      accW2, d, onW, dt] ≠ [] := joinSpace_ne_nil _ _ hgC.1
  have hne4 : joinSpace [credW, amt, cur, toW, accW1, c, forW, debitW, fromW,
      accW2, d] ≠ [] := joinSpace_ne_nil _ _ hgC.1
  have hnorm1 : normalizeInstr (joinSpace [debitW, amt, cur, fromW, accW1, d,
      forW, credW, toW, accW2, c, onW, dt]) =
      joinSpace [debitW, amt, cur, fromW, accW1, d, forW, credW, toW, accW2,
        c, onW, dt] := by
    apply normalizeInstr_joinSpace _ (by simp)
    · intro w hw
      simp only [List.mem_cons, List.not_mem_nil, or_false] at hw
      rcases hw with rfl | rfl | rfl | rfl | rfl | rfl | rfl | rfl | rfl | rfl
        | rfl | rfl | rfl <;>
        first
          | exact hgD.1 | exact hgF.1 | exact hgA1.1 | exact hgFo.1
          | exact hgC.1 | exact hgT.1 | exact hgA2.1 | exact hgO.1
          | exact hga.1 | exact hgc.1 | exact hgd.1 | exact hgcc.1
          | exact hgdt.1
    · intro w hw
      simp only [List.mem_cons, List.not_mem_nil, or_false] at hw
      rcases hw with rfl | rfl | rfl | rfl | rfl | rfl | rfl | rfl | rfl | rfl
        | rfl | rfl | rfl <;>
        first
          | exact hgD.2 | exact hgF.2 | exact hgA1.2 | exact hgFo.2
          | exact hgC.2 | exact hgT.2 | exact hgA2.2 | exact hgO.2
          | exact hga.2 | exact hgc.2 | exact hgd.2 | exact hgcc.2
          | exact hgdt.2
  have hnorm2 : normalizeInstr (joinSpace [debitW, amt, cur, fromW, accW1, d,
      forW, credW, toW, accW2, c]) =
      joinSpace [debitW, amt, cur, fromW, accW1, d, forW, credW, toW, accW2,
        c] := by
    apply normalizeInstr_joinSpace _ (by simp)
    · intro w hw
      simp only [List.mem_cons, List.not_mem_nil, or_false] at hw
      rcases hw with rfl | rfl | rfl | rfl | rfl | rfl | rfl | rfl | rfl | rfl
        | rfl <;>
        first
          | exact hgD.1 | exact hgF.1 | exact hgA1.1 | exact hgFo.1
          | exact hgC.1 | exact hgT.1 | exact hgA2.1
          | exact hga.1 | exact hgc.1 | exact hgd.1 | exact hgcc.1
    · intro w hw
      simp only [List.mem_cons, List.not_mem_nil, or_false] at hw
      rcases hw with rfl | rfl | rfl | rfl | rfl | rfl | rfl | rfl | rfl | rfl
        | rfl <;>
        first
          | exact hgD.2 | exact hgF.2 | exact hgA1.2 | exact hgFo.2
          | exact hgC.2 | exact hgT.2 | exact hgA2.2
          | exact hga.2 | exact hgc.2 | exact hgd.2 | exact hgcc.2
  have hnorm3 : normalizeInstr (joinSpace [credW, amt, cur, toW, accW1, c,
      forW, debitW, fromW, accW2, d, onW, dt]) =
      joinSpace [credW, amt, cur, toW, accW1, c, forW, debitW, fromW, accW2,
        d, onW, dt] := by
    apply normalizeInstr_joinSpace _ (by simp)
    · intro w hw
      simp only [List.mem_cons, List.not_mem_nil, or_false] at hw
      rcases hw with rfl | rfl | rfl | rfl | rfl | rfl | rfl | rfl | rfl | rfl
        | rfl | rfl | rfl <;>
        first
          | exact hgD.1 | exact hgF.1 | exact hgA1.1 | exact hgFo.1
          | exact hgC.1 | exact hgT.1 | exact hgA2.1 | exact hgO.1
          | exact hga.1 | exact hgc.1 | exact hgd.1 | exact hgcc.1
          | exact hgdt.1
    · intro w hw
      simp only [List.mem_cons, List.not_mem_nil, or_false] at hw
      rcases hw with rfl | rfl | rfl | rfl | rfl | rfl | rfl | rfl | rfl | rfl
        | rfl | rfl | rfl <;>
        first
          | exact hgD.2 | exact hgF.2 | exact hgA1.2 | exact hgFo.2
          | exact hgC.2 | exact hgT.2 | exact hgA2.2 | exact hgO.2
          | exact hga.2 | exact hgc.2 | exact hgd.2 | exact hgcc.2
          | exact hgdt.2
  have hnorm4 : normalizeInstr (joinSpace [credW, amt, cur, toW, accW1, c,
      forW, debitW, fromW, accW2, d]) =
      joinSpace [credW, amt, cur, toW, accW1, c, forW, debitW, fromW, accW2,
        d] := by
    apply normalizeInstr_joinSpace _ (by simp)
    · intro w hw
      simp only [List.mem_cons, List.not_mem_nil, or_false] at hw
      rcases hw with rfl | rfl | rfl | rfl | rfl | rfl | rfl | rfl | rfl | rfl
        | rfl <;>
        first
          | exact hgD.1 | exact hgF.1 | exact hgA1.1 | exact hgFo.1
          | exact hgC.1 | exact hgT.1 | exact hgA2.1
          | exact hga.1 | exact hgc.1 | exact hgd.1 | exact hgcc.1
    · intro w hw
      simp only [List.mem_cons, List.not_mem_nil, or_false] at hw
      rcases hw with rfl | rfl | rfl | rfl | rfl | rfl | rfl | rfl | rfl | rfl
        | rfl <;>
        first
          | exact hgD.2 | exact hgF.2 | exact hgA1.2 | exact hgFo.2
          | exact hgC.2 | exact hgT.2 | exact hgA2.2
          | exact hga.2 | exact hgc.2 | exact hgd.2 | exact hgcc.2
  refine ⟨?_, ?_, ?_, ?_⟩
  · unfold parseInstruction
    rw [if_neg hne1]
    dsimp only
    rw [hnorm1, hm1.2, if_pos rfl, hm1.1]
  · unfold parseInstruction
    rw [if_neg hne2]
    dsimp only
    rw [hnorm2, hm2.2, if_pos rfl, hm2.1]
  · unfold parseInstruction
    rw [if_neg hne3]
    dsimp only
    rw [hnorm3, if_neg hm3.2.1, hm3.2.2, if_pos rfl, hm3.1]
  · unfold parseInstruction
    rw [if_neg hne4]
    dsimp only
    rw [hnorm4, if_neg hm4.2.1, hm4.2.2, if_pos rfl, hm4.1]

/-- C4: witness instantiating the amended extraction theorem on concrete
tokens, with mixed-case keywords and an explicit date. -/
theorem C4_witness :
    parseInstruction (str "Debit 100 usd FROM ACCOUNT alice FOR CREDIT TO ACCOUNT bob ON 2025-01-15") =
      .ok ⟨str "DEBIT", str "100", str "USD", str "alice", str "bob",
        some (str "2025-01-15")⟩ ∧
    parseInstruction (str "CREDIT 100 usd TO ACCOUNT bob FOR Debit FROM ACCOUNT alice") =
      .ok ⟨str "CREDIT", str "100", str "USD", str "alice", str "bob", none⟩ := by
  have h := C4_parser_extraction (str "Debit") (str "FROM") (str "ACCOUNT")
    (str "FOR") (str "CREDIT") (str "TO") (str "ACCOUNT") (str "ON")
    (str "100") (str "usd") (str "alice") (str "bob") (str "2025-01-15")
    (by decide) (by decide) (by decide) (by decide) (by decide) (by decide)
    (by decide) (by decide) (by decide) (by decide) (by decide) (by decide)
    (by decide) (by decide) (by decide) (by decide) (by decide) (by decide)
    (by decide) (by decide) (by decide) (by decide) (by decide) (by decide)
    (by decide) (by decide)
  constructor
  · rw [show str "Debit 100 usd FROM ACCOUNT alice FOR CREDIT TO ACCOUNT bob ON 2025-01-15" =
      joinSpace [str "Debit", str "100", str "usd", str "FROM", str "ACCOUNT",
        str "alice", str "FOR", str "CREDIT", str "TO", str "ACCOUNT",
        str "bob", str "ON", str "2025-01-15"] from by decide]
    rw [show str "USD" = upStr (str "usd") from by decide]
    exact h.1
  · rw [show str "CREDIT 100 usd TO ACCOUNT bob FOR Debit FROM ACCOUNT alice" =
      joinSpace [str "CREDIT", str "100", str "usd", str "TO", str "ACCOUNT",
        str "bob", str "FOR", str "Debit", str "FROM", str "ACCOUNT",
        str "alice"] from by decide]
    rw [show str "USD" = upStr (str "usd") from by decide]
    exact h.2.2.2
